import Mathlib

/-!
# STEPS: converter models, blocks, sparse matrices, the Jacobian builder and API utilities

Shallow embedding of `pvcv0.cpp`, `wt3g2.cpp`, `wtg_model.cpp`,
`steps_api_common_utilities.cpp` and `steps_api_get_device_count.cpp`, of the contract
of `sparse_matrix_csparse.h`, and of what the specification and the test
`jacobian_builder_test.cpp` say of the block classes and the Jacobian builder.

Conventions of the embedding

* `double` is a linear ordered field `F` (the reals in the numeric theorems, the
  rationals when a definition is evaluated).  Division follows the field: `x / 0 = 0`.
  The quotient of the field is the quotient of the code where the divisor is not zero;
  a division by `0.0` leaves an infinity or NaN in the code, which is no number of the
  field.  `DOUBLE.div` is the division with these values; the Norton current of PVCV0
  and the argument `run` hands to the PLL frequency integrator are given with it.
  The only place where the code divides by a possibly zero value on purpose is
  `set_KIPLL` / `get_KIPLL` (`T = 1.0/K`, `K = 1.0/T`): IEEE gives `1.0/0.0 = inf`
  and `1.0/inf = 0.0`, so `K = 0` reads back as `0`; the field gives `T = 0` and
  reads back `0` as well.
* `std::complex<double>` is `Cplx F`, a pair with the usual operations.
* The classes `BLOCK` (`INTEGRAL_BLOCK`, `FIRST_ORDER_BLOCK`), `LVPL`, the model base
  classes and the `libm` functions are not part of the sources at hand.  A block is a
  record of its parameters and signals; setters store their argument, and the two
  limit setters refuse a value that would put the upper limit below the lower limit
  (`InvalidLimits`): `initialize`, `set_PLLmax` and `set_PLLmin` are the runs in which
  the block accepts the value, the definitions named `..._reporting` tell when it
  does.  For the
  converter models the signals `BLOCK::initialize` and `BLOCK::run` compute are a
  parameter (`Ext`), and these two methods leave the configuration of the block (type
  of limiter, gain, time constant, limits) as the setters wrote it.  What the two
  methods compute is modelled from the specification in the section on the
  computations of a block.
* Every call a model makes on one of its blocks or flags is recorded, in order, in the
  field `calls` of the model, so that "which block was driven, and when" is a
  statement about that list.
* The API utilities work on a toolkit that is passed in and returned; texts are
  `String`, `size_t` is `Nat`.
* `get_variable_with_name` returns its value together with the `return` statement that
  was reached; a value is `none` where the code dereferences a NULL pointer, and
  where the value of PVCV0 is not a number.
-/

namespace STEPS

/-! ## Numbers -/

/-- Value of type `std::complex<double>`. -/
structure Cplx (F : Type) where
  re : F
  im : F

namespace Cplx

variable {F : Type} [Field F]

/-- Sum of two complex numbers, `a + b`. -/
def add (a b : Cplx F) : Cplx F := ⟨a.re + b.re, a.im + b.im⟩

/-- Difference of two complex numbers, `a - b`. -/
def sub (a b : Cplx F) : Cplx F := ⟨a.re - b.re, a.im - b.im⟩

/-- Product of two complex numbers, `a * b`. -/
def mul (a b : Cplx F) : Cplx F :=
  ⟨a.re * b.re - a.im * b.im, a.re * b.im + a.im * b.re⟩

/-- Quotient of two complex numbers, `a / b`. -/
def div (a b : Cplx F) : Cplx F :=
  ⟨(a.re * b.re + a.im * b.im) / (b.re * b.re + b.im * b.im),
   (a.im * b.re - a.re * b.im) / (b.re * b.re + b.im * b.im)⟩

/-- Complex conjugate, `conj(a)`. -/
def conj (a : Cplx F) : Cplx F := ⟨a.re, -a.im⟩

/-- Product with a real, `a * k` for `k` a `double`. -/
def smul (a : Cplx F) (k : F) : Cplx F := ⟨a.re * k, a.im * k⟩

/-- Quotient by a real, `a / k` for `k` a `double`. -/
def sdiv (a : Cplx F) (k : F) : Cplx F := ⟨a.re / k, a.im / k⟩

end Cplx

/-- A value of type `double` as a division leaves it: a number of the field, an
infinity, or NaN. -/
inductive DOUBLE (F : Type) where
  | finite (x : F)
  | infinity (negative : Bool)
  | NaN

namespace DOUBLE

variable {F : Type} [LinearOrderedField F]

/-- Quotient of two finite doubles, `x / y` (IEEE 754): with `y = 0.0` the quotient is
NaN for `x = 0.0` and otherwise an infinity with the sign of `x` (the zero of the field
is `+0.0`, the value of the literal `0.0` and of a parsed `0`). -/
def div (x y : F) : DOUBLE F :=
  if y = 0 then (if x = 0 then NaN else infinity (decide (x < 0))) else finite (x / y)

/-- Comparison `a < b` of a double with a finite double: minus infinity is below every
number, plus infinity and NaN are below none. -/
def lt (a : DOUBLE F) (b : F) : Bool :=
  match a with
  | finite x => decide (x < b)
  | infinity negative => negative
  | NaN => false

end DOUBLE

/-! ## Blocks -/

/-- Limiter policy of a block (`set_limiter_type`). -/
inductive LIMITER_TYPE where
  | NO_LIMITER
  | WINDUP_LIMITER
  | NON_WINDUP_LIMITER
deriving DecidableEq, Repr

/-- Phase of `run(mode)`. -/
inductive DYNAMIC_MODE where
  | INTEGRATE_MODE
  | UPDATE_MODE
deriving DecidableEq, Repr

/-- The five blocks a PVCV0 / WT3G2 model owns. -/
inductive BlockId where
  | active_current_commander
  | reactive_voltage_commander
  | PLL_frequency_integrator
  | PLL_angle_integrator
  | LVPL_voltage_sensor
deriving DecidableEq, Repr

/-- Modelled from the spec: the class `BLOCK` is not in the sources at hand.  A block
has "a gain, one or two time constants, an internal state vector ..., output limits, and
a limiter policy", an input and an output.  `state` and `store` are the internal
variables the block integrates; only `BLOCK::initialize` and `BLOCK::run` write them. -/
structure BLOCK (F : Type) where
  limiter_type : LIMITER_TYPE
  K : F
  T : F
  upper_limit : F
  lower_limit : F
  input : F
  output : F
  state : F
  store : F

/-- Modelled from the spec: the block `b` with the signals (input, output, state,
store) of `r`.  A block is "configured (gain, time constant, limits)" and then
initialized and run: the configuration of a block (limiter type, gain, time constant, limits) is written by its
setters only; `BLOCK::initialize` and `BLOCK::run` compute signals. -/
def BLOCK.with_signals_of {F : Type} (b r : BLOCK F) : BLOCK F :=
  { b with input := r.input, output := r.output, state := r.state, store := r.store }

/-- The misconfigurations of a block in the error taxonomy of the specification:
"`InvalidLimits`/`InvalidTimeConstant` (block misconfiguration)". -/
inductive BLOCK_ERROR where
  | InvalidLimits
  | InvalidTimeConstant
deriving DecidableEq, Repr

/-- Modelled from the spec: `BLOCK::set_upper_limit(v)` (class `BLOCK`, not in the
sources at hand).  "Limiter upper bound below lower bound is a configuration error
(`InvalidLimits`)" and the core "only returns/raises structured failures": a value
below the lower limit of the block is refused with `InvalidLimits`, any other value is
stored. -/
def BLOCK.set_upper_limit {F : Type} [LinearOrderedField F] (b : BLOCK F) (v : F) :
    Except BLOCK_ERROR (BLOCK F) :=
  if v < b.lower_limit then .error .InvalidLimits else .ok { b with upper_limit := v }

/-- Modelled from the spec: `BLOCK::set_lower_limit(v)` (class `BLOCK`, not in the
sources at hand): a value above the upper limit of the block is refused with
`InvalidLimits`, any other value is stored. -/
def BLOCK.set_lower_limit {F : Type} [LinearOrderedField F] (b : BLOCK F) (v : F) :
    Except BLOCK_ERROR (BLOCK F) :=
  if b.upper_limit < v then .error .InvalidLimits else .ok { b with lower_limit := v }

/-- Parameters of the low voltage power logic, as set by `setup_model_with_psse_string`. -/
structure LVPL (F : Type) where
  low_voltage_in_pu : F
  high_voltage_in_pu : F
  gain_at_high_voltage : F

/-- Functions the models call whose code is not in the sources at hand: the `libm`
functions, the utilities of `utility.h`, `LVPL::get_LVPL_order`, and the two
methods of a block that compute (`initialize`, `run`). -/
structure Ext (F : Type) where
  PI : F
  cos : F → F
  sin : F → F
  atan2 : F → F → F
  steps_fast_complex_abs : Cplx F → F
  rad2deg : F → F
  deg2rad : F → F
  get_LVPL_order : LVPL F → F → F
  initialize_block : BlockId → BLOCK F → BLOCK F
  run_block : BlockId → DYNAMIC_MODE → BLOCK F → BLOCK F

/-- One recorded call of a model on a block or on one of its own flags. -/
inductive Call (F : Type) where
  | set_T_in_s (b : BlockId) (t : F)
  | set_upper_limit (b : BlockId) (v : F)
  | set_lower_limit (b : BlockId) (v : F)
  | set_input (b : BlockId) (x : F)
  | set_output (b : BlockId) (x : F)
  | initialize_block (b : BlockId)
  | run (b : BlockId) (mode : DYNAMIC_MODE)
  | set_flag_model_initialized_as_true
  | set_flag_model_updated_as_true
  | show_information_with_leading_time_stamp

namespace Call

variable {F : Type}

/-- Whether the call is `b.run(mode)`. -/
def isRun (b : BlockId) (mode : DYNAMIC_MODE) : Call F → Bool
  | run b1 m1 => decide (b1 = b) && decide (m1 = mode)
  | _ => false

/-- Whether the call is `b.set_output(x)` for some `x`. -/
def isSetOutput (b : BlockId) : Call F → Bool
  | set_output b1 _ => decide (b1 = b)
  | _ => false

/-- Whether the call is `b.initialize()`. -/
def isInitializeBlock (b : BlockId) : Call F → Bool
  | initialize_block b1 => decide (b1 = b)
  | _ => false

/-- Whether the call is `set_flag_model_initialized_as_true()`. -/
def isSetInitialized : Call F → Bool
  | set_flag_model_initialized_as_true => true
  | _ => false

/-- Whether the call is `set_flag_model_updated_as_true()`. -/
def isSetUpdated : Call F → Bool
  | set_flag_model_updated_as_true => true
  | _ => false

/-- Whether the call overwrites the stored state of a block: `set_output` or
`initialize` on any block. -/
def isCommit : Call F → Bool
  | set_output _ _ => true
  | initialize_block _ => true
  | _ => false

end Call

/-- All five blocks, in the order of the class declaration. -/
def allBlocks : List BlockId :=
  [.active_current_commander, .reactive_voltage_commander, .PLL_frequency_integrator,
   .PLL_angle_integrator, .LVPL_voltage_sensor]

/-- In the recorded calls `tr`, block `b` is back-solved before the initialized flag is
set: among the calls that precede the first `set_flag_model_initialized_as_true`
there is a `b.set_output(_)` followed, later, by `b.initialize()`. -/
def backSolvedBeforeFlag {F : Type} (tr : List (Call F)) (b : BlockId) : Bool :=
  ((tr.takeWhile (fun c => !c.isSetInitialized)).dropWhile
      (fun c => !c.isSetOutput b)).any (fun c => c.isInitializeBlock b)

/-! ## Devices -/

/-- What the models read from the power system database. -/
structure POWER_SYSTEM_DATABASE (F : Type) where
  system_base_frequency_in_Hz : F
  system_base_power_in_MVA : F
  /-- Complex voltage of the bus the unit is connected to, `get_bus_complex_voltage_in_pu(bus)`. -/
  bus_complex_voltage_in_pu : Cplx F
  /-- Base frequency of that bus, `get_bus_base_frequency_in_Hz(bus)`. -/
  bus_base_frequency_in_Hz : F
  /-- Base voltage of that bus, `get_bus_base_voltage_in_kV(bus)`. -/
  bus_base_voltage_in_kV : F

/-- A PV unit, the device a PVCV0 model is attached to; `psdb = none` is the NULL
database pointer. -/
structure PV_UNIT (F : Type) where
  psdb : Option (POWER_SYSTEM_DATABASE F)
  number_of_lumped_pv_units : Nat
  mbase_in_MVA : F
  p_generation_in_MW : F
  q_generation_in_MVar : F
  source_impedance_in_pu : Cplx F

/-- A wind turbine generator, the device a WT3G2 model is attached to. -/
structure WT_GENERATOR (F : Type) where
  number_of_lumped_wt_generators : Nat
  mbase_in_MVA : F
  p_generation_in_MW : F
  q_generation_in_MVar : F
  source_impedance_in_pu : Cplx F

/-! ## The converter model state -/

/-- Data members of class `PVCV0` and of class `WT3G2` (both declare the same members)
together with what they inherit from `MODEL`: the flags, the stored initial current
commands and the device pointer (`device = none` is the NULL pointer).  `calls` records
the calls made so far. -/
structure CONVERTER (F D : Type) where
  active_current_commander : BLOCK F
  reactive_voltage_commander : BLOCK F
  PLL_frequency_integrator : BLOCK F
  PLL_angle_integrator : BLOCK F
  LVPL_voltage_sensor : BLOCK F
  KPLL : F
  lvpl : LVPL F
  HVRCR_voltage : F
  HVRCR_current : F
  LVPL_active_power_change_rate : F
  current_source_flag : Bool
  initial_active_current_command_in_pu_based_on_mbase : F
  initial_reactive_current_command_in_pu_based_on_mbase : F
  flag_model_initialized : Bool
  flag_model_updated : Bool
  device : Option D
  calls : List (Call F)

/-- The current commands a converter model reads from its base class
(`get_active_current_command_in_pu_based_on_mbase()` and the reactive one); the base
classes `PV_CONVERTER_MODEL` / `WT_GENERATOR_MODEL` are not in the sources at hand. -/
structure Cmd (F D : Type) where
  get_active_current_command_in_pu_based_on_mbase : CONVERTER F D → F
  get_reactive_current_command_in_pu_based_on_mbase : CONVERTER F D → F

namespace CONVERTER

variable {F D : Type}

/-- The block with the given name. -/
def block (s : CONVERTER F D) : BlockId → BLOCK F
  | .active_current_commander => s.active_current_commander
  | .reactive_voltage_commander => s.reactive_voltage_commander
  | .PLL_frequency_integrator => s.PLL_frequency_integrator
  | .PLL_angle_integrator => s.PLL_angle_integrator
  | .LVPL_voltage_sensor => s.LVPL_voltage_sensor

/-- Replace the block with the given name. -/
def setBlock (s : CONVERTER F D) (b : BlockId) (v : BLOCK F) : CONVERTER F D :=
  match b with
  | .active_current_commander => { s with active_current_commander := v }
  | .reactive_voltage_commander => { s with reactive_voltage_commander := v }
  | .PLL_frequency_integrator => { s with PLL_frequency_integrator := v }
  | .PLL_angle_integrator => { s with PLL_angle_integrator := v }
  | .LVPL_voltage_sensor => { s with LVPL_voltage_sensor := v }

/-- Append one call to the record. -/
def record (s : CONVERTER F D) (c : Call F) : CONVERTER F D :=
  { s with calls := s.calls ++ [c] }

/-- Modelled from the spec: the call `b.set_T_in_s(t)` of a block (class `BLOCK`, not in the
sources at hand) stores the time constant. -/
def call_set_T_in_s (s : CONVERTER F D) (b : BlockId) (t : F) : CONVERTER F D :=
  (s.setBlock b { s.block b with T := t }).record (Call.set_T_in_s b t)

/-- Modelled from the spec: the call `b.set_upper_limit(v)` of a block (class `BLOCK`,
not in the sources at hand) that accepts `v`: the upper limit is stored.  A value below
the lower limit is refused (`BLOCK.set_upper_limit`, `InvalidLimits`); the call with
this failure is `call_set_upper_limit_reporting`. -/
def call_set_upper_limit (s : CONVERTER F D) (b : BlockId) (v : F) : CONVERTER F D :=
  (s.setBlock b { s.block b with upper_limit := v }).record (Call.set_upper_limit b v)

/-- Modelled from the spec: the call `b.set_lower_limit(v)` of a block (class `BLOCK`,
not in the sources at hand) that accepts `v`: the lower limit is stored.  A value above
the upper limit is refused (`BLOCK.set_lower_limit`, `InvalidLimits`); the call with
this failure is `call_set_lower_limit_reporting`. -/
def call_set_lower_limit (s : CONVERTER F D) (b : BlockId) (v : F) : CONVERTER F D :=
  (s.setBlock b { s.block b with lower_limit := v }).record (Call.set_lower_limit b v)

/-- Modelled from the spec: the call `b.set_input(x)` of a block (class `BLOCK`, not in the
sources at hand) stores the input. -/
def call_set_input (s : CONVERTER F D) (b : BlockId) (x : F) : CONVERTER F D :=
  (s.setBlock b { s.block b with input := x }).record (Call.set_input b x)

/-- Modelled from the spec: the call `b.set_output(x)` of a block (class `BLOCK`, not in the
sources at hand) stores the output. -/
def call_set_output (s : CONVERTER F D) (b : BlockId) (x : F) : CONVERTER F D :=
  (s.setBlock b { s.block b with output := x }).record (Call.set_output b x)

/-- The call `b.initialize()`: the block recomputes its signals. -/
def call_initialize_block (E : Ext F) (s : CONVERTER F D) (b : BlockId) : CONVERTER F D :=
  (s.setBlock b ((s.block b).with_signals_of (E.initialize_block b (s.block b)))).record
    (Call.initialize_block b)

/-- The call `b.run(mode)`: the block recomputes its signals. -/
def call_run (E : Ext F) (s : CONVERTER F D) (b : BlockId) (mode : DYNAMIC_MODE) :
    CONVERTER F D :=
  (s.setBlock b ((s.block b).with_signals_of (E.run_block b mode (s.block b)))).record
    (Call.run b mode)

/-- Modelled from the spec: `MODEL::is_model_initialized()` (the class `MODEL` is not in
the sources at hand), the "internal initialized flag". -/
def is_model_initialized (s : CONVERTER F D) : Bool := s.flag_model_initialized

/-- Modelled from the spec: `MODEL::set_flag_model_initialized_as_true()`, which sets
the "internal initialized flag". -/
def set_flag_model_initialized_as_true (s : CONVERTER F D) : CONVERTER F D :=
  { s with flag_model_initialized := true }.record Call.set_flag_model_initialized_as_true

/-- Modelled from the spec: `MODEL::set_flag_model_updated_as_true()`, which sets the
flag that tells the model was updated. -/
def set_flag_model_updated_as_true (s : CONVERTER F D) : CONVERTER F D :=
  { s with flag_model_updated := true }.record Call.set_flag_model_updated_as_true

/-- `set_initial_active_current_command_in_pu_based_on_mbase(ip)`. -/
def set_initial_active_current_command_in_pu_based_on_mbase (s : CONVERTER F D) (ip : F) :
    CONVERTER F D :=
  { s with initial_active_current_command_in_pu_based_on_mbase := ip }

/-- `set_initial_reactive_current_command_in_pu_based_on_mbase(iq)`. -/
def set_initial_reactive_current_command_in_pu_based_on_mbase (s : CONVERTER F D) (iq : F) :
    CONVERTER F D :=
  { s with initial_reactive_current_command_in_pu_based_on_mbase := iq }

/-- The calls recorded between the state `before` and the later state `after`. -/
def calls_since (before after : CONVERTER F D) : List (Call F) :=
  after.calls.drop before.calls.length

variable [LinearOrderedField F]

/-- `set_KPLL(K)` (pvcv0.cpp:100, wt3g2.cpp:82). -/
def set_KPLL (s : CONVERTER F D) (K : F) : CONVERTER F D := { s with KPLL := K }

/-- `set_KIPLL(K)`: `PLL_frequency_integrator.set_T_in_s(1.0/K)` (pvcv0.cpp:105). -/
def set_KIPLL (s : CONVERTER F D) (K : F) : CONVERTER F D :=
  s.call_set_T_in_s .PLL_frequency_integrator (1 / K)

/-- `set_PLLmax(pmax)`: `PLL_frequency_integrator.set_upper_limit(pmax)` (pvcv0.cpp:110),
where the block accepts `pmax`. -/
def set_PLLmax (s : CONVERTER F D) (pmax : F) : CONVERTER F D :=
  s.call_set_upper_limit .PLL_frequency_integrator pmax

/-- `set_PLLmin(pmin)`: `PLL_frequency_integrator.set_lower_limit(pmin)` (pvcv0.cpp:115),
where the block accepts `pmin`. -/
def set_PLLmin (s : CONVERTER F D) (pmin : F) : CONVERTER F D :=
  s.call_set_lower_limit .PLL_frequency_integrator pmin

/-- The call `b.set_upper_limit(v)` of a model on its block `b` with the failure the
block raises: the failure leaves the model as it is, the accepted value is stored and
the call recorded as in `call_set_upper_limit`. -/
def call_set_upper_limit_reporting (s : CONVERTER F D) (b : BlockId) (v : F) :
    Except BLOCK_ERROR (CONVERTER F D) :=
  match (s.block b).set_upper_limit v with
  | .error e => .error e
  | .ok blk => .ok ((s.setBlock b blk).record (Call.set_upper_limit b v))

/-- The call `b.set_lower_limit(v)` of a model on its block `b` with the failure the
block raises. -/
def call_set_lower_limit_reporting (s : CONVERTER F D) (b : BlockId) (v : F) :
    Except BLOCK_ERROR (CONVERTER F D) :=
  match (s.block b).set_lower_limit v with
  | .error e => .error e
  | .ok blk => .ok ((s.setBlock b blk).record (Call.set_lower_limit b v))

/-- `set_PLLmax(pmax)`: `PLL_frequency_integrator.set_upper_limit(pmax)` (pvcv0.cpp:110),
with the failure of the block call. -/
def set_PLLmax_reporting (s : CONVERTER F D) (pmax : F) : Except BLOCK_ERROR (CONVERTER F D) :=
  s.call_set_upper_limit_reporting .PLL_frequency_integrator pmax

/-- `set_PLLmin(pmin)`: `PLL_frequency_integrator.set_lower_limit(pmin)` (pvcv0.cpp:115),
with the failure of the block call. -/
def set_PLLmin_reporting (s : CONVERTER F D) (pmin : F) : Except BLOCK_ERROR (CONVERTER F D) :=
  s.call_set_lower_limit_reporting .PLL_frequency_integrator pmin

/-- `get_KPLL()`. -/
def get_KPLL (s : CONVERTER F D) : F := s.KPLL

/-- `get_KIPLL()`: `1.0/PLL_frequency_integrator.get_T_in_s()` (pvcv0.cpp:160). -/
def get_KIPLL (s : CONVERTER F D) : F := 1 / s.PLL_frequency_integrator.T

/-- `get_PLLmax()`: the upper limit of the PLL frequency integrator (pvcv0.cpp:165). -/
def get_PLLmax (s : CONVERTER F D) : F := s.PLL_frequency_integrator.upper_limit

/-- `get_PLLmin()`: the lower limit of the PLL frequency integrator (pvcv0.cpp:170). -/
def get_PLLmin (s : CONVERTER F D) : F := s.PLL_frequency_integrator.lower_limit

/-- `get_HVRC_current_in_pu()`. -/
def get_HVRC_current_in_pu (s : CONVERTER F D) : F := s.HVRCR_current

/-- `get_LVPL_max_rate_of_active_current_change()`. -/
def get_LVPL_max_rate_of_active_current_change (s : CONVERTER F D) : F :=
  s.LVPL_active_power_change_rate

/-- `set_pll_angle_in_deg(angle)` (pvcv0.cpp:877): writes the angle into the PLL angle
integrator with `set_output` and `initialize` ("the initialize function is used to
update STORE"). -/
def set_pll_angle_in_deg (E : Ext F) (s : CONVERTER F D) (angle : F) : CONVERTER F D :=
  (s.call_set_output .PLL_angle_integrator (E.deg2rad angle)).call_initialize_block E
    .PLL_angle_integrator

end CONVERTER

/-! ## PVCV0 (pvcv0.cpp) -/

/-- A PVCV0 model: the converter members with a `PV_UNIT` as device. -/
abbrev PVCV0 (F : Type) := CONVERTER F (PV_UNIT F)

namespace PVCV0

variable {F : Type} [LinearOrderedField F]

/-- `PVCV0::clear()` (pvcv0.cpp:39): sets the current source flag, the limiter types of
the five blocks and the gains of the two first order blocks. -/
def clear (s : PVCV0 F) : PVCV0 F :=
  { s with
    current_source_flag := true
    active_current_commander :=
      { s.active_current_commander with limiter_type := .NO_LIMITER }
    reactive_voltage_commander :=
      { s.reactive_voltage_commander with limiter_type := .NO_LIMITER, K := 1 }
    PLL_frequency_integrator :=
      { s.PLL_frequency_integrator with limiter_type := .NON_WINDUP_LIMITER }
    PLL_angle_integrator := { s.PLL_angle_integrator with limiter_type := .NO_LIMITER }
    LVPL_voltage_sensor :=
      { s.LVPL_voltage_sensor with limiter_type := .NO_LIMITER, K := 1 } }

/-- `get_power_system_database()`: the database of the attached unit, `none` for NULL. -/
def get_power_system_database (s : PVCV0 F) : Option (POWER_SYSTEM_DATABASE F) :=
  s.device.bind (fun u => u.psdb)

/-- `get_mbase_in_MVA()`; 0.0 without a device, as in `WTG_MODEL::get_mbase_in_MVA`. -/
def get_mbase_in_MVA (s : PVCV0 F) : F :=
  match s.device with
  | some u => u.mbase_in_MVA
  | none => 0

/-- `get_number_of_lumped_pv_units()`; 0 without a device. -/
def get_number_of_lumped_pv_units (s : PVCV0 F) : Nat :=
  match s.device with
  | some u => u.number_of_lumped_pv_units
  | none => 0

/-- `get_source_impedance_in_pu_based_on_mbase()`; 0.0 without a device. -/
def get_source_impedance_in_pu_based_on_mbase (s : PVCV0 F) : Cplx F :=
  match s.device with
  | some u => u.source_impedance_in_pu
  | none => ⟨0, 0⟩

/-- `get_terminal_complex_voltage_in_pu()`: the voltage of the unit's bus; 0.0 when it
cannot be read (no device, or a device without database). -/
def get_terminal_complex_voltage_in_pu (s : PVCV0 F) : Cplx F :=
  match get_power_system_database s with
  | some psdb => psdb.bus_complex_voltage_in_pu
  | none => ⟨0, 0⟩

end PVCV0

/-- `PVCV0::initialize()` (pvcv0.cpp:340-434), where the PLL frequency integrator accepts
the limits of lines 363 and 364 (`PVCV0.initialize_reporting` tells when it does).  The
text assembled into `oosstream` at the end is never shown (the call is commented out)
and is left out. -/
def PVCV0.initialize {F : Type} [LinearOrderedField F] (E : Ext F) (s : PVCV0 F) : PVCV0 F :=
  if s.is_model_initialized then s
  else
    match s.device with
    | none => s
    | some pv_unit =>
      match pv_unit.psdb with
      | none => s
      | some psdb =>
        let n_lumped : F := (PVCV0.get_number_of_lumped_pv_units s : F)
        let fbase := psdb.system_base_frequency_in_Hz
        let wbase := 2 * E.PI * fbase
        let kipll := s.get_KIPLL
        let s :=
          if kipll ≠ 0 then
            let s := s.call_set_T_in_s .PLL_frequency_integrator (1 / kipll)
            let pllmax := s.get_PLLmax
            let s := s.call_set_upper_limit .PLL_frequency_integrator pllmax
            s.call_set_lower_limit .PLL_frequency_integrator (-pllmax)
          else s
        let s := s.call_set_T_in_s .PLL_angle_integrator (1 / wbase)
        let mbase := PVCV0.get_mbase_in_MVA s
        let mbase := mbase / n_lumped
        let Zsource := PVCV0.get_source_impedance_in_pu_based_on_mbase s
        let xeq := Zsource.im
        let P := pv_unit.p_generation_in_MW / n_lumped
        let Q := pv_unit.q_generation_in_MVar / n_lumped
        let S : Cplx F := ⟨P / mbase, Q / mbase⟩
        let Vxy := PVCV0.get_terminal_complex_voltage_in_pu s
        let V := E.steps_fast_complex_abs Vxy
        let angle_in_rad := E.atan2 Vxy.im Vxy.re
        let Ixy := (S.div Vxy).conj
        let Isource := Ixy.add (Vxy.div Zsource)
        let Ix := Isource.re
        let Iy := Isource.im
        let IP := Ix * E.cos angle_in_rad + Iy * E.sin angle_in_rad
        let IQ := -Ix * E.sin angle_in_rad + Iy * E.cos angle_in_rad
        let EQ := IQ * (-xeq)
        let s := s.call_set_output .active_current_commander IP
        let s := s.call_initialize_block E .active_current_commander
        let s := s.call_set_output .reactive_voltage_commander EQ
        let s := s.call_initialize_block E .reactive_voltage_commander
        let s :=
          if kipll ≠ 0 then
            let s := s.call_set_output .PLL_frequency_integrator 0
            s.call_initialize_block E .PLL_frequency_integrator
          else s
        let s := s.call_set_output .PLL_angle_integrator angle_in_rad
        let s := s.call_initialize_block E .PLL_angle_integrator
        let s := s.call_set_output .LVPL_voltage_sensor V
        let s := s.call_initialize_block E .LVPL_voltage_sensor
        let s := s.set_initial_active_current_command_in_pu_based_on_mbase IP
        let s := s.set_initial_reactive_current_command_in_pu_based_on_mbase IQ
        s.set_flag_model_initialized_as_true

/-- `PVCV0::initialize()` (pvcv0.cpp:340-434) with the failures of the block calls it
makes.  The calls that can fail are the two limit calls of lines 363 and 364 (the
specification names no time constant a block refuses); a failure is raised through the
`void` function and ends it, and without a failure the run is `PVCV0.initialize`. -/
def PVCV0.initialize_reporting {F : Type} [LinearOrderedField F] (E : Ext F) (s : PVCV0 F) :
    Except BLOCK_ERROR (PVCV0 F) :=
  if s.is_model_initialized then .ok ( PVCV0.initialize E s)
  else
    match s.device with
    | none => .ok ( PVCV0.initialize E s)
    | some pv_unit =>
      match pv_unit.psdb with
      | none => .ok ( PVCV0.initialize E s)
      | some _ =>
        let kipll := s.get_KIPLL
        if kipll ≠ 0 then
          let s1 := s.call_set_T_in_s .PLL_frequency_integrator (1 / kipll)
          let pllmax := s1.get_PLLmax
          match s1.call_set_upper_limit_reporting .PLL_frequency_integrator pllmax with
          | .error e => .error e
          | .ok s2 =>
            match s2.call_set_lower_limit_reporting .PLL_frequency_integrator (-pllmax) with
            | .error e => .error e
            | .ok _ => .ok ( PVCV0.initialize E s)
        else .ok ( PVCV0.initialize E s)

/-- A call that configures the limits of the PLL frequency integrator of a PVCV0
model: `set_PLLmax(pmax)`, `set_PLLmin(pmin)` or `initialize()`. -/
inductive PLL_LIMIT_CALL (F : Type) where
  | set_PLLmax (pmax : F)
  | set_PLLmin (pmin : F)
  | initialize_model

namespace PVCV0

variable {F : Type} [LinearOrderedField F]

/-- One configuring call on a PVCV0 model, with the failure it raises. -/
def configure (E : Ext F) (s : PVCV0 F) : PLL_LIMIT_CALL F → Except BLOCK_ERROR (PVCV0 F)
  | .set_PLLmax pmax => s.set_PLLmax_reporting pmax
  | .set_PLLmin pmin => s.set_PLLmin_reporting pmin
  | .initialize_model => PVCV0.initialize_reporting E s

/-- A sequence of configuring calls on a PVCV0 model, in order; the first failure ends
the sequence. -/
def configure_all (E : Ext F) (s : PVCV0 F) :
    List (PLL_LIMIT_CALL F) → Except BLOCK_ERROR (PVCV0 F)
  | [] => .ok s
  | c :: cs =>
    match configure E s c with
    | .error e => .error e
    | .ok t => configure_all E t cs

end PVCV0

namespace PVCV0

variable {F : Type} [LinearOrderedField F]

/-- `PVCV0::get_pll_angle_in_rad()` (pvcv0.cpp:781). -/
def get_pll_angle_in_rad (E : Ext F) (s : PVCV0 F) : F :=
  let kpll := s.get_KPLL
  let kipll := s.get_KIPLL
  if kpll = 0 ∧ kipll = 0 then
    let Vxy := get_terminal_complex_voltage_in_pu s
    E.atan2 Vxy.im Vxy.re
  else s.PLL_angle_integrator.output

/-- `PVCV0::run(mode)` (pvcv0.cpp:436-517). -/
def run (E : Ext F) (C : Cmd F (PV_UNIT F)) (mode : DYNAMIC_MODE) (s : PVCV0 F) : PVCV0 F :=
  match s.device with
  | none => s
  | some pv_unit =>
    match pv_unit.psdb with
    | none => s
    | some psdb =>
      let fbase := psdb.system_base_frequency_in_Hz
      let wbase := 2 * E.PI * fbase
      let Zsource := get_source_impedance_in_pu_based_on_mbase s
      let Xeq := Zsource.im
      let Vxy := get_terminal_complex_voltage_in_pu s
      let V := E.steps_fast_complex_abs Vxy
      let angle_in_rad := E.atan2 Vxy.im Vxy.re
      let angle_in_deg := E.rad2deg angle_in_rad
      let s := s.call_set_input .LVPL_voltage_sensor V
      let s := s.call_run E .LVPL_voltage_sensor mode
      let lvpl_order := E.get_LVPL_order s.lvpl s.LVPL_voltage_sensor.output
      let IP := C.get_active_current_command_in_pu_based_on_mbase s
      let input := s.active_current_commander.output
      let input := if input > lvpl_order then lvpl_order else input
      let input := IP - input
      let lvpl_rate_max := s.get_LVPL_max_rate_of_active_current_change
      let input := if input > lvpl_rate_max then lvpl_rate_max else input
      let s := s.call_set_input .active_current_commander input
      let s := s.call_run E .active_current_commander mode
      let IQ := C.get_reactive_current_command_in_pu_based_on_mbase s
      let EQ := IQ * (-Xeq)
      let s := s.call_set_input .reactive_voltage_commander EQ
      let s := s.call_run E .reactive_voltage_commander mode
      let kpll := s.get_KPLL
      let kipll := s.get_KIPLL
      let s :=
        if kpll = 0 ∧ kipll = 0 then s.set_pll_angle_in_deg E angle_in_deg
        else
          let Vr := Vxy.re
          let Vi := Vxy.im
          let angle := get_pll_angle_in_rad E s
          let Vy := -Vr * E.sin angle + Vi * E.cos angle
          let input := Vy * kpll / wbase
          let s := s.call_set_input .PLL_frequency_integrator input
          let s := s.call_run E .PLL_frequency_integrator mode
          let output := s.PLL_frequency_integrator.output
          let input := input + output
          let pllmax := s.get_PLLmax
          let input := if input > pllmax then pllmax else input
          let input := if input < -pllmax then -pllmax else input
          let s := s.call_set_input .PLL_angle_integrator input
          s.call_run E .PLL_angle_integrator mode
      if mode = .UPDATE_MODE then s.set_flag_model_updated_as_true else s

/-- The argument of the call `PLL_frequency_integrator.set_input(input)` of
`PVCV0::run(mode)` (pvcv0.cpp:491-498) as a double: `input = Vy*kpll/wbase` with the
division of doubles, which at `wbase = 0.0` leaves NaN or an infinity where the
quotient of the field is 0.  The blocks `run` drives before (lines 458-481) keep `KPLL`,
the time constant of the PLL frequency integrator and the output of the PLL angle
integrator, which is all the argument reads from the model.  `none` where `run` does
not make the call: without device or database, and with both PLL gains zero. -/
def run_input_of_PLL_frequency_integrator (E : Ext F) (s : PVCV0 F) :
    Option (DOUBLE F) :=
  match s.device with
  | none => none
  | some pv_unit =>
    match pv_unit.psdb with
    | none => none
    | some psdb =>
      let fbase := psdb.system_base_frequency_in_Hz
      let wbase := 2 * E.PI * fbase
      let Vxy := get_terminal_complex_voltage_in_pu s
      let kpll := s.get_KPLL
      let kipll := s.get_KIPLL
      if kpll = 0 ∧ kipll = 0 then none
      else
        let Vr := Vxy.re
        let Vi := Vxy.im
        let angle := get_pll_angle_in_rad E s
        let Vy := -Vr * E.sin angle + Vi * E.cos angle
        some (DOUBLE.div (Vy * kpll) wbase)

/-- `PVCV0::get_source_Norton_equivalent_complex_current_in_pu_in_xy_axis_based_on_sbase()`
(pvcv0.cpp:519-572); `none` when the database pointer it dereferences is NULL, and when
the reactive current `Iq = -EQ/Xeq` is not a number after the clip at the HVRC current
(`Xeq = 0.0`: minus infinity is clipped to the HVRC current, plus infinity and NaN stay
and make both parts of the result infinite or NaN). -/
def get_source_Norton_equivalent_complex_current_in_pu_in_xy_axis_based_on_sbase
    (E : Ext F) (s : PVCV0 F) : Option (Cplx F) :=
  match get_power_system_database s with
  | none => none
  | some psdb =>
    let sbase := psdb.system_base_power_in_MVA
    let mbase := get_mbase_in_MVA s
    let Vxy := get_terminal_complex_voltage_in_pu s
    let V := E.steps_fast_complex_abs Vxy
    let Zsource := get_source_impedance_in_pu_based_on_mbase s
    let Xeq := Zsource.im
    let V_LVACR_high := V
    let V_LVACR_low : F := 4 / 10
    let V_LVACR_low := if V ≤ V_LVACR_low then V else V_LVACR_low
    let V_LVACR_high := if V ≤ 8 / 10 then 8 / 10 else V_LVACR_high
    let Ip := s.active_current_commander.output
    let lvpl_order := E.get_LVPL_order s.lvpl s.LVPL_voltage_sensor.output
    let Ip := if Ip > lvpl_order then lvpl_order else Ip
    let Ip := Ip * (V - V_LVACR_low) / (V_LVACR_high - V_LVACR_low)
    let Iq := DOUBLE.div (-s.reactive_voltage_commander.output) Xeq
    let hvrc_i := s.get_HVRC_current_in_pu
    let Iq := if Iq.lt (-hvrc_i) then DOUBLE.finite (-hvrc_i) else Iq
    match Iq with
    | .finite Iq =>
      let pll_angle := get_pll_angle_in_rad E s
      let Ix := Ip * E.cos pll_angle - Iq * E.sin pll_angle
      let Iy := Ip * E.sin pll_angle + Iq * E.cos pll_angle
      let Ixy : Cplx F := ⟨Ix, Iy⟩
      some ((Ixy.smul mbase).sdiv sbase)
    | _ => none

/-- `PVCV0::get_terminal_complex_current_in_pu_in_xy_axis_based_on_sbase()`
(pvcv0.cpp:583-598). -/
def get_terminal_complex_current_in_pu_in_xy_axis_based_on_sbase
    (E : Ext F) (s : PVCV0 F) : Option (Cplx F) :=
  match get_power_system_database s with
  | none => none
  | some psdb =>
    let sbase := psdb.system_base_power_in_MVA
    let mbase := get_mbase_in_MVA s
    let Zsource := get_source_impedance_in_pu_based_on_mbase s
    let Zsource := Zsource.sdiv mbase
    let Zsource := Zsource.smul sbase
    match get_source_Norton_equivalent_complex_current_in_pu_in_xy_axis_based_on_sbase E s with
    | none => none
    | some Ixy_norton =>
      let Vxy := get_terminal_complex_voltage_in_pu s
      let Ixy_term := Ixy_norton.sub (Vxy.div Zsource)
      some Ixy_term

/-- `PVCV0::get_terminal_complex_current_in_pu_in_xy_axis_based_on_mbase()`
(pvcv0.cpp:574-581). -/
def get_terminal_complex_current_in_pu_in_xy_axis_based_on_mbase
    (E : Ext F) (s : PVCV0 F) : Option (Cplx F) :=
  match get_power_system_database s with
  | none => none
  | some psdb =>
    let sbase := psdb.system_base_power_in_MVA
    let mbase := get_mbase_in_MVA s
    match get_terminal_complex_current_in_pu_in_xy_axis_based_on_sbase E s with
    | none => none
    | some Ixy => some ((Ixy.smul sbase).sdiv mbase)

/-- `PVCV0::get_terminal_complex_power_in_pu_based_on_mbase()` (pvcv0.cpp:731-739). -/
def get_terminal_complex_power_in_pu_based_on_mbase
    (E : Ext F) (s : PVCV0 F) : Option (Cplx F) :=
  let Vxy := get_terminal_complex_voltage_in_pu s
  match get_terminal_complex_current_in_pu_in_xy_axis_based_on_mbase E s with
  | none => none
  | some Ixy =>
    let S := Vxy.mul Ixy.conj
    some S

/-- `PVCV0::get_internal_voltage_in_pu_in_xy_axis()` (pvcv0.cpp:861-873). -/
def get_internal_voltage_in_pu_in_xy_axis (E : Ext F) (s : PVCV0 F) : Option (Cplx F) :=
  match get_source_Norton_equivalent_complex_current_in_pu_in_xy_axis_based_on_sbase E s with
  | none => none
  | some Ixy =>
    let Z := get_source_impedance_in_pu_based_on_mbase s
    match get_power_system_database s with
    | none => none
    | some psdb =>
      let sbase := psdb.system_base_power_in_MVA
      let mbase := get_mbase_in_MVA s
      let Z := (Z.sdiv mbase).smul sbase
      some (Ixy.mul Z)

end PVCV0

/-! ## WT3G2 (wt3g2.cpp, wtg_model.cpp)

`WT3G2` reads the default power system database, `get_default_power_system_database()`;
it is the argument `psdb` of the functions below. -/

/-- A WT3G2 model: the converter members with a `WT_GENERATOR` as device. -/
abbrev WT3G2 (F : Type) := CONVERTER F (WT_GENERATOR F)

namespace WT3G2

variable {F : Type} [LinearOrderedField F]

/-- `WTG_MODEL::get_mbase_in_MVA()` (wtg_model.cpp:19). -/
def get_mbase_in_MVA (s : WT3G2 F) : F :=
  match s.device with
  | some gen => gen.mbase_in_MVA
  | none => 0

/-- `WTG_MODEL::get_terminal_complex_voltage_in_pu()` (wtg_model.cpp:28). -/
def get_terminal_complex_voltage_in_pu (psdb : POWER_SYSTEM_DATABASE F) (s : WT3G2 F) :
    Cplx F :=
  match s.device with
  | none => ⟨0, 0⟩
  | some _ => psdb.bus_complex_voltage_in_pu

/-- `WTG_MODEL::get_number_of_lumped_wt_generators()` (wtg_model.cpp:41). -/
def get_number_of_lumped_wt_generators (s : WT3G2 F) : Nat :=
  match s.device with
  | none => 0
  | some gen => gen.number_of_lumped_wt_generators

/-- `WTG_MODEL::get_bus_base_frequency_in_Hz()` (wtg_model.cpp:57). -/
def get_bus_base_frequency_in_Hz (psdb : POWER_SYSTEM_DATABASE F) (s : WT3G2 F) : F :=
  match s.device with
  | none => 0
  | some _ => psdb.bus_base_frequency_in_Hz

/-- `WTG_MODEL::get_source_impedance_in_pu_based_on_mbase()` (wtg_model.cpp:68). -/
def get_source_impedance_in_pu_based_on_mbase (s : WT3G2 F) : Cplx F :=
  match s.device with
  | none => ⟨0, 0⟩
  | some gen => gen.source_impedance_in_pu

end WT3G2

/-- `WT3G2::initialize()` (wt3g2.cpp:315-405), where the PLL frequency integrator accepts
the limits it is given.  The text assembled into `oosstream` is shown at the end; the
getters that produce it do not write to the model. -/
def WT3G2.initialize {F : Type} [LinearOrderedField F] (E : Ext F)
    (psdb : POWER_SYSTEM_DATABASE F) (s : WT3G2 F) : WT3G2 F :=
  if s.is_model_initialized then s
  else
    match s.device with
    | none => s
    | some wt_generator =>
      let n_lumped : F := (WT3G2.get_number_of_lumped_wt_generators s : F)
      let fbase := WT3G2.get_bus_base_frequency_in_Hz psdb s
      let wbase := 2 * E.PI * fbase
      let kipll := s.get_KIPLL
      let s :=
        if kipll ≠ 0 then
          let s := s.call_set_T_in_s .PLL_frequency_integrator (1 / kipll)
          let pllmax := s.get_PLLmax
          let s := s.call_set_upper_limit .PLL_frequency_integrator pllmax
          s.call_set_lower_limit .PLL_frequency_integrator (-pllmax)
        else s
      let s := s.call_set_T_in_s .PLL_angle_integrator (1 / wbase)
      let mbase := WT3G2.get_mbase_in_MVA s
      let mbase := mbase / n_lumped
      let Zsource := WT3G2.get_source_impedance_in_pu_based_on_mbase s
      let xeq := Zsource.im
      let P := wt_generator.p_generation_in_MW / n_lumped
      let Q := wt_generator.q_generation_in_MVar / n_lumped
      let S : Cplx F := ⟨P / mbase, Q / mbase⟩
      let Vxy := WT3G2.get_terminal_complex_voltage_in_pu psdb s
      let V := E.steps_fast_complex_abs Vxy
      let angle_in_rad := E.atan2 Vxy.im Vxy.re
      let Ixy := (S.div Vxy).conj
      let Isource := Ixy.add (Vxy.div Zsource)
      let Ix := Isource.re
      let Iy := Isource.im
      let IP := Ix * E.cos angle_in_rad + Iy * E.sin angle_in_rad
      let IQ := -Ix * E.sin angle_in_rad + Iy * E.cos angle_in_rad
      let EQ := IQ * (-xeq)
      let s := s.call_set_output .active_current_commander IP
      let s := s.call_initialize_block E .active_current_commander
      let s := s.call_set_output .reactive_voltage_commander EQ
      let s := s.call_initialize_block E .reactive_voltage_commander
      let s :=
        if kipll ≠ 0 then
          let s := s.call_set_output .PLL_frequency_integrator 0
          s.call_initialize_block E .PLL_frequency_integrator
        else s
      let s := s.call_set_output .PLL_angle_integrator angle_in_rad
      let s := s.call_initialize_block E .PLL_angle_integrator
      let s := s.call_set_output .LVPL_voltage_sensor V
      let s := s.call_initialize_block E .LVPL_voltage_sensor
      let s := s.set_initial_active_current_command_in_pu_based_on_mbase IP
      let s := s.set_initial_reactive_current_command_in_pu_based_on_mbase IQ
      let s := s.set_flag_model_initialized_as_true
      s.record Call.show_information_with_leading_time_stamp

namespace WT3G2

variable {F : Type} [LinearOrderedField F]

/-- `WT3G2::get_pll_angle_in_rad()` (wt3g2.cpp:754). -/
def get_pll_angle_in_rad (E : Ext F) (psdb : POWER_SYSTEM_DATABASE F) (s : WT3G2 F) : F :=
  let kpll := s.get_KPLL
  let kipll := s.get_KIPLL
  if kpll = 0 ∧ kipll = 0 then
    let Vxy := get_terminal_complex_voltage_in_pu psdb s
    E.atan2 Vxy.im Vxy.re
  else s.PLL_angle_integrator.output

/-- `WT3G2::run(mode)` (wt3g2.cpp:407-484). -/
def run (E : Ext F) (C : Cmd F (WT_GENERATOR F)) (psdb : POWER_SYSTEM_DATABASE F)
    (mode : DYNAMIC_MODE) (s : WT3G2 F) : WT3G2 F :=
  match s.device with
  | none => s
  | some _ =>
    let fbase := get_bus_base_frequency_in_Hz psdb s
    let wbase := 2 * E.PI * fbase
    let Zsource := get_source_impedance_in_pu_based_on_mbase s
    let Xeq := Zsource.im
    let Vxy := get_terminal_complex_voltage_in_pu psdb s
    let V := E.steps_fast_complex_abs Vxy
    let angle_in_rad := E.atan2 Vxy.im Vxy.re
    let angle_in_deg := E.rad2deg angle_in_rad
    let s := s.call_set_input .LVPL_voltage_sensor V
    let s := s.call_run E .LVPL_voltage_sensor mode
    let lvpl_order := E.get_LVPL_order s.lvpl s.LVPL_voltage_sensor.output
    let IP := C.get_active_current_command_in_pu_based_on_mbase s
    let input := s.active_current_commander.output
    let input := if input > lvpl_order then lvpl_order else input
    let input := IP - input
    let lvpl_rate_max := s.get_LVPL_max_rate_of_active_current_change
    let input := if input > lvpl_rate_max then lvpl_rate_max else input
    let s := s.call_set_input .active_current_commander input
    let s := s.call_run E .active_current_commander mode
    let IQ := C.get_reactive_current_command_in_pu_based_on_mbase s
    let EQ := IQ * (-Xeq)
    let s := s.call_set_input .reactive_voltage_commander EQ
    let s := s.call_run E .reactive_voltage_commander mode
    let kpll := s.get_KPLL
    let kipll := s.get_KIPLL
    let s :=
      if kpll = 0 ∧ kipll = 0 then s.set_pll_angle_in_deg E angle_in_deg
      else
        let Vr := Vxy.re
        let Vi := Vxy.im
        let angle := get_pll_angle_in_rad E psdb s
        let Vy := -Vr * E.sin angle + Vi * E.cos angle
        let input := Vy * kpll / wbase
        let s := s.call_set_input .PLL_frequency_integrator input
        let s := s.call_run E .PLL_frequency_integrator mode
        let output := s.PLL_frequency_integrator.output
        let input := input + output
        let pllmax := s.get_PLLmax
        let input := if input > pllmax then pllmax else input
        let input := if input < -pllmax then -pllmax else input
        let s := s.call_set_input .PLL_angle_integrator input
        s.call_run E .PLL_angle_integrator mode
    if mode = .UPDATE_MODE then s.set_flag_model_updated_as_true else s

end WT3G2

/-! ## SPARSE_MATRIX_CSPARSE (sparse_matrix_csparse.h)

Only the class declaration is in the sources at hand; what the methods do is modelled
from the specification.  The form of a matrix is part of its type: the operations the
specification makes valid in one form only take a matrix of that form
(`add_entry` a matrix in triplet form, factorization and solution a compressed one).
The class keeps the real and the imaginary components in two real matrices
(`matrix_real`, `matrix_imag`), has one real factorization (`LU`) and solves for a
`vector<double>`: the factorization is that of the real components. -/

/-- Failures of the sparse matrix operations, as the specification names them. -/
inductive ERROR where
  | InvalidIndex
  | DimensionMismatch
  | SingularMatrix
  | NotFactorized
deriving DecidableEq, Repr

/-- One entry `(row, column, value)` of a sparse matrix. -/
structure TRIPLET (F : Type) where
  row : Int
  col : Int
  value : Cplx F

/-- Position of an entry in column-major order: the column first, then the row. -/
def TRIPLET.key {F : Type} (t : TRIPLET F) : Lex (Int × Int) := toLex (t.col, t.row)

/-- The complex number zero. -/
def Cplx.zero {F : Type} [Field F] : Cplx F := ⟨0, 0⟩

/-- Sum of a list of complex numbers. -/
def Cplx.sum {F : Type} [Field F] (l : List (Cplx F)) : Cplx F := l.foldr Cplx.add Cplx.zero

namespace SPARSE_MATRIX

/-- Modelled from the spec: a matrix in triplet form, "an unordered, possibly
duplicate-containing list of (row, column, complex value) entries, appended one at a
time", of a size "fixed at creation". -/
structure TRIPLET_FORM (F : Type) where
  size : Nat
  entries : List (TRIPLET F)

/-- Modelled from the spec: one step of the numeric factorization.  `pivot_row` is the
candidate row taken as pivot, `pivot` its value, `lower` the column of `L` below the
pivot and `upper` the row of `U` right of it. -/
structure LU_STEP (F : Type) where
  pivot_row : Nat
  pivot : F
  lower : List F
  upper : List F

/-- Modelled from the spec: the LU factorization artifact, "symbolic ordering structure
+ numeric factors + pivoting permutation".  `reorder` is the fill-reducing column
ordering (`get_reorder_permutation`). -/
structure LU_ARTIFACT (F : Type) where
  reorder : List Nat
  steps : List (LU_STEP F)

/-- Modelled from the spec: a matrix in compressed form, "column-major storage ... row
indices sorted within each column, duplicates merged by summation", with the
factorization it owns (`none`: no valid factorization). -/
structure COMPRESSED_FORM (F : Type) where
  size : Nat
  entries : List (TRIPLET F)
  LU : Option (LU_ARTIFACT F)

variable {F : Type} [LinearOrderedField F]

/-- Modelled from the spec: a new, empty matrix of the given size, in triplet form. -/
def create (size : Nat) : TRIPLET_FORM F := { size := size, entries := [] }

/-- Modelled from the spec: `add_entry(row, col, value)` "appends a triplet entry; fails
with `InvalidIndex` if row/col exceed declared size". -/
def add_entry (m : TRIPLET_FORM F) (row col : Int) (value : Cplx F) :
    Except ERROR (TRIPLET_FORM F) :=
  if 0 ≤ row ∧ row < m.size ∧ 0 ≤ col ∧ col < m.size then
    .ok { m with entries := m.entries ++ [⟨row, col, value⟩] }
  else .error .InvalidIndex

/-- A sequence of `add_entry` calls, in order, that stops at the first failure. -/
def add_entries (m : TRIPLET_FORM F) : List (TRIPLET F) → Except ERROR (TRIPLET_FORM F)
  | [] => .ok m
  | t :: ts =>
    match add_entry m t.row t.col t.value with
    | .ok m1 => add_entries m1 ts
    | .error e => .error e

/-- Modelled from the spec: one entry moved into compressed storage.  The storage is
kept in column-major order with rows sorted within a column; an entry whose position is
taken is summed into the entry there. -/
def merge_entry (e : TRIPLET F) : List (TRIPLET F) → List (TRIPLET F)
  | [] => [e]
  | h :: t =>
    if e.key < h.key then e :: h :: t
    else if e.key = h.key then { h with value := h.value.add e.value } :: t
    else h :: merge_entry e t

/-- Modelled from the spec: `compress_and_merge_duplicate_entries()` "converts
triplet→compressed, summing duplicate (row,col) entries". -/
def compress_and_merge_duplicate_entries (m : TRIPLET_FORM F) : COMPRESSED_FORM F :=
  { size := m.size
    entries := m.entries.foldl (fun acc e => merge_entry e acc) []
    LU := none }

/-- Index of the first entry stored at position `k`, `none` when there is none. -/
def index_of_key (k : Lex (Int × Int)) : List (TRIPLET F) → Option Nat
  | [] => none
  | h :: t => if h.key = k then some 0 else (index_of_key k t).map (· + 1)

/-- Modelled from the spec: `get_entry_index(row, col)`, the index of the entry at
`(row, col)` in compressed storage, `none` when there is none (`INDEX_NOT_EXIST`). -/
def get_entry_index (m : COMPRESSED_FORM F) (row col : Int) : Option Nat :=
  index_of_key (toLex (col, row)) m.entries

/-- Modelled from the spec: `get_complex_entry_value(index)`, the value stored at an
index of compressed storage; zero outside the storage. -/
def get_complex_entry_value (m : COMPRESSED_FORM F) (index : Nat) : Cplx F :=
  match m.entries.get? index with
  | some t => t.value
  | none => Cplx.zero

/-- The entry of a compressed matrix at `(row, col)`: the value at its index, zero
where the matrix stores nothing. -/
def get_entry (m : COMPRESSED_FORM F) (row col : Int) : Cplx F :=
  match get_entry_index m row col with
  | some i => get_complex_entry_value m i
  | none => Cplx.zero

/-- `get_matrix_size()`. -/
def get_matrix_size (m : COMPRESSED_FORM F) : Nat := m.size

/-- The real components of a compressed matrix (`matrix_real`), as a dense matrix. -/
def real_matrix (m : COMPRESSED_FORM F) : Matrix (Fin m.size) (Fin m.size) F :=
  fun i j => (get_entry m (i : Nat) (j : Nat)).re

/-- The largest magnitude in column 0 of the candidate rows. -/
def column_max {n : Nat} (A : Matrix (Fin (n + 1)) (Fin (n + 1)) F) : F :=
  (List.finRange (n + 1)).foldl (fun a i => max a |A i 0|) 0

/-- Modelled from the spec: the choice of the pivot among the candidate rows, "partial
pivoting gated by `tolerance`".  No row is chosen when every candidate is zero; the
diagonal candidate is accepted when it is non-zero and at least `tolerance` times the
largest candidate, and deferred otherwise for the first candidate of largest magnitude. -/
def choose_pivot {n : Nat} (tolerance : F) (A : Matrix (Fin (n + 1)) (Fin (n + 1)) F) :
    Option (Fin (n + 1)) :=
  if column_max A ≤ 0 then none
  else if 0 < |A 0 0| ∧ tolerance * column_max A ≤ |A 0 0| then some 0
  else (List.finRange (n + 1)).find? (fun i => decide (|A i 0| = column_max A))

/-- Modelled from the spec: numeric factorization.  Each step takes a pivot among the
remaining rows of the first remaining column, records the column of `L` and the row of
`U`, and goes on with the remaining rows and columns updated; it "fails with
`SingularMatrix` when ... zero or negligible pivot encountered for all candidate rows". -/
def numeric_factorization (tolerance : F) :
    (n : Nat) → Matrix (Fin n) (Fin n) F → Except ERROR (List (LU_STEP F))
  | 0, _ => .ok []
  | n + 1, A =>
    match choose_pivot tolerance A with
    | none => .error .SingularMatrix
    | some p =>
      let A1 : Matrix (Fin (n + 1)) (Fin (n + 1)) F := A.submatrix (Equiv.swap 0 p) id
      let pivot := A1 0 0
      let lower : Fin n → F := fun i => A1 i.succ 0 / pivot
      let upper : Fin n → F := fun j => A1 0 j.succ
      let rest : Matrix (Fin n) (Fin n) F := fun i j => A1 i.succ j.succ - lower i * upper j
      match numeric_factorization tolerance n rest with
      | .error e => .error e
      | .ok steps =>
        .ok ({ pivot_row := p, pivot := pivot, lower := List.ofFn lower,
               upper := List.ofFn upper } :: steps)

/-- The fill-reducing strategies (`order`) are not in the sources at hand and the
specification does not define them: a strategy gives, for the requested `order` and a
matrix, a permutation of its columns. -/
structure ORDERING (F : Type) where
  reorder : Int → (n : Nat) → Matrix (Fin n) (Fin n) F → Equiv.Perm (Fin n)

/-- Modelled from the spec: `LU_factorization(order, tolerance)`, "symbolic ordering
with the requested fill-reducing strategy followed by numeric factorization with partial
pivoting gated by `tolerance`; fails with `SingularMatrix` when the matrix is
structurally or numerically singular".  On success the matrix owns the factors. -/
def LU_factorization (O : ORDERING F) (order : Int) (tolerance : F) (m : COMPRESSED_FORM F) :
    Except ERROR (COMPRESSED_FORM F) :=
  let q := O.reorder order m.size (real_matrix m)
  match numeric_factorization tolerance m.size ((real_matrix m).submatrix id q) with
  | .error e => .error e
  | .ok steps =>
    let lu : LU_ARTIFACT F :=
      { reorder := List.ofFn (fun j => ((q j : Fin m.size) : Nat)), steps := steps }
    .ok { m with LU := some lu }

/-- Exchange of the entries at positions 0 and `p` of a vector. -/
def swap_entries (p : Nat) (b : List F) : List F :=
  (b.set 0 (b.getD p 0)).set p (b.getD 0 0)

/-- Modelled from the spec: the two triangular solves, "forward-solves Ly=Pb then
back-solves Ux=y", one factorization step at a time: the pivot row is brought to the
top, eliminated from the rows below, and the unknown of the step is found once the
remaining unknowns are. -/
def solve_steps : List (LU_STEP F) → List F → List F
  | [], _ => []
  | st :: rest, b =>
    match swap_entries st.pivot_row b with
    | [] => []
    | y0 :: bt =>
      let x1 := solve_steps rest (List.zipWith (fun bi li => bi - li * y0) bt st.lower)
      let x0 := (y0 - (List.zipWith (fun u x => u * x) st.upper x1).sum) / st.pivot
      x0 :: x1

/-- The solution with "the fill-reducing permutation un-applied at the end": the
unknown found for reordered column `j` is the unknown `reorder[j]`. -/
def unapply_reorder (reorder : List Nat) (x : List F) : List F :=
  (List.range x.length).map (fun i => x.getD (reorder.indexOf i) 0)

/-- Modelled from the spec: `solve_Ax_eq_b(b)`, "given the most recent factorization,
forward-solves Ly=Pb then back-solves Ux=y ...; fails with `NotFactorized` if no valid
factorization exists, `DimensionMismatch` if `b.size() != get_matrix_size()`". -/
def solve_Ax_eq_b (m : COMPRESSED_FORM F) (b : List F) : Except ERROR (List F) :=
  match m.LU with
  | none => .error .NotFactorized
  | some lu =>
    if b.length ≠ get_matrix_size m then .error .DimensionMismatch
    else .ok (unapply_reorder lu.reorder (solve_steps lu.steps b))

/-- Modelled from the spec: `change_real_entry_value(index, value)`; the factorization
is "invalidated whenever the owning matrix's numeric values change". -/
def change_real_entry_value (m : COMPRESSED_FORM F) (index : Nat) (value : F) :
    COMPRESSED_FORM F :=
  { m with
    entries := m.entries.modify (fun t => { t with value := ⟨value, t.value.im⟩ }) index
    LU := none }

end SPARSE_MATRIX

/-! ## The toolkit and the API utilities
(steps_api_common_utilities.cpp, steps_api_get_device_count.cpp)

The classes `STEPS` (the toolkit), `POWER_SYSTEM_DATABASE`, `DEVICE` and `OWNERSHIP`
and the utilities of `utility.h` are not in the sources at hand.  A toolkit is a record
of what the API utilities read and write; `size_t` is a natural number;
`get_toolkit(toolkit_index)` is the toolkit passed to the function and returned by it. -/

/-- Modelled from the spec: `string2upper` of `utility.h`, every character of the text
in upper case. -/
def string2upper (s : String) : String := String.mk (s.data.map Char.toUpper)

/-- Text left in a character array of `size` characters by
`snprintf(array, size, "%s", text)`: the first `size - 1` characters of `text` (the
array ends with the terminating zero).  An array has at least one character. -/
def snprintf (size : Nat) (text : String) : String := String.mk (text.data.take (size - 1))

/-- The eleven kinds of device the database keeps a table of. -/
inductive DEVICE_KIND where
  | BUS
  | GENERATOR
  | WT_GENERATOR
  | PV_UNIT
  | LOAD
  | FIXED_SHUNT
  | LINE
  | TRANSFORMER
  | HVDC
  | EQUIVALENT_DEVICE
  | ENERGY_STORAGE
deriving DecidableEq, Repr

/-- Modelled from the spec: what the API utilities read and write in a
`POWER_SYSTEM_DATABASE`: the two texts of the case, and for each kind of device the
number of devices in its table and the capacity of the table. -/
structure DATABASE_TABLES where
  case_information : String
  case_additional_information : String
  count : DEVICE_KIND → Nat
  capacity : DEVICE_KIND → Nat

namespace DATABASE_TABLES

/-- `get_bus_count()`. -/
def get_bus_count (psdb : DATABASE_TABLES) : Nat := psdb.count .BUS
/-- `get_generator_count()`. -/
def get_generator_count (psdb : DATABASE_TABLES) : Nat := psdb.count .GENERATOR
/-- `get_wt_generator_count()`. -/
def get_wt_generator_count (psdb : DATABASE_TABLES) : Nat := psdb.count .WT_GENERATOR
/-- `get_pv_unit_count()`. -/
def get_pv_unit_count (psdb : DATABASE_TABLES) : Nat := psdb.count .PV_UNIT
/-- `get_load_count()`. -/
def get_load_count (psdb : DATABASE_TABLES) : Nat := psdb.count .LOAD
/-- `get_fixed_shunt_count()`. -/
def get_fixed_shunt_count (psdb : DATABASE_TABLES) : Nat := psdb.count .FIXED_SHUNT
/-- `get_line_count()`. -/
def get_line_count (psdb : DATABASE_TABLES) : Nat := psdb.count .LINE
/-- `get_transformer_count()`. -/
def get_transformer_count (psdb : DATABASE_TABLES) : Nat := psdb.count .TRANSFORMER
/-- `get_hvdc_count()`. -/
def get_hvdc_count (psdb : DATABASE_TABLES) : Nat := psdb.count .HVDC
/-- `get_equivalent_device_count()`. -/
def get_equivalent_device_count (psdb : DATABASE_TABLES) : Nat := psdb.count .EQUIVALENT_DEVICE
/-- `get_energy_storage_count()`. -/
def get_energy_storage_count (psdb : DATABASE_TABLES) : Nat := psdb.count .ENERGY_STORAGE

/-- Modelled from the spec: a capacity setter of the database stores the capacity of
the table of one kind of device. -/
def set_capacity (psdb : DATABASE_TABLES) (kind : DEVICE_KIND) (cap : Nat) : DATABASE_TABLES :=
  { psdb with capacity := Function.update psdb.capacity kind cap }

/-- `set_bus_capacity(cap)`. -/
def set_bus_capacity (psdb : DATABASE_TABLES) (cap : Nat) := psdb.set_capacity .BUS cap
/-- `set_generator_capacity(cap)`. -/
def set_generator_capacity (psdb : DATABASE_TABLES) (cap : Nat) :=
  psdb.set_capacity .GENERATOR cap
/-- `set_wt_generator_capacity(cap)`. -/
def set_wt_generator_capacity (psdb : DATABASE_TABLES) (cap : Nat) :=
  psdb.set_capacity .WT_GENERATOR cap
/-- `set_pv_unit_capacity(cap)`. -/
def set_pv_unit_capacity (psdb : DATABASE_TABLES) (cap : Nat) := psdb.set_capacity .PV_UNIT cap
/-- `set_load_capacity(cap)`. -/
def set_load_capacity (psdb : DATABASE_TABLES) (cap : Nat) := psdb.set_capacity .LOAD cap
/-- `set_fixed_shunt_capacity(cap)`. -/
def set_fixed_shunt_capacity (psdb : DATABASE_TABLES) (cap : Nat) :=
  psdb.set_capacity .FIXED_SHUNT cap
/-- `set_line_capacity(cap)`. -/
def set_line_capacity (psdb : DATABASE_TABLES) (cap : Nat) := psdb.set_capacity .LINE cap
/-- `set_transformer_capacity(cap)`. -/
def set_transformer_capacity (psdb : DATABASE_TABLES) (cap : Nat) :=
  psdb.set_capacity .TRANSFORMER cap
/-- `set_hvdc_capacity(cap)`. -/
def set_hvdc_capacity (psdb : DATABASE_TABLES) (cap : Nat) := psdb.set_capacity .HVDC cap
/-- `set_equivalent_device_capacity(cap)`. -/
def set_equivalent_device_capacity (psdb : DATABASE_TABLES) (cap : Nat) :=
  psdb.set_capacity .EQUIVALENT_DEVICE cap
/-- `set_energy_storage_capacity(cap)`. -/
def set_energy_storage_capacity (psdb : DATABASE_TABLES) (cap : Nat) :=
  psdb.set_capacity .ENERGY_STORAGE cap

end DATABASE_TABLES

/-- Modelled from the spec: a toolkit (class `STEPS`): its name, the detailed-log
switch, the shared character buffer `steps_char_buffer` (its text), its database, and
the texts shown so far with `show_information_with_leading_time_stamp`, latest last. -/
structure TOOLKIT where
  toolkit_name : String
  detailed_log_enabled : Bool
  steps_char_buffer : String
  psdb : DATABASE_TABLES
  shown : List String

namespace TOOLKIT

/-- `get_toolkit_name()`. -/
def get_toolkit_name (toolkit : TOOLKIT) : String := toolkit.toolkit_name

/-- `is_detailed_log_enabled()`. -/
def is_detailed_log_enabled (toolkit : TOOLKIT) : Bool := toolkit.detailed_log_enabled

/-- `get_power_system_database()`. -/
def get_power_system_database (toolkit : TOOLKIT) : DATABASE_TABLES := toolkit.psdb

/-- Modelled from the spec: `show_information_with_leading_time_stamp(text)` shows the
text; it writes neither the database nor the shared character buffer. -/
def show_information_with_leading_time_stamp (toolkit : TOOLKIT) (text : String) : TOOLKIT :=
  { toolkit with shown := toolkit.shown ++ [text] }

/-- The value of `toolkit.steps_char_buffer` where a `bool` is returned.  The buffer is a
character array, a member of the toolkit: C++ converts the array to the address of its
first character and the address to `bool`, which is `true` for every address but the
null pointer, whatever the text in the buffer. -/
def steps_char_buffer_as_bool (_toolkit : TOOLKIT) : Bool := true

end TOOLKIT

section
variable (MAX_TEMP_CHAR_BUFFER_SIZE : Nat)

/-- `show_parameter_not_supported_with_api(par_name, api_func, toolkit_index)`. -/
def show_parameter_not_supported_with_api (par_name api_func : String) (toolkit : TOOLKIT) :
    TOOLKIT :=
  let buffer := snprintf MAX_TEMP_CHAR_BUFFER_SIZE
    ("Parameter '" ++ par_name ++ "' is not supported with api " ++ api_func ++ ".\n" ++
     "Nothing will be chaged.\n" ++
     "If return value is expected, 0/0.0/False/EMPTY STRING will be returned")
  toolkit.show_information_with_leading_time_stamp buffer

/-- `api_get_toolkit_string_data(parameter_name, toolkit_index)`: the returned text (what
the returned pointer, the shared buffer, holds on return) and the toolkit. -/
def api_get_toolkit_string_data (parameter_name : String) (toolkit : TOOLKIT) :
    String × TOOLKIT :=
  let toolkit := { toolkit with steps_char_buffer := snprintf MAX_TEMP_CHAR_BUFFER_SIZE "" }
  let psdb := toolkit.get_power_system_database
  let PARAMETER_NAME := string2upper parameter_name
  if PARAMETER_NAME = "TOOLKIT NAME" then
    let toolkit := { toolkit with
      steps_char_buffer := snprintf MAX_TEMP_CHAR_BUFFER_SIZE toolkit.get_toolkit_name }
    (toolkit.steps_char_buffer, toolkit)
  else if PARAMETER_NAME = "CASE INFORMATION" then
    let toolkit := { toolkit with
      steps_char_buffer := snprintf MAX_TEMP_CHAR_BUFFER_SIZE psdb.case_information }
    (toolkit.steps_char_buffer, toolkit)
  else if PARAMETER_NAME = "CASE ADDITIONAL INFORMATION" then
    let toolkit := { toolkit with
      steps_char_buffer := snprintf MAX_TEMP_CHAR_BUFFER_SIZE psdb.case_additional_information }
    (toolkit.steps_char_buffer, toolkit)
  else
    let toolkit := show_parameter_not_supported_with_api MAX_TEMP_CHAR_BUFFER_SIZE
      PARAMETER_NAME "api_get_toolkit_string_data" toolkit
    (toolkit.steps_char_buffer, toolkit)

/-- `api_get_toolkit_bool_data(parameter_name, toolkit_index)`: the returned `bool` and
the toolkit.  The last `return` of the function returns `toolkit.steps_char_buffer`. -/
def api_get_toolkit_bool_data (parameter_name : String) (toolkit : TOOLKIT) : Bool × TOOLKIT :=
  let toolkit := { toolkit with steps_char_buffer := snprintf MAX_TEMP_CHAR_BUFFER_SIZE "" }
  let PARAMETER_NAME := string2upper parameter_name
  if PARAMETER_NAME = "DETAILED LOG LOGIC" then
    (toolkit.is_detailed_log_enabled, toolkit)
  else
    let toolkit := show_parameter_not_supported_with_api MAX_TEMP_CHAR_BUFFER_SIZE
      PARAMETER_NAME "api_get_toolkit_bool_data" toolkit
    (toolkit.steps_char_buffer_as_bool, toolkit)

/-- `api_get_device_count(device_type)`, on the default toolkit: the returned count and
the toolkit. -/
def api_get_device_count (device_type : String) (default_toolkit : TOOLKIT) : Nat × TOOLKIT :=
  let psdb := default_toolkit.get_power_system_database
  let DEVICE_TYPE := string2upper device_type
  if DEVICE_TYPE = "BUS" then (psdb.get_bus_count, default_toolkit)
  else if DEVICE_TYPE = "GENERATOR" then (psdb.get_generator_count, default_toolkit)
  else if DEVICE_TYPE = "WT GENERATOR" then (psdb.get_wt_generator_count, default_toolkit)
  else if DEVICE_TYPE = "PV UNIT" then (psdb.get_pv_unit_count, default_toolkit)
  else if DEVICE_TYPE = "LOAD" then (psdb.get_load_count, default_toolkit)
  else if DEVICE_TYPE = "FIXED SHUNT" then (psdb.get_fixed_shunt_count, default_toolkit)
  else if DEVICE_TYPE = "LINE" then (psdb.get_line_count, default_toolkit)
  else if DEVICE_TYPE = "TRANSFORMER" then (psdb.get_transformer_count, default_toolkit)
  else if DEVICE_TYPE = "HVDC" then (psdb.get_hvdc_count, default_toolkit)
  else if DEVICE_TYPE = "EQUIVALENT DEVICE" then
    (psdb.get_equivalent_device_count, default_toolkit)
  else if DEVICE_TYPE = "ENERGY STORAGE" then (psdb.get_energy_storage_count, default_toolkit)
  else
    (0, show_parameter_not_supported_with_api MAX_TEMP_CHAR_BUFFER_SIZE DEVICE_TYPE
      "api_get_device_count" default_toolkit)

/-- `api_set_device_capacity(device_type, cap, toolkit_index)`. -/
def api_set_device_capacity (device_type : String) (cap : Nat) (toolkit : TOOLKIT) : TOOLKIT :=
  let psdb := toolkit.get_power_system_database
  let DEVICE_TYPE := string2upper device_type
  if DEVICE_TYPE = "BUS" then { toolkit with psdb := psdb.set_bus_capacity cap }
  else if DEVICE_TYPE = "GENERATOR" then { toolkit with psdb := psdb.set_generator_capacity cap }
  else if DEVICE_TYPE = "WT GENERATOR" then
    { toolkit with psdb := psdb.set_wt_generator_capacity cap }
  else if DEVICE_TYPE = "PV UNIT" then { toolkit with psdb := psdb.set_pv_unit_capacity cap }
  else if DEVICE_TYPE = "LOAD" then { toolkit with psdb := psdb.set_load_capacity cap }
  else if DEVICE_TYPE = "FIXED SHUNT" then
    { toolkit with psdb := psdb.set_fixed_shunt_capacity cap }
  else if DEVICE_TYPE = "LINE" then { toolkit with psdb := psdb.set_line_capacity cap }
  else if DEVICE_TYPE = "TRANSFORMER" then
    { toolkit with psdb := psdb.set_transformer_capacity cap }
  else if DEVICE_TYPE = "HVDC" then { toolkit with psdb := psdb.set_hvdc_capacity cap }
  else if DEVICE_TYPE = "EQUIVALENT DEVICE" then
    { toolkit with psdb := psdb.set_equivalent_device_capacity cap }
  else if DEVICE_TYPE = "ENERGY STORAGE" then
    { toolkit with psdb := psdb.set_energy_storage_capacity cap }
  else
    show_parameter_not_supported_with_api MAX_TEMP_CHAR_BUFFER_SIZE DEVICE_TYPE
      "api_set_device_capacity" toolkit

end

/-- The device type an API name stands for: the eleven names the API utilities compare
an upper-cased device type with. -/
def DEVICE_KIND.name : DEVICE_KIND → String
  | .BUS => "BUS"
  | .GENERATOR => "GENERATOR"
  | .WT_GENERATOR => "WT GENERATOR"
  | .PV_UNIT => "PV UNIT"
  | .LOAD => "LOAD"
  | .FIXED_SHUNT => "FIXED SHUNT"
  | .LINE => "LINE"
  | .TRANSFORMER => "TRANSFORMER"
  | .HVDC => "HVDC"
  | .EQUIVALENT_DEVICE => "EQUIVALENT DEVICE"
  | .ENERGY_STORAGE => "ENERGY STORAGE"
/-! ## Owners of a device (steps_api_common_utilities.cpp) -/

/-- Modelled from the spec: class `OWNERSHIP`, the owners of a device with their
fractions, in the order the owners were first appended; an owner has one fraction. -/
structure OWNERSHIP (F : Type) where
  pairs : List (Nat × F)
  owners_distinct : (pairs.map Prod.fst).Nodup

namespace OWNERSHIP

variable {F : Type} [LinearOrderedField F]

/-- A new `OWNERSHIP`, without owners. -/
def empty : OWNERSHIP F := ⟨[], List.nodup_nil⟩

/-- The fraction `fraction` added to the fraction of `owner` in a list of pairs. -/
def accumulate (owner : Nat) (fraction : F) (pairs : List (Nat × F)) : List (Nat × F) :=
  pairs.map (fun p => if p.1 = owner then (p.1, p.2 + fraction) else p)

/-- Modelled from the spec: `append_owner_and_its_fraction(owner, fraction)`, additive
accumulation of fractions: the fraction is added to the fraction of an owner that is
there already, and a new owner is appended with the fraction. -/
def append_owner_and_its_fraction (os : OWNERSHIP F) (owner : Nat) (fraction : F) :
    OWNERSHIP F :=
  if h : owner ∈ os.pairs.map Prod.fst then
    ⟨accumulate owner fraction os.pairs, by
      have : (accumulate owner fraction os.pairs).map Prod.fst = os.pairs.map Prod.fst := by
        unfold accumulate
        rw [List.map_map]
        apply List.map_congr_left
        intro p _
        by_cases hp : p.1 = owner <;> simp [hp]
      rw [this]
      exact os.owners_distinct⟩
  else
    ⟨os.pairs ++ [(owner, fraction)], by
      rw [List.map_append, List.map_singleton]
      exact List.Nodup.append os.owners_distinct (List.nodup_singleton _)
        (List.disjoint_singleton.mpr h)⟩

/-- `get_owner_count()`. -/
def get_owner_count (os : OWNERSHIP F) : Nat := os.pairs.length

/-- `get_owner_of_index(index)`; 0 when there is no owner of that index. -/
def get_owner_of_index (os : OWNERSHIP F) (index : Nat) : Nat :=
  match os.pairs.get? index with
  | some p => p.1
  | none => 0

/-- `get_fraction_of_owner_of_index(index)`; 0.0 when there is no owner of that index. -/
def get_fraction_of_owner_of_index (os : OWNERSHIP F) (index : Nat) : F :=
  match os.pairs.get? index with
  | some p => p.2
  | none => 0

end OWNERSHIP

/-- Modelled from the spec: class `DEVICE_ID`, as far as the API utilities ask. -/
structure DEVICE_ID where
  device_name : String

/-- Modelled from the spec: class `DEVICE`, as far as the API utilities ask: its
identifier, its name and its ownership. -/
structure DEVICE (F : Type) where
  device_id : DEVICE_ID
  device_name : String
  ownership : OWNERSHIP F

namespace DEVICE

variable {F : Type} [LinearOrderedField F]

/-- `get_device_id()`. -/
def get_device_id (device : DEVICE F) : DEVICE_ID := device.device_id
/-- `get_device_name()`. -/
def get_device_name (device : DEVICE F) : String := device.device_name
/-- `get_ownership()`. -/
def get_ownership (device : DEVICE F) : OWNERSHIP F := device.ownership
/-- Modelled from the spec: `set_ownership(os)` stores the ownership. -/
def set_ownership (device : DEVICE F) (os : OWNERSHIP F) : DEVICE F :=
  { device with ownership := os }
/-- `get_owner_count()`. -/
def get_owner_count (device : DEVICE F) : Nat := device.ownership.get_owner_count
/-- `get_owner_of_index(index)`. -/
def get_owner_of_index (device : DEVICE F) (index : Nat) : Nat :=
  device.ownership.get_owner_of_index index
/-- `get_fraction_of_owner_of_index(index)`. -/
def get_fraction_of_owner_of_index (device : DEVICE F) (index : Nat) : F :=
  device.ownership.get_fraction_of_owner_of_index index

end DEVICE

/-- Conversion of an `int` argument to the `size_t` an owner number is (64 bits). -/
def size_t_of_int (value : Int) : Nat := (value % 2 ^ 64).toNat

section
variable (MAX_TEMP_CHAR_BUFFER_SIZE : Nat) {F : Type} [LinearOrderedField F]

/-- `show_parameter_not_supported_for_device_with_api(par_name, did, api_func,
toolkit_index)`. -/
def show_parameter_not_supported_for_device_with_api (par_name : String) (did : DEVICE_ID)
    (api_func : String) (toolkit : TOOLKIT) : TOOLKIT :=
  let buffer := snprintf MAX_TEMP_CHAR_BUFFER_SIZE
    ("Parameter '" ++ par_name ++ "' is not supported for " ++ did.device_name ++
     " with api " ++ api_func ++ ".\n" ++
     "Nothing will be chaged.\n" ++
     "If return value is expected, 0/0.0/False/EMPTY STRING will be returned")
  toolkit.show_information_with_leading_time_stamp buffer

/-- `set_owner_of_device(device, parameter_name, value, toolkit_index)`: the device and
the toolkit after the call. -/
def set_owner_of_device (device : DEVICE F) (parameter_name : String) (value : Int)
    (toolkit : TOOLKIT) : DEVICE F × TOOLKIT :=
  let PARAMETER_NAME := string2upper parameter_name
  if PARAMETER_NAME = "OWNER1" then
    let n := device.get_owner_count
    if n ≥ 1 then
      let buffer := snprintf MAX_TEMP_CHAR_BUFFER_SIZE
        ("Owner 1 already set and will not be set again for " ++ device.get_device_name ++ ".")
      (device, toolkit.show_information_with_leading_time_stamp buffer)
    else
      let os : OWNERSHIP F := OWNERSHIP.empty
      let os := os.append_owner_and_its_fraction (size_t_of_int value) 0
      (device.set_ownership os, toolkit)
  else if PARAMETER_NAME = "OWNER2" then
    let n := device.get_owner_count
    if n ≥ 2 then
      let buffer := snprintf MAX_TEMP_CHAR_BUFFER_SIZE
        ("Owner 2 already set and will not be set again for " ++ device.get_device_name ++ ".")
      (device, toolkit.show_information_with_leading_time_stamp buffer)
    else
      let os := device.get_ownership
      let os := os.append_owner_and_its_fraction (size_t_of_int value) 0
      (device.set_ownership os, toolkit)
  else if PARAMETER_NAME = "OWNER3" then
    let n := device.get_owner_count
    if n ≥ 3 then
      let buffer := snprintf MAX_TEMP_CHAR_BUFFER_SIZE
        ("Owner 3 already set and will not be set again for " ++ device.get_device_name ++ ".")
      (device, toolkit.show_information_with_leading_time_stamp buffer)
    else
      let os := device.get_ownership
      let os := os.append_owner_and_its_fraction (size_t_of_int value) 0
      (device.set_ownership os, toolkit)
  else if PARAMETER_NAME = "OWNER4" then
    let n := device.get_owner_count
    if n ≥ 4 then
      let buffer := snprintf MAX_TEMP_CHAR_BUFFER_SIZE
        ("Owner 4 already set and will not be set again for " ++ device.get_device_name ++ ".")
      (device, toolkit.show_information_with_leading_time_stamp buffer)
    else
      let os := device.get_ownership
      let os := os.append_owner_and_its_fraction (size_t_of_int value) 0
      (device.set_ownership os, toolkit)
  else
    (device, show_parameter_not_supported_for_device_with_api MAX_TEMP_CHAR_BUFFER_SIZE
      PARAMETER_NAME device.get_device_id "set_owner_of_device" toolkit)

/-- `set_owner_fraction_of_device(device, parameter_name, value, toolkit_index)`: the
device and the toolkit after the call. -/
def set_owner_fraction_of_device (device : DEVICE F) (parameter_name : String) (value : F)
    (toolkit : TOOLKIT) : DEVICE F × TOOLKIT :=
  let PARAMETER_NAME := string2upper parameter_name
  if PARAMETER_NAME = "FRAC1" then
    let n := device.get_owner_count
    if n < 1 then
      let buffer := snprintf MAX_TEMP_CHAR_BUFFER_SIZE
        ("Owner 1 does not exist and owner fraction will not be set for " ++
          device.get_device_name ++ ".")
      (device, toolkit.show_information_with_leading_time_stamp buffer)
    else
      let os := device.get_ownership
      let owner := device.get_owner_of_index 0
      let frac := device.get_fraction_of_owner_of_index 0
      let os := os.append_owner_and_its_fraction owner (-frac + value)
      (device.set_ownership os, toolkit)
  else if PARAMETER_NAME = "FRAC2" then
    let n := device.get_owner_count
    if n < 2 then
      let buffer := snprintf MAX_TEMP_CHAR_BUFFER_SIZE
        ("Owner 2 does not exist and owner fraction will not be set for " ++
          device.get_device_name ++ ".")
      (device, toolkit.show_information_with_leading_time_stamp buffer)
    else
      let os := device.get_ownership
      let owner := device.get_owner_of_index 1
      let frac := device.get_fraction_of_owner_of_index 1
      let os := os.append_owner_and_its_fraction owner (-frac + value)
      (device.set_ownership os, toolkit)
  else if PARAMETER_NAME = "FRAC3" then
    let n := device.get_owner_count
    if n < 3 then
      let buffer := snprintf MAX_TEMP_CHAR_BUFFER_SIZE
        ("Owner 3 does not exist and owner fraction will not be set for " ++
          device.get_device_name ++ ".")
      (device, toolkit.show_information_with_leading_time_stamp buffer)
    else
      let os := device.get_ownership
      let owner := device.get_owner_of_index 2
      let frac := device.get_fraction_of_owner_of_index 2
      let os := os.append_owner_and_its_fraction owner (-frac + value)
      (device.set_ownership os, toolkit)
  else if PARAMETER_NAME = "FRAC4" then
    let n := device.get_owner_count
    if n < 4 then
      let buffer := snprintf MAX_TEMP_CHAR_BUFFER_SIZE
        ("Owner 4 does not exist and owner fraction will not be set for " ++
          device.get_device_name ++ ".")
      (device, toolkit.show_information_with_leading_time_stamp buffer)
    else
      let os := device.get_ownership
      let owner := device.get_owner_of_index 3
      let frac := device.get_fraction_of_owner_of_index 3
      let os := os.append_owner_and_its_fraction owner (-frac + value)
      (device.set_ownership os, toolkit)
  else
    (device, show_parameter_not_supported_for_device_with_api MAX_TEMP_CHAR_BUFFER_SIZE
      PARAMETER_NAME device.get_device_id "set_owner_fraction_of_device" toolkit)

end

/-- The parameter names `OWNER1` .. `OWNER4` of `set_owner_of_device`, by index. -/
def OWNER_parameter : Fin 4 → String := !["OWNER1", "OWNER2", "OWNER3", "OWNER4"]

/-- The parameter names `FRAC1` .. `FRAC4` of `set_owner_fraction_of_device`, by index. -/
def FRAC_parameter : Fin 4 → String := !["FRAC1", "FRAC2", "FRAC3", "FRAC4"]

/-! ## Functions of `<cmath>` -/

/-- The functions of `<cmath>` that are not among those of `Ext`. -/
structure CMATH (F : Type) where
  sqrt : F → F
  pow : F → F → F
  log : F → F

/-! ## The computations of a block (INTEGRAL_BLOCK, FIRST_ORDER_BLOCK)

The block classes are not in the sources at hand; what `initialize()` and `run(mode)`
compute is modelled from the specification: trapezoidal integration over one step `h`
with the limiter policy of the block.  `store` keeps what the committed step
contributes to the next one. -/

namespace BLOCK

variable {F : Type} [LinearOrderedField F]

/-- A value brought into the limits of the block: the upper limit above it, the lower
limit below it. -/
def clamp (b : BLOCK F) (x : F) : F :=
  if x > b.upper_limit then b.upper_limit
  else if x < b.lower_limit then b.lower_limit
  else x

/-- Modelled from the spec: the state a block takes for a computed state `s`.
`NON_WINDUP_LIMITER` "clamps the internal state itself"; with `WINDUP_LIMITER` and with
`NO_LIMITER` the "state may exceed limits". -/
def limited_state (b : BLOCK F) (s : F) : F :=
  match b.limiter_type with
  | .NON_WINDUP_LIMITER => b.clamp s
  | .WINDUP_LIMITER => s
  | .NO_LIMITER => s

/-- Modelled from the spec: the output a block shows for the output `y` of its state.
`NO_LIMITER` is "pass-through"; `WINDUP_LIMITER` "clamps only the externally visible
output"; with `NON_WINDUP_LIMITER` the state is within the limits and so is the output. -/
def limited_output (b : BLOCK F) (y : F) : F :=
  match b.limiter_type with
  | .NON_WINDUP_LIMITER => b.clamp y
  | .WINDUP_LIMITER => b.clamp y
  | .NO_LIMITER => y

end BLOCK

/-- The two kinds of block a converter model owns: the integrator `1/(sT)` and the
first-order lag `K/(1+sT)`. -/
inductive BLOCK_KIND where
  | INTEGRAL_BLOCK
  | FIRST_ORDER_BLOCK
deriving DecidableEq, Repr

/-- Modelled from the spec: `INTEGRAL_BLOCK::initialize()`, "given a target steady-state
output, analytically solves the internal state consistent with zero derivative at that
output": the state is the target output (clamped with non-windup limiting), the input
of an integrator at rest is zero, and so is its contribution to the next step. -/
def INTEGRAL_BLOCK.initialize {F : Type} [LinearOrderedField F] (b : BLOCK F) : BLOCK F :=
  let s := b.limited_state b.output
  { b with state := s, store := s, input := 0, output := b.limited_output s }

namespace INTEGRAL_BLOCK

variable {F : Type} [LinearOrderedField F]

/-- Modelled from the spec: the state of the integrator `1/(sT)` at the end of a step
`h`, by "trapezoidal (implicit) integration": what the committed step left in `store`
plus `h/(2T)` times the current input, clamped with non-windup limiting. -/
def tentative_state (h : F) (b : BLOCK F) : F :=
  b.limited_state (b.store + h / (2 * b.T) * b.input)

/-- Modelled from the spec: `run(INTEGRATE)` "computes a tentative new state/output from
the current input ... without committing" (`store` is left alone).  A zero time
constant is guarded: the block is left as it is. -/
def integrate (h : F) (b : BLOCK F) : BLOCK F :=
  if b.T = 0 then b
  else
    let s := tentative_state h b
    { b with state := s, output := b.limited_output s }

/-- Modelled from the spec: `run(UPDATE)` "commits the just-computed tentative state as
the new current state": the state is computed as in `integrate` and `store` takes what
this step contributes to the next one. -/
def update (h : F) (b : BLOCK F) : BLOCK F :=
  if b.T = 0 then b
  else
    let s := tentative_state h b
    { b with state := s, store := s + h / (2 * b.T) * b.input, output := b.limited_output s }

/-- `INTEGRAL_BLOCK::run(mode)`. -/
def run (h : F) (mode : DYNAMIC_MODE) (b : BLOCK F) : BLOCK F :=
  match mode with
  | .INTEGRATE_MODE => integrate h b
  | .UPDATE_MODE => update h b

end INTEGRAL_BLOCK

/-- Modelled from the spec: `FIRST_ORDER_BLOCK::initialize()`: "for a first-order lag,
state = output" (clamped with non-windup limiting); at zero derivative the input is the
state over the gain, and `store` is what a committed step at that input leaves. -/
def FIRST_ORDER_BLOCK.initialize {F : Type} [LinearOrderedField F] (h : F) (b : BLOCK F) :
    BLOCK F :=
  let s := b.limited_state b.output
  let x := s / b.K
  { b with
    state := s
    store := s * (1 - h / (2 * b.T)) + h / (2 * b.T) * b.K * x
    input := x
    output := b.limited_output s }

namespace FIRST_ORDER_BLOCK

variable {F : Type} [LinearOrderedField F]

/-- Modelled from the spec: the state of the lag `K/(1+sT)` at the end of a step `h`, by
trapezoidal integration, clamped with non-windup limiting; a "zero time constant
collapses a lag block to an algebraic pass-through (must not divide by zero — guarded
explicitly)". -/
def tentative_state (h : F) (b : BLOCK F) : F :=
  if b.T = 0 then b.limited_state (b.K * b.input)
  else b.limited_state ((b.store + h / (2 * b.T) * b.K * b.input) / (1 + h / (2 * b.T)))

/-- Modelled from the spec: `run(INTEGRATE)`, the tentative state and output, without
committing. -/
def integrate (h : F) (b : BLOCK F) : BLOCK F :=
  let s := tentative_state h b
  { b with state := s, output := b.limited_output s }

/-- Modelled from the spec: `run(UPDATE)`, the state as in `integrate`, committed:
`store` takes what this step contributes to the next one. -/
def update (h : F) (b : BLOCK F) : BLOCK F :=
  let s := tentative_state h b
  { b with
    state := s
    store := s * (1 - h / (2 * b.T)) + h / (2 * b.T) * b.K * b.input
    output := b.limited_output s }

/-- `FIRST_ORDER_BLOCK::run(mode)`. -/
def run (h : F) (mode : DYNAMIC_MODE) (b : BLOCK F) : BLOCK F :=
  match mode with
  | .INTEGRATE_MODE => integrate h b
  | .UPDATE_MODE => update h b

end FIRST_ORDER_BLOCK

namespace BLOCK

variable {F : Type} [LinearOrderedField F]

/-- `initialize()` of a block of the given kind, with integration step `h`. -/
def initialize_of_kind (kind : BLOCK_KIND) (h : F) (b : BLOCK F) : BLOCK F :=
  match kind with
  | .INTEGRAL_BLOCK => INTEGRAL_BLOCK.initialize b
  | .FIRST_ORDER_BLOCK => FIRST_ORDER_BLOCK.initialize h b

/-- `run(mode)` of a block of the given kind, with integration step `h`. -/
def run_of_kind (kind : BLOCK_KIND) (h : F) (mode : DYNAMIC_MODE) (b : BLOCK F) : BLOCK F :=
  match kind with
  | .INTEGRAL_BLOCK => INTEGRAL_BLOCK.run h mode b
  | .FIRST_ORDER_BLOCK => FIRST_ORDER_BLOCK.run h mode b

/-- `set_input(x)`. -/
def set_input (b : BLOCK F) (x : F) : BLOCK F := { b with input := x }

/-- `set_output(y)`. -/
def set_output (b : BLOCK F) (y : F) : BLOCK F := { b with output := y }

/-- One step of a block: `set_input(x)` followed by `run(mode)`. -/
def step (kind : BLOCK_KIND) (h : F) (b : BLOCK F) (xm : F × DYNAMIC_MODE) : BLOCK F :=
  run_of_kind kind h xm.2 (b.set_input xm.1)

/-- A block after `initialize()` and then the steps of `steps`, in order. -/
def after_steps (kind : BLOCK_KIND) (h : F) (b : BLOCK F) (steps : List (F × DYNAMIC_MODE)) :
    BLOCK F :=
  steps.foldl (step kind h) (initialize_of_kind kind h b)

/-- Whether state and output of a block are within its limits. -/
def within_limits (b : BLOCK F) : Prop :=
  b.lower_limit ≤ b.state ∧ b.state ≤ b.upper_limit ∧
  b.lower_limit ≤ b.output ∧ b.output ≤ b.upper_limit

end BLOCK

/-! ## JACOBIAN_BUILDER (jacobian_builder_test.cpp)

The classes `NETWORK_MATRIX` and `JACOBIAN_BUILDER` are not in the sources at hand, the
test of the builder is.  The builder is modelled from the specification: it "derives
four structurally sparse blocks — ∂P/∂θ, ∂P/∂V, ∂Q/∂θ, ∂Q/∂V — from the admittance
matrix and current voltage state", with the pattern of the admittance matrix, and it
updates the numeric entries in place through the accessors of the sparse matrix. -/

namespace SPARSE_MATRIX

variable {F : Type} [LinearOrderedField F]

/-- `get_matrix_entry_count()`, the number of entries in compressed storage. -/
def get_matrix_entry_count (m : COMPRESSED_FORM F) : Nat := m.entries.length

/-- Modelled from the spec: `get_row_number_of_entry_index(index)`, the row of the entry
at an index of compressed storage; 0 outside the storage. -/
def get_row_number_of_entry_index (m : COMPRESSED_FORM F) (index : Nat) : Int :=
  match m.entries.get? index with
  | some t => t.row
  | none => 0

/-- Modelled from the spec: `get_column_number_of_entry_index(index)`, the column of the
entry at an index of compressed storage; 0 outside the storage. -/
def get_column_number_of_entry_index (m : COMPRESSED_FORM F) (index : Nat) : Int :=
  match m.entries.get? index with
  | some t => t.col
  | none => 0

/-- The sparsity pattern of a compressed matrix: the positions `(row, column)` of its
entries, in storage order. -/
def COMPRESSED_FORM.pattern (m : COMPRESSED_FORM F) : List (Int × Int) :=
  m.entries.map (fun t => (t.row, t.col))

end SPARSE_MATRIX

/-- Modelled from the spec: the "current bus voltage state (magnitude, angle per bus)",
by internal bus number. -/
structure BUS_VOLTAGES (F : Type) where
  voltage_in_pu : Int → F
  angle_in_rad : Int → F

/-- Modelled from the spec: class `NETWORK_MATRIX`: `build_network_Y_matrix()` assembles
the bus admittance matrix entry by entry (`contributions`, what the branches and shunts
of the network add) and compresses it. -/
structure NETWORK_MATRIX (F : Type) where
  bus_count : Nat
  contributions : List (TRIPLET F)

/-- `get_network_Y_matrix()` after `build_network_Y_matrix()`. -/
def NETWORK_MATRIX.get_network_Y_matrix {F : Type} [LinearOrderedField F]
    (network : NETWORK_MATRIX F) : SPARSE_MATRIX.COMPRESSED_FORM F :=
  SPARSE_MATRIX.compress_and_merge_duplicate_entries
    { size := network.bus_count, entries := network.contributions }

/-- Modelled from the spec: class `JACOBIAN_BUILDER`, the four blocks of the Jacobian. -/
structure JACOBIAN_BUILDER (F : Type) where
  jacobian_delta_p_over_angle : SPARSE_MATRIX.COMPRESSED_FORM F
  jacobian_delta_p_over_voltage : SPARSE_MATRIX.COMPRESSED_FORM F
  jacobian_delta_q_over_angle : SPARSE_MATRIX.COMPRESSED_FORM F
  jacobian_delta_q_over_voltage : SPARSE_MATRIX.COMPRESSED_FORM F

namespace JACOBIAN_BUILDER

open SPARSE_MATRIX

variable {F : Type} [LinearOrderedField F]

/-- The term `G*cos(θi - θj) + B*sin(θi - θj)` of the power flow equations for the
admittance `y = G + jB` between the buses `i` and `j`. -/
def cos_term (E : Ext F) (v : BUS_VOLTAGES F) (i j : Int) (y : Cplx F) : F :=
  y.re * E.cos (v.angle_in_rad i - v.angle_in_rad j) +
  y.im * E.sin (v.angle_in_rad i - v.angle_in_rad j)

/-- The term `G*sin(θi - θj) - B*cos(θi - θj)` of the power flow equations. -/
def sin_term (E : Ext F) (v : BUS_VOLTAGES F) (i j : Int) (y : Cplx F) : F :=
  y.re * E.sin (v.angle_in_rad i - v.angle_in_rad j) -
  y.im * E.cos (v.angle_in_rad i - v.angle_in_rad j)

/-- Active power injected at bus `i`: `Vi * Σj Vj*(Gij*cos θij + Bij*sin θij)`, the sum
over the entries of row `i` of the admittance matrix. -/
def get_bus_active_power (E : Ext F) (Y : COMPRESSED_FORM F) (v : BUS_VOLTAGES F) (i : Int) :
    F :=
  v.voltage_in_pu i *
    ((Y.entries.filter (fun t => decide (t.row = i))).map
      (fun t => v.voltage_in_pu t.col * cos_term E v i t.col t.value)).sum

/-- Reactive power injected at bus `i`: `Vi * Σj Vj*(Gij*sin θij - Bij*cos θij)`. -/
def get_bus_reactive_power (E : Ext F) (Y : COMPRESSED_FORM F) (v : BUS_VOLTAGES F)
    (i : Int) : F :=
  v.voltage_in_pu i *
    ((Y.entries.filter (fun t => decide (t.row = i))).map
      (fun t => v.voltage_in_pu t.col * sin_term E v i t.col t.value)).sum

/-- Modelled from the spec: the entry `∂Pi/∂θj` of the Jacobian. -/
def get_jacobian_delta_p_over_angle (E : Ext F) (Y : COMPRESSED_FORM F) (v : BUS_VOLTAGES F)
    (i j : Int) : F :=
  if i = j then
    -get_bus_reactive_power E Y v i -
      (get_entry Y i i).im * v.voltage_in_pu i * v.voltage_in_pu i
  else v.voltage_in_pu i * v.voltage_in_pu j * sin_term E v i j (get_entry Y i j)

/-- Modelled from the spec: the entry `∂Pi/∂Vj` of the Jacobian. -/
def get_jacobian_delta_p_over_voltage (E : Ext F) (Y : COMPRESSED_FORM F)
    (v : BUS_VOLTAGES F) (i j : Int) : F :=
  if i = j then
    get_bus_active_power E Y v i / v.voltage_in_pu i + (get_entry Y i i).re * v.voltage_in_pu i
  else v.voltage_in_pu i * cos_term E v i j (get_entry Y i j)

/-- Modelled from the spec: the entry `∂Qi/∂θj` of the Jacobian. -/
def get_jacobian_delta_q_over_angle (E : Ext F) (Y : COMPRESSED_FORM F) (v : BUS_VOLTAGES F)
    (i j : Int) : F :=
  if i = j then
    get_bus_active_power E Y v i - (get_entry Y i i).re * v.voltage_in_pu i * v.voltage_in_pu i
  else -(v.voltage_in_pu i * v.voltage_in_pu j * cos_term E v i j (get_entry Y i j))

/-- Modelled from the spec: the entry `∂Qi/∂Vj` of the Jacobian. -/
def get_jacobian_delta_q_over_voltage (E : Ext F) (Y : COMPRESSED_FORM F)
    (v : BUS_VOLTAGES F) (i j : Int) : F :=
  if i = j then
    get_bus_reactive_power E Y v i / v.voltage_in_pu i -
      (get_entry Y i i).im * v.voltage_in_pu i
  else v.voltage_in_pu i * sin_term E v i j (get_entry Y i j)

/-- Modelled from the spec: one block built from scratch: an entry with the derivative
`der row column` is added for every entry of the admittance matrix, and the block is
compressed.  This "establishes sparsity pattern". -/
def build_jacobian (der : Int → Int → F) (Y : COMPRESSED_FORM F) : COMPRESSED_FORM F :=
  compress_and_merge_duplicate_entries
    { size := Y.size
      entries := (List.range (get_matrix_entry_count Y)).map (fun k =>
        { row := get_row_number_of_entry_index Y k
          col := get_column_number_of_entry_index Y k
          value := ⟨der (get_row_number_of_entry_index Y k)
            (get_column_number_of_entry_index Y k), 0⟩ }) }

/-- Modelled from the spec: the entry at one index of a block updated "in place without
rebuilding structure": the derivative at the row and column of the entry is written as
its value. -/
def update_entry (der : Int → Int → F) (J : COMPRESSED_FORM F) (index : Nat) :
    COMPRESSED_FORM F :=
  change_real_entry_value J index
    (der (get_row_number_of_entry_index J index) (get_column_number_of_entry_index J index))

/-- Modelled from the spec: one block updated: it "recomputes only numeric entries ...,
reusing the established pattern", index by index of the compressed storage. -/
def update_jacobian (der : Int → Int → F) (J : COMPRESSED_FORM F) : COMPRESSED_FORM F :=
  (List.range (get_matrix_entry_count J)).foldl (update_entry der) J

/-- Modelled from the spec: `build_seprate_jacobians()`, the four blocks from the
admittance matrix of the network and the current voltages. -/
def build_seprate_jacobians (E : Ext F) (network : NETWORK_MATRIX F) (v : BUS_VOLTAGES F) :
    JACOBIAN_BUILDER F :=
  let Y := network.get_network_Y_matrix
  { jacobian_delta_p_over_angle := build_jacobian (get_jacobian_delta_p_over_angle E Y v) Y
    jacobian_delta_p_over_voltage := build_jacobian (get_jacobian_delta_p_over_voltage E Y v) Y
    jacobian_delta_q_over_angle := build_jacobian (get_jacobian_delta_q_over_angle E Y v) Y
    jacobian_delta_q_over_voltage :=
      build_jacobian (get_jacobian_delta_q_over_voltage E Y v) Y }

/-- Modelled from the spec: `update_seprate_jacobians()`, the numeric entries of the four
blocks at the current voltages, in place. -/
def update_seprate_jacobians (E : Ext F) (network : NETWORK_MATRIX F) (v : BUS_VOLTAGES F)
    (jb : JACOBIAN_BUILDER F) : JACOBIAN_BUILDER F :=
  let Y := network.get_network_Y_matrix
  { jacobian_delta_p_over_angle :=
      update_jacobian (get_jacobian_delta_p_over_angle E Y v) jb.jacobian_delta_p_over_angle
    jacobian_delta_p_over_voltage :=
      update_jacobian (get_jacobian_delta_p_over_voltage E Y v) jb.jacobian_delta_p_over_voltage
    jacobian_delta_q_over_angle :=
      update_jacobian (get_jacobian_delta_q_over_angle E Y v) jb.jacobian_delta_q_over_angle
    jacobian_delta_q_over_voltage :=
      update_jacobian (get_jacobian_delta_q_over_voltage E Y v)
        jb.jacobian_delta_q_over_voltage }

end JACOBIAN_BUILDER

/-! ## The model variables of PVCV0 and WT3G2 (pvcv0.cpp, wt3g2.cpp)

A value is `none` where the code dereferences a NULL pointer. -/

/-- What `get_variable_with_name` returns, with the `return` statement that is reached:
`branch` is the name the reached `return` stands under, `none` for the last statement
of the function, `return 0.0`. -/
structure VARIABLE_VALUE (F : Type) where
  branch : Option String
  value : Option F

/-- Modelled from the spec: `MODEL::get_variable_name_from_variable_index(var_index,
table)` of the base class `MODEL` (not in the sources at hand): the name at the index
of the table, the empty text outside the table. -/
def get_variable_name_from_variable_index (var_index : Nat) (table : List String) : String :=
  table.getD var_index ""

namespace PVCV0

variable {F : Type} [LinearOrderedField F]

/-- `MODEL_VARIABLE_TABLE` (pvcv0.cpp:9-27). -/
def MODEL_VARIABLE_TABLE : List String :=
  ["PLL ANGLE IN DEG",
   "TERMINAL P IN PU ON MBASE",
   "TERMINAL P IN MW",
   "TERMINAL Q IN PU ON MBASE",
   "TERMINAL Q IN MVAR",
   "TERMINAL S IN PU ON MBASE",
   "TERMINAL S IN MVA",
   "INTERNAL VOLTAGE IN PU",
   "TERMINAL CURRENT IN PU",
   "TERMINAL CURRENT IN KA",
   "ACTIVE CURRENT COMMAND IN PU",
   "REACTIVE CURRENT COMMAND IN PU",
   "REACTIVE VOLTAGE COMMAND IN PU",
   "STATE@ACTIVE CURRENT COMMAND BLOCK",
   "STATE@REACTIVE VOLTAGE COMMAND BLOCK",
   "STATE@PLL FREQUENCY BLOCK",
   "STATE@PLL ANGLE BLOCK",
   "STATE@LVPL VOLTAGE SENSOR"]

/-- `PVCV0::get_terminal_active_power_in_pu_based_on_mbase()`. -/
def get_terminal_active_power_in_pu_based_on_mbase (E : Ext F) (s : PVCV0 F) : Option F :=
  (get_terminal_complex_power_in_pu_based_on_mbase E s).map (fun S => S.re)

/-- `PVCV0::get_terminal_reactive_power_in_pu_based_on_mbase()`. -/
def get_terminal_reactive_power_in_pu_based_on_mbase (E : Ext F) (s : PVCV0 F) : Option F :=
  (get_terminal_complex_power_in_pu_based_on_mbase E s).map (fun S => S.im)

/-- `PVCV0::get_terminal_current_in_pu_based_on_mbase()`. -/
def get_terminal_current_in_pu_based_on_mbase (E : Ext F) (s : PVCV0 F) : Option F :=
  (get_terminal_complex_current_in_pu_in_xy_axis_based_on_mbase E s).map
    E.steps_fast_complex_abs

/-- `PVCV0::get_pll_angle_in_deg()`. -/
def get_pll_angle_in_deg (E : Ext F) (s : PVCV0 F) : F :=
  E.rad2deg (get_pll_angle_in_rad E s)

/-- `PVCV0::get_variable_with_name(var_name)` (pvcv0.cpp:675-728), with the `return`
statement that is reached. -/
def get_variable_with_name (E : Ext F) (M : CMATH F) (C : Cmd F (PV_UNIT F))
    (var_name : String) (s : PVCV0 F) : VARIABLE_VALUE F :=
  let var_name := string2upper var_name
  if var_name = "PLL ANGLE IN DEG" then
    ⟨some "PLL ANGLE IN DEG", some (get_pll_angle_in_deg E s)⟩
  else if var_name = "TERMINAL P IN PU ON MBASE" then
    ⟨some "TERMINAL P IN PU ON MBASE", get_terminal_active_power_in_pu_based_on_mbase E s⟩
  else if var_name = "TERMINAL P IN MW" then
    ⟨some "TERMINAL P IN MW",
      (get_terminal_active_power_in_pu_based_on_mbase E s).map
        (fun P => P * get_mbase_in_MVA s)⟩
  else if var_name = "TERMINAL Q IN PU ON MBASE" then
    ⟨some "TERMINAL Q IN PU ON MBASE", get_terminal_reactive_power_in_pu_based_on_mbase E s⟩
  else if var_name = "TERMINAL Q IN MW" then
    ⟨some "TERMINAL Q IN MW",
      (get_terminal_reactive_power_in_pu_based_on_mbase E s).map
        (fun Q => Q * get_mbase_in_MVA s)⟩
  else if var_name = "TERMINAL S IN PU ON MBASE" then
    ⟨some "TERMINAL S IN PU ON MBASE",
      (get_terminal_complex_power_in_pu_based_on_mbase E s).map E.steps_fast_complex_abs⟩
  else if var_name = "TERMINAL S IN MVA" then
    ⟨some "TERMINAL S IN MVA",
      (get_terminal_complex_power_in_pu_based_on_mbase E s).map
        (fun S => E.steps_fast_complex_abs S * get_mbase_in_MVA s)⟩
  else if var_name = "ACTIVE CURRENT COMMAND IN PU" then
    ⟨some "ACTIVE CURRENT COMMAND IN PU",
      some (C.get_active_current_command_in_pu_based_on_mbase s)⟩
  else if var_name = "REACTIVE CURRENT COMMAND IN PU" then
    ⟨some "REACTIVE CURRENT COMMAND IN PU",
      some (C.get_reactive_current_command_in_pu_based_on_mbase s)⟩
  else if var_name = "REACTIVE VOLTAGE COMMAND IN PU" then
    let Xeq := (get_source_impedance_in_pu_based_on_mbase s).im
    ⟨some "REACTIVE VOLTAGE COMMAND IN PU",
      some (C.get_reactive_current_command_in_pu_based_on_mbase s * (-Xeq))⟩
  else if var_name = "INTERNAL VOLTAGE IN PU" then
    ⟨some "INTERNAL VOLTAGE IN PU",
      (get_internal_voltage_in_pu_in_xy_axis E s).map E.steps_fast_complex_abs⟩
  else if var_name = "TERMINAL CURRENT IN PU" then
    ⟨some "TERMINAL CURRENT IN PU", get_terminal_current_in_pu_based_on_mbase E s⟩
  else if var_name = "TERMINAL CURRENT IN KA" then
    ⟨some "TERMINAL CURRENT IN KA",
      match get_power_system_database s, s.device with
      | some psdb, some pv_unit =>
        let vbase := psdb.bus_base_voltage_in_kV
        let mbase := pv_unit.mbase_in_MVA
        let ibase := mbase / M.sqrt 3 / vbase
        (get_terminal_current_in_pu_based_on_mbase E s).map (fun I => I * ibase)
      | _, _ => none⟩
  else if var_name = "STATE@ACTIVE CURRENT COMMAND BLOCK" then
    ⟨some "STATE@ACTIVE CURRENT COMMAND BLOCK", some s.active_current_commander.state⟩
  else if var_name = "STATE@REACTIVE VOLTAGE COMMAND BLOCK" then
    ⟨some "STATE@REACTIVE VOLTAGE COMMAND BLOCK", some s.reactive_voltage_commander.state⟩
  else if var_name = "STATE@PLL FREQUENCY BLOCK" then
    ⟨some "STATE@PLL FREQUENCY BLOCK", some s.PLL_frequency_integrator.state⟩
  else if var_name = "STATE@PLL ANGLE BLOCK" then
    ⟨some "STATE@PLL ANGLE BLOCK", some s.PLL_angle_integrator.state⟩
  else if var_name = "STATE@LVPL VOLTAGE SENSOR" then
    ⟨some "STATE@LVPL VOLTAGE SENSOR", some s.LVPL_voltage_sensor.state⟩
  else ⟨none, some 0⟩

/-- `PVCV0::get_variable_name_from_variable_index(var_index)`. -/
def get_variable_name_from_variable_index (var_index : Nat) : String :=
  STEPS.get_variable_name_from_variable_index var_index MODEL_VARIABLE_TABLE

/-- `PVCV0::get_variable_with_index(var_index)` (pvcv0.cpp:669-673). -/
def get_variable_with_index (E : Ext F) (M : CMATH F) (C : Cmd F (PV_UNIT F))
    (var_index : Nat) (s : PVCV0 F) : VARIABLE_VALUE F :=
  let var_name := get_variable_name_from_variable_index var_index
  get_variable_with_name E M C var_name s

end PVCV0

namespace WT3G2

variable {F : Type} [LinearOrderedField F]

/-- `WT3G2::get_source_Norton_equivalent_complex_current_in_pu_in_xy_axis_based_on_sbase()`
(wt3g2.cpp:486-539).  The quotient `-EQ/Xeq` is the quotient of the field: the value of
the code where `Xeq` is not zero. -/
def get_source_Norton_equivalent_complex_current_in_pu_in_xy_axis_based_on_sbase
    (E : Ext F) (psdb : POWER_SYSTEM_DATABASE F) (s : WT3G2 F) : Cplx F :=
  let sbase := psdb.system_base_power_in_MVA
  let mbase := get_mbase_in_MVA s
  let Vxy := get_terminal_complex_voltage_in_pu psdb s
  let V := E.steps_fast_complex_abs Vxy
  let Zsource := get_source_impedance_in_pu_based_on_mbase s
  let Xeq := Zsource.im
  let V_LVACR_high := V
  let V_LVACR_low : F := 4 / 10
  let V_LVACR_low := if V ≤ V_LVACR_low then V else V_LVACR_low
  let V_LVACR_high := if V ≤ 8 / 10 then 8 / 10 else V_LVACR_high
  let Ip := s.active_current_commander.output
  let lvpl_order := E.get_LVPL_order s.lvpl s.LVPL_voltage_sensor.output
  let Ip := if Ip > lvpl_order then lvpl_order else Ip
  let Ip := Ip * (V - V_LVACR_low) / (V_LVACR_high - V_LVACR_low)
  let Iq := -s.reactive_voltage_commander.output / Xeq
  let hvrc_i := s.get_HVRC_current_in_pu
  let Iq := if Iq < -hvrc_i then -hvrc_i else Iq
  let pll_angle := get_pll_angle_in_rad E psdb s
  let Ix := Ip * E.cos pll_angle - Iq * E.sin pll_angle
  let Iy := Ip * E.sin pll_angle + Iq * E.cos pll_angle
  let Ixy : Cplx F := ⟨Ix, Iy⟩
  (Ixy.smul mbase).sdiv sbase

/-- `WT3G2::get_terminal_complex_current_in_pu_in_xy_axis_based_on_sbase()`
(wt3g2.cpp:550-565). -/
def get_terminal_complex_current_in_pu_in_xy_axis_based_on_sbase
    (E : Ext F) (psdb : POWER_SYSTEM_DATABASE F) (s : WT3G2 F) : Cplx F :=
  let sbase := psdb.system_base_power_in_MVA
  let mbase := get_mbase_in_MVA s
  let Zsource := get_source_impedance_in_pu_based_on_mbase s
  let Zsource := Zsource.sdiv mbase
  let Zsource := Zsource.smul sbase
  let Ixy_norton :=
    get_source_Norton_equivalent_complex_current_in_pu_in_xy_axis_based_on_sbase E psdb s
  let Vxy := get_terminal_complex_voltage_in_pu psdb s
  let Ixy_term := Ixy_norton.sub (Vxy.div Zsource)
  Ixy_term

/-- `WT3G2::get_terminal_complex_current_in_pu_in_xy_axis_based_on_mbase()`
(wt3g2.cpp:541-548). -/
def get_terminal_complex_current_in_pu_in_xy_axis_based_on_mbase
    (E : Ext F) (psdb : POWER_SYSTEM_DATABASE F) (s : WT3G2 F) : Cplx F :=
  let sbase := psdb.system_base_power_in_MVA
  let mbase := get_mbase_in_MVA s
  let Ixy := get_terminal_complex_current_in_pu_in_xy_axis_based_on_sbase E psdb s
  (Ixy.smul sbase).sdiv mbase

/-- `WT3G2::get_terminal_current_in_pu_based_on_mbase()`. -/
def get_terminal_current_in_pu_based_on_mbase
    (E : Ext F) (psdb : POWER_SYSTEM_DATABASE F) (s : WT3G2 F) : F :=
  E.steps_fast_complex_abs
    (get_terminal_complex_current_in_pu_in_xy_axis_based_on_mbase E psdb s)

/-- `WT3G2::get_terminal_complex_power_in_pu_based_on_mbase()`. -/
def get_terminal_complex_power_in_pu_based_on_mbase
    (E : Ext F) (psdb : POWER_SYSTEM_DATABASE F) (s : WT3G2 F) : Cplx F :=
  let Vxy := get_terminal_complex_voltage_in_pu psdb s
  let Ixy := get_terminal_complex_current_in_pu_in_xy_axis_based_on_mbase E psdb s
  let S := Vxy.mul Ixy.conj
  S

/-- `WT3G2::get_terminal_active_power_in_pu_based_on_mbase()`. -/
def get_terminal_active_power_in_pu_based_on_mbase
    (E : Ext F) (psdb : POWER_SYSTEM_DATABASE F) (s : WT3G2 F) : F :=
  (get_terminal_complex_power_in_pu_based_on_mbase E psdb s).re

/-- `WT3G2::get_terminal_reactive_power_in_pu_based_on_mbase()`. -/
def get_terminal_reactive_power_in_pu_based_on_mbase
    (E : Ext F) (psdb : POWER_SYSTEM_DATABASE F) (s : WT3G2 F) : F :=
  (get_terminal_complex_power_in_pu_based_on_mbase E psdb s).im

/-- `WT3G2::get_pll_angle_in_deg()`. -/
def get_pll_angle_in_deg (E : Ext F) (psdb : POWER_SYSTEM_DATABASE F) (s : WT3G2 F) : F :=
  E.rad2deg (get_pll_angle_in_rad E psdb s)

/-- `WT3G2::get_internal_voltage_in_pu_in_xy_axis()`. -/
def get_internal_voltage_in_pu_in_xy_axis
    (E : Ext F) (psdb : POWER_SYSTEM_DATABASE F) (s : WT3G2 F) : Cplx F :=
  let Ixy :=
    get_source_Norton_equivalent_complex_current_in_pu_in_xy_axis_based_on_sbase E psdb s
  let Z := get_source_impedance_in_pu_based_on_mbase s
  let sbase := psdb.system_base_power_in_MVA
  let mbase := get_mbase_in_MVA s
  let Z := (Z.sdiv mbase).smul sbase
  Ixy.mul Z

/-- `WT3G2::prepare_model_variable_table()` (wt3g2.cpp:626-647): the pairs of name and
index it adds, in order. -/
def prepare_model_variable_table : List (String × Nat) :=
  [("PLL ANGLE IN DEG", 0),
   ("TERMINAL P IN PU ON MBASE", 1),
   ("TERMINAL P IN MW", 2),
   ("TERMINAL Q IN PU ON MBASE", 3),
   ("TERMINAL Q IN MVAR", 4),
   ("TERMINAL S IN PU ON MBASE", 5),
   ("TERMINAL S IN MVA", 6),
   ("INTERNAL VOLTAGE IN PU", 7),
   ("TERMINAL CURRENT IN PU", 8),
   ("TERMINAL CURRENT IN KA", 9),
   ("ACTIVE CURRENT COMMAND IN PU", 10),
   ("REACTIVE CURRENT COMMAND IN PU", 11),
   ("REACTIVE VOLTAGE COMMAND IN PU", 12),
   ("STATE@ACTIVE CURRENT COMMAND BLOCK", 13),
   ("STATE@REACTIVE VOLTAGE COMMAND BLOCK", 14),
   ("STATE@PLL FREQUENCY BLOCK", 15),
   ("STATE@PLL ANGLE BLOCK", 16),
   ("STATE@LVPL VOLTAGE SENSOR", 17)]

/-- `WT3G2::get_variable_with_name(var_name)` (wt3g2.cpp:649-702), with the `return`
statement that is reached. -/
def get_variable_with_name (E : Ext F) (M : CMATH F) (C : Cmd F (WT_GENERATOR F))
    (psdb : POWER_SYSTEM_DATABASE F) (var_name : String) (s : WT3G2 F) : VARIABLE_VALUE F :=
  let var_name := string2upper var_name
  if var_name = "PLL ANGLE IN DEG" then
    ⟨some "PLL ANGLE IN DEG", some (get_pll_angle_in_deg E psdb s)⟩
  else if var_name = "TERMINAL P IN PU ON MBASE" then
    ⟨some "TERMINAL P IN PU ON MBASE",
      some (get_terminal_active_power_in_pu_based_on_mbase E psdb s)⟩
  else if var_name = "TERMINAL P IN MW" then
    ⟨some "TERMINAL P IN MW",
      some (get_terminal_active_power_in_pu_based_on_mbase E psdb s * get_mbase_in_MVA s)⟩
  else if var_name = "TERMINAL Q IN PU ON MBASE" then
    ⟨some "TERMINAL Q IN PU ON MBASE",
      some (get_terminal_reactive_power_in_pu_based_on_mbase E psdb s)⟩
  else if var_name = "TERMINAL Q IN MW" then
    ⟨some "TERMINAL Q IN MW",
      some (get_terminal_reactive_power_in_pu_based_on_mbase E psdb s * get_mbase_in_MVA s)⟩
  else if var_name = "TERMINAL S IN PU ON MBASE" then
    ⟨some "TERMINAL S IN PU ON MBASE",
      some (E.steps_fast_complex_abs (get_terminal_complex_power_in_pu_based_on_mbase E psdb s))⟩
  else if var_name = "TERMINAL S IN MVA" then
    ⟨some "TERMINAL S IN MVA",
      some (E.steps_fast_complex_abs (get_terminal_complex_power_in_pu_based_on_mbase E psdb s)
        * get_mbase_in_MVA s)⟩
  else if var_name = "ACTIVE CURRENT COMMAND IN PU" then
    ⟨some "ACTIVE CURRENT COMMAND IN PU",
      some (C.get_active_current_command_in_pu_based_on_mbase s)⟩
  else if var_name = "REACTIVE CURRENT COMMAND IN PU" then
    ⟨some "REACTIVE CURRENT COMMAND IN PU",
      some (C.get_reactive_current_command_in_pu_based_on_mbase s)⟩
  else if var_name = "REACTIVE VOLTAGE COMMAND IN PU" then
    let Xeq := (get_source_impedance_in_pu_based_on_mbase s).im
    ⟨some "REACTIVE VOLTAGE COMMAND IN PU",
      some (C.get_reactive_current_command_in_pu_based_on_mbase s * (-Xeq))⟩
  else if var_name = "INTERNAL VOLTAGE IN PU" then
    ⟨some "INTERNAL VOLTAGE IN PU",
      some (E.steps_fast_complex_abs (get_internal_voltage_in_pu_in_xy_axis E psdb s))⟩
  else if var_name = "TERMINAL CURRENT IN PU" then
    ⟨some "TERMINAL CURRENT IN PU", some (get_terminal_current_in_pu_based_on_mbase E psdb s)⟩
  else if var_name = "TERMINAL CURRENT IN KA" then
    ⟨some "TERMINAL CURRENT IN KA",
      match s.device with
      | some generator =>
        let vbase := psdb.bus_base_voltage_in_kV
        let mbase := generator.mbase_in_MVA
        let ibase := mbase / M.sqrt 3 / vbase
        some (get_terminal_current_in_pu_based_on_mbase E psdb s * ibase)
      | none => none⟩
  else if var_name = "STATE@ACTIVE CURRENT COMMAND BLOCK" then
    ⟨some "STATE@ACTIVE CURRENT COMMAND BLOCK", some s.active_current_commander.state⟩
  else if var_name = "STATE@REACTIVE VOLTAGE COMMAND BLOCK" then
    ⟨some "STATE@REACTIVE VOLTAGE COMMAND BLOCK", some s.reactive_voltage_commander.state⟩
  else if var_name = "STATE@PLL FREQUENCY BLOCK" then
    ⟨some "STATE@PLL FREQUENCY BLOCK", some s.PLL_frequency_integrator.state⟩
  else if var_name = "STATE@PLL ANGLE BLOCK" then
    ⟨some "STATE@PLL ANGLE BLOCK", some s.PLL_angle_integrator.state⟩
  else if var_name = "STATE@LVPL VOLTAGE SENSOR" then
    ⟨some "STATE@LVPL VOLTAGE SENSOR", some s.LVPL_voltage_sensor.state⟩
  else ⟨none, some 0⟩

end WT3G2

/-! ## The mathematical functions and sample data -/

/-- The functions of `Ext` that are mathematics, over the reals: `cos`, `sin`,
`atan2(y, x)` (the argument of `x + iy`, with `atan2(0, 0) = 0`), the modulus, and the
conversions between radians and degrees.  The LVPL order and the block computations
stay parameters. -/
noncomputable def libm (order : LVPL ℝ → ℝ → ℝ) (binit : BlockId → BLOCK ℝ → BLOCK ℝ)
    (brun : BlockId → DYNAMIC_MODE → BLOCK ℝ → BLOCK ℝ) : Ext ℝ where
  PI := Real.pi
  cos := Real.cos
  sin := Real.sin
  atan2 := fun y x => Complex.arg ⟨x, y⟩
  steps_fast_complex_abs := fun z => Real.sqrt (z.re * z.re + z.im * z.im)
  rad2deg := fun x => x * 180 / Real.pi
  deg2rad := fun x => x * Real.pi / 180
  get_LVPL_order := order
  initialize_block := binit
  run_block := brun

/-- The mathematical functions over the reals together with the block computations
modelled from the specification: block `b` is of kind `kind b` (the class declaration,
`pvcv0.h`, is not in the sources at hand) and integrates over the step `h`. -/
noncomputable def libm_and_blocks (order : LVPL ℝ → ℝ → ℝ) (kind : BlockId → BLOCK_KIND)
    (h : ℝ) : Ext ℝ :=
  libm order (fun b blk => BLOCK.initialize_of_kind (kind b) h blk)
    (fun b mode blk => BLOCK.run_of_kind (kind b) h mode blk)

/-- A block at rest with unit gain and unit time constant. -/
def sampleBlock (F : Type) [LinearOrderedField F] : BLOCK F :=
  { limiter_type := .NO_LIMITER, K := 1, T := 1, upper_limit := 0, lower_limit := 0,
    input := 0, output := 0, state := 0, store := 0 }

/-- A 50 Hz system on a 100 MVA base whose unit bus sits at 1.0 pu, angle 0. -/
def sampleDatabase (F : Type) [LinearOrderedField F] : POWER_SYSTEM_DATABASE F :=
  { system_base_frequency_in_Hz := 50, system_base_power_in_MVA := 100,
    bus_complex_voltage_in_pu := ⟨1, 0⟩, bus_base_frequency_in_Hz := 50,
    bus_base_voltage_in_kV := 1 }

/-- One PV unit of 100 MVA that generates 100 MW behind a source reactance of 1 pu. -/
def samplePvUnit (F : Type) [LinearOrderedField F] : PV_UNIT F :=
  { psdb := some (sampleDatabase F), number_of_lumped_pv_units := 1, mbase_in_MVA := 100,
    p_generation_in_MW := 100, q_generation_in_MVar := 0, source_impedance_in_pu := ⟨0, 1⟩ }

/-- A PVCV0 model as its constructor and the setters leave it, attached to `samplePvUnit`,
with the gains `kpll`, `kipll` and the limit `pllmax`; HVRC current 10, LVPL rate 1. -/
def samplePVCV0 (F : Type) [LinearOrderedField F] (kpll kipll pllmax : F) : PVCV0 F :=
  (((PVCV0.clear
    { active_current_commander := sampleBlock F
      reactive_voltage_commander := sampleBlock F
      PLL_frequency_integrator := sampleBlock F
      PLL_angle_integrator := sampleBlock F
      LVPL_voltage_sensor := sampleBlock F
      KPLL := 0
      lvpl := ⟨0, 0, 0⟩
      HVRCR_voltage := 2
      HVRCR_current := 10
      LVPL_active_power_change_rate := 1
      current_source_flag := false
      initial_active_current_command_in_pu_based_on_mbase := 0
      initial_reactive_current_command_in_pu_based_on_mbase := 0
      flag_model_initialized := false
      flag_model_updated := false
      device := some (samplePvUnit F)
      calls := [] }).set_KPLL kpll).set_KIPLL kipll).set_PLLmax pllmax

/-- The sample PVCV0 model attached to a PV unit whose database pointer is NULL. -/
def samplePVCV0_without_database (F : Type) [LinearOrderedField F] (kpll kipll pllmax : F) :
    PVCV0 F :=
  { samplePVCV0 F kpll kipll pllmax with device := some { samplePvUnit F with psdb := none } }

/-- One wind turbine generator of 100 MVA that generates 100 MW behind a source
reactance of 1 pu. -/
def sampleWtGenerator (F : Type) [LinearOrderedField F] : WT_GENERATOR F :=
  { number_of_lumped_wt_generators := 1, mbase_in_MVA := 100, p_generation_in_MW := 100,
    q_generation_in_MVar := 0, source_impedance_in_pu := ⟨0, 1⟩ }

/-- A WT3G2 model attached to `sampleWtGenerator`, with the gains `kpll`, `kipll` and
the limit `pllmax`; otherwise as `samplePVCV0`. -/
def sampleWT3G2 (F : Type) [LinearOrderedField F] (kpll kipll pllmax : F) : WT3G2 F :=
  { samplePVCV0 F kpll kipll pllmax with device := some (sampleWtGenerator F) }

/-- Current commands that are the stored initial commands (a model without electrical
control). -/
def sampleCmd (F D : Type) : Cmd F D :=
  { get_active_current_command_in_pu_based_on_mbase :=
      fun s => s.initial_active_current_command_in_pu_based_on_mbase
    get_reactive_current_command_in_pu_based_on_mbase :=
      fun s => s.initial_reactive_current_command_in_pu_based_on_mbase }

/-- The natural ordering: the columns are taken as they are, whatever `order` is. -/
def naturalOrdering (F : Type) : SPARSE_MATRIX.ORDERING F :=
  { reorder := fun _ _ _ => Equiv.refl _ }

/-- The 2x2 matrix with rows `(1, 2)` and `(0, 0)`, compressed. -/
def sampleZeroRowMatrix (F : Type) [LinearOrderedField F] : SPARSE_MATRIX.COMPRESSED_FORM F :=
  SPARSE_MATRIX.compress_and_merge_duplicate_entries
    { size := 2, entries := [⟨0, 0, ⟨1, 0⟩⟩, ⟨0, 1, ⟨2, 0⟩⟩] }

/-- The 2x2 matrix with rows `(0, 1)` and `(2, 3)`, added in two parts and compressed. -/
def sampleMatrix (F : Type) [LinearOrderedField F] : SPARSE_MATRIX.COMPRESSED_FORM F :=
  SPARSE_MATRIX.compress_and_merge_duplicate_entries
    { size := 2, entries := [⟨1, 1, ⟨1, 0⟩⟩, ⟨0, 1, ⟨1, 0⟩⟩, ⟨1, 0, ⟨2, 0⟩⟩, ⟨1, 1, ⟨2, 0⟩⟩] }

/-- The 1x1 matrix `(5)`, compressed. -/
def sampleOneByOneMatrix (F : Type) [LinearOrderedField F] :
    SPARSE_MATRIX.COMPRESSED_FORM F :=
  SPARSE_MATRIX.compress_and_merge_duplicate_entries
    { size := 1, entries := [⟨0, 0, ⟨5, 0⟩⟩] }

/-- The mathematical functions with an LVPL order of 10 at every voltage and blocks that
keep their signals in `initialize` and in `run`. -/
noncomputable def sampleExt : Ext ℝ :=
  libm (fun _ _ => 10) (fun _ b => b) (fun _ _ b => b)

/-- A database with `n + 1` devices of the `n`-th kind for the first kinds and room for
ten of every kind. -/
def sampleTables : DATABASE_TABLES :=
  { case_information := "3 bus case", case_additional_information := "",
    count := fun kind =>
      match kind with
      | .BUS => 3
      | .GENERATOR => 2
      | .LOAD => 4
      | .LINE => 5
      | _ => 0
    capacity := fun _ => 10 }

/-- A toolkit whose shared buffer still holds the text of an earlier call. -/
def sampleToolkit : TOOLKIT :=
  { toolkit_name := "TK", detailed_log_enabled := false,
    steps_char_buffer := "3 bus case", psdb := sampleTables, shown := [] }

/-- A device without owners. -/
def sampleDeviceWithoutOwner (F : Type) : DEVICE F :=
  { device_id := ⟨"LOAD 1 AT BUS 1"⟩, device_name := "LOAD 1 AT BUS 1",
    ownership := ⟨[], List.nodup_nil⟩ }

/-- A device with the two owners 7 (fraction 1/4) and 9 (fraction 3/4). -/
def sampleDevice (F : Type) [LinearOrderedField F] : DEVICE F :=
  { device_id := ⟨"LOAD 1 AT BUS 1"⟩, device_name := "LOAD 1 AT BUS 1",
    ownership := ⟨[(7, 1 / 4), (9, 3 / 4)], by simp⟩ }

/-- The functions of `<cmath>` over the reals. -/
noncomputable def cmath : CMATH ℝ :=
  { sqrt := Real.sqrt, pow := fun x y => x ^ y, log := Real.log }

/-- An integrator at rest with unit time constant, the limits 0 and 1 and the given
limiter. -/
def sampleIntegrator (F : Type) [LinearOrderedField F] (limiter : LIMITER_TYPE) : BLOCK F :=
  { limiter_type := limiter, K := 1, T := 1, upper_limit := 1, lower_limit := 0,
    input := 0, output := 0, state := 0, store := 0 }

/-- A network of two buses whose admittance matrix is `sampleMatrix`: the contribution
`(1, 1)` comes in two parts. -/
def sampleNetwork (F : Type) [LinearOrderedField F] : NETWORK_MATRIX F :=
  { bus_count := 2
    contributions := [⟨1, 1, ⟨1, 0⟩⟩, ⟨0, 1, ⟨1, 0⟩⟩, ⟨1, 0, ⟨2, 0⟩⟩, ⟨1, 1, ⟨2, 0⟩⟩] }

/-- The sample PVCV0 model with both PLL gains zero whose reactive voltage command block
shows the output 1.5: a reactive current command of -1.5 pu behind the source reactance
of 1 pu, which leaves 0.5 pu of reactive power at the terminal. -/
def samplePVCV0_with_reactive_power (F : Type) [LinearOrderedField F] : PVCV0 F :=
  { samplePVCV0 F 0 0 1 with
    reactive_voltage_commander :=
      { (samplePVCV0 F 0 0 1).reactive_voltage_commander with output := 3 / 2 } }

/-- The sample PVCV0 model behind a source impedance `1 + j0`: a resistance, no
reactance.  The reactive voltage commander is at rest, its output is 0. -/
def samplePVCV0_with_resistive_source (F : Type) [LinearOrderedField F] : PVCV0 F :=
  { samplePVCV0 F 1 1 1 with
    device := some { samplePvUnit F with source_impedance_in_pu := ⟨1, 0⟩ } }

/-- The kinds of the five blocks of the sample models: the active current commander
and the two blocks of the PLL are integrators, the reactive voltage commander and the
LVPL voltage sensor are first-order lags. -/
def sampleBlockKind : BlockId → BLOCK_KIND
  | .active_current_commander => .INTEGRAL_BLOCK
  | .reactive_voltage_commander => .FIRST_ORDER_BLOCK
  | .PLL_frequency_integrator => .INTEGRAL_BLOCK
  | .PLL_angle_integrator => .INTEGRAL_BLOCK
  | .LVPL_voltage_sensor => .FIRST_ORDER_BLOCK

/-- The mathematical functions with an LVPL order of 10 at every voltage and the block
computations of the specification, with the kinds of `sampleBlockKind` and a step of
0.01 s. -/
noncomputable def sampleBlocksExt : Ext ℝ :=
  libm_and_blocks (fun _ _ => 10) sampleBlockKind (1 / 100)

/-- The sample PVCV0 model in a system whose base frequency is 0 Hz. -/
def samplePVCV0_at_zero_base_frequency (F : Type) [LinearOrderedField F] : PVCV0 F :=
  { samplePVCV0 F 1 1 1 with
    device := some { samplePvUnit F with
      psdb := some { sampleDatabase F with system_base_frequency_in_Hz := 0 } } }

/-! # Theorems -/

/-! ## Complex arithmetic -/

theorem Cplx.ext' {F : Type} {a b : Cplx F} (h1 : a.re = b.re) (h2 : a.im = b.im) : a = b := by
  cases a; cases b; simp_all

theorem Cplx.div_rebase {F : Type} [Field F] (V Z : Cplx F) (m sb : F)
    (hm : m ≠ 0) (hsb : sb ≠ 0) :
    V.div ((Z.sdiv m).smul sb) = ((V.div Z).smul m).sdiv sb := by
  have hd : Z.re / m * sb * (Z.re / m * sb) + Z.im / m * sb * (Z.im / m * sb)
      = (Z.re * Z.re + Z.im * Z.im) * (sb / m) ^ 2 := by
    field_simp; ring
  by_cases hZ : Z.re * Z.re + Z.im * Z.im = 0
  · apply Cplx.ext' <;> simp only [Cplx.smul, Cplx.sdiv, Cplx.div, hd, hZ] <;> simp
  · apply Cplx.ext' <;> simp only [Cplx.smul, Cplx.sdiv, Cplx.div, hd] <;> field_simp <;> ring

theorem Cplx.rebase_cancel {F : Type} [Field F] (I V Z : Cplx F) (m sb : F)
    (hm : m ≠ 0) (hsb : sb ≠ 0) :
    ((((I.smul m).sdiv sb).sub (V.div ((Z.sdiv m).smul sb))).smul sb).sdiv m
      = I.sub (V.div Z) := by
  rw [Cplx.div_rebase V Z m sb hm hsb]
  apply Cplx.ext' <;> simp only [Cplx.smul, Cplx.sdiv, Cplx.sub] <;> field_simp <;> ring

theorem Cplx.mul_conj_conj_div {F : Type} [Field F] (S V : Cplx F)
    (hV : V.re * V.re + V.im * V.im ≠ 0) :
    V.mul ((S.div V).conj).conj = S := by
  apply Cplx.ext'
  · simp only [Cplx.mul, Cplx.conj, Cplx.div]
    field_simp
    ring
  · simp only [Cplx.mul, Cplx.conj, Cplx.div]
    field_simp
    ring

theorem Cplx.add_sub_cancel {F : Type} [Field F] (a b : Cplx F) : (a.add b).sub b = a := by
  apply Cplx.ext' <;> simp [Cplx.add, Cplx.sub]


/-! ## PVCV0: initialization and the steady state -/

section
variable {F : Type} [LinearOrderedField F]

/-- What a successful `PVCV0::initialize()` leaves behind, field by field. -/
theorem PVCV0.initialize_outputs (E : Ext F) (s : PVCV0 F) (u : PV_UNIT F)
    (db : POWER_SYSTEM_DATABASE F) (hdev : s.device = some u) (hdb : u.psdb = some db)
    (hni : s.flag_model_initialized = false)
    (hblk : ∀ b blk, (E.initialize_block b blk).output = blk.output) :
    let t := PVCV0.initialize E s
    let n : F := (u.number_of_lumped_pv_units : F)
    let V := db.bus_complex_voltage_in_pu
    let Z := u.source_impedance_in_pu
    let S : Cplx F := ⟨u.p_generation_in_MW / n / (u.mbase_in_MVA / n),
      u.q_generation_in_MVar / n / (u.mbase_in_MVA / n)⟩
    let Isource := ((S.div V).conj).add (V.div Z)
    let a := E.atan2 V.im V.re
    let IP := Isource.re * E.cos a + Isource.im * E.sin a
    let IQ := -Isource.re * E.sin a + Isource.im * E.cos a
    t.device = some u ∧ t.lvpl = s.lvpl ∧ t.HVRCR_current = s.HVRCR_current ∧
    t.KPLL = s.KPLL ∧ t.get_KIPLL = s.get_KIPLL ∧
    t.LVPL_active_power_change_rate = s.LVPL_active_power_change_rate ∧
    t.flag_model_initialized = true ∧
    t.active_current_commander.output = IP ∧
    t.reactive_voltage_commander.output = IQ * (-Z.im) ∧
    t.PLL_angle_integrator.output = a ∧
    t.LVPL_voltage_sensor.output = E.steps_fast_complex_abs V ∧
    t.initial_active_current_command_in_pu_based_on_mbase = IP ∧
    t.initial_reactive_current_command_in_pu_based_on_mbase = IQ ∧
    (s.get_KIPLL ≠ 0 → t.PLL_frequency_integrator.output = 0 ∧
      t.PLL_frequency_integrator.upper_limit = s.get_PLLmax ∧
      t.PLL_frequency_integrator.lower_limit = -s.get_PLLmax) := by
  by_cases hk : s.get_KIPLL = 0 <;>
  simp [ PVCV0.initialize, CONVERTER.is_model_initialized, hni, hdev, hdb, hk,
    CONVERTER.call_set_output, CONVERTER.call_initialize_block, CONVERTER.call_set_T_in_s,
    CONVERTER.call_set_upper_limit, CONVERTER.call_set_lower_limit, CONVERTER.record,
    CONVERTER.setBlock, CONVERTER.block, BLOCK.with_signals_of, CONVERTER.set_flag_model_initialized_as_true,
    CONVERTER.set_initial_active_current_command_in_pu_based_on_mbase,
    CONVERTER.set_initial_reactive_current_command_in_pu_based_on_mbase, hblk,
    PVCV0.get_terminal_complex_voltage_in_pu, PVCV0.get_power_system_database,
    PVCV0.get_mbase_in_MVA, PVCV0.get_source_impedance_in_pu_based_on_mbase,
    PVCV0.get_number_of_lumped_pv_units, CONVERTER.get_PLLmax] <;>
  simp_all [CONVERTER.get_KIPLL]

/-- With a non-zero divisor the quotient of two doubles is the quotient of the field. -/
theorem DOUBLE.div_of_ne_zero (x y : F) (hy : y ≠ 0) : DOUBLE.div x y = DOUBLE.finite (x / y) := by
  simp [DOUBLE.div, hy]

/-- Zero over zero is NaN. -/
theorem DOUBLE.div_zero_zero : DOUBLE.div (0 : F) 0 = DOUBLE.NaN := by
  simp [DOUBLE.div]

/-- The terminal power seen from a state whose block outputs are a pair `(IP, IQ)`
of in-range current commands on the axis `a`. -/
theorem PVCV0.terminal_power_of_outputs (E : Ext F) (t : PVCV0 F) (u : PV_UNIT F)
    (db : POWER_SYSTEM_DATABASE F) (IP IQ a : F)
    (hdev : t.device = some u) (hdb : u.psdb = some db)
    (hV : 8 / 10 < E.steps_fast_complex_abs db.bus_complex_voltage_in_pu)
    (hm : u.mbase_in_MVA ≠ 0) (hs : db.system_base_power_in_MVA ≠ 0)
    (hx : u.source_impedance_in_pu.im ≠ 0)
    (hacc : t.active_current_commander.output = IP)
    (hrvc : t.reactive_voltage_commander.output = IQ * (-u.source_impedance_in_pu.im))
    (hang : PVCV0.get_pll_angle_in_rad E t = a)
    (hIP : IP ≤ E.get_LVPL_order t.lvpl t.LVPL_voltage_sensor.output)
    (hIQ : -t.HVRCR_current ≤ IQ) :
    PVCV0.get_terminal_complex_power_in_pu_based_on_mbase E t
      = some (db.bus_complex_voltage_in_pu.mul
          (((⟨IP * E.cos a - IQ * E.sin a, IP * E.sin a + IQ * E.cos a⟩ : Cplx F).sub
            (db.bus_complex_voltage_in_pu.div u.source_impedance_in_pu)).conj)) := by
  have h1 : ¬ E.steps_fast_complex_abs db.bus_complex_voltage_in_pu ≤ 4 / 10 := by
    intro h; linarith
  have h2 : ¬ E.steps_fast_complex_abs db.bus_complex_voltage_in_pu ≤ 8 / 10 := not_le.mpr hV
  have h3 : E.steps_fast_complex_abs db.bus_complex_voltage_in_pu - 4 / 10 ≠ 0 := by
    intro h; linarith
  have h4 : ¬ IP > E.get_LVPL_order t.lvpl t.LVPL_voltage_sensor.output := not_lt.mpr hIP
  have h5 : -(IQ * (-u.source_impedance_in_pu.im)) / u.source_impedance_in_pu.im = IQ := by
    field_simp
  have h6 : ¬ IQ < -t.HVRCR_current := not_lt.mpr hIQ
  have hpsdb : PVCV0.get_power_system_database t = some db := by
    simp [PVCV0.get_power_system_database, hdev, hdb]
  have hvxy : PVCV0.get_terminal_complex_voltage_in_pu t = db.bus_complex_voltage_in_pu := by
    simp [PVCV0.get_terminal_complex_voltage_in_pu, hpsdb]
  have hmb : PVCV0.get_mbase_in_MVA t = u.mbase_in_MVA := by
    simp [PVCV0.get_mbase_in_MVA, hdev]
  have hzs : PVCV0.get_source_impedance_in_pu_based_on_mbase t = u.source_impedance_in_pu := by
    simp [PVCV0.get_source_impedance_in_pu_based_on_mbase, hdev]
  simp only [PVCV0.get_terminal_complex_power_in_pu_based_on_mbase,
    PVCV0.get_terminal_complex_current_in_pu_in_xy_axis_based_on_mbase,
    PVCV0.get_terminal_complex_current_in_pu_in_xy_axis_based_on_sbase,
    PVCV0.get_source_Norton_equivalent_complex_current_in_pu_in_xy_axis_based_on_sbase,
    hpsdb, hvxy, hmb, hzs,
    CONVERTER.get_HVRC_current_in_pu, hacc, hrvc, hang, h1, h2,
    DOUBLE.div_of_ne_zero _ _ hx, DOUBLE.lt, decide_False, Bool.false_eq_true,
    h4, h5, h6, if_false, mul_div_assoc, div_self h3, mul_one,
    Cplx.rebase_cancel _ _ _ _ _ hm hs]

/-- Rotating a current into the axis `a` and back gives the current. -/
theorem Cplx.rotate_back (I : Cplx F) (c sn : F) (h : c * c + sn * sn = 1) :
    (⟨(I.re * c + I.im * sn) * c - (-I.re * sn + I.im * c) * sn,
      (I.re * c + I.im * sn) * sn + (-I.re * sn + I.im * c) * c⟩ : Cplx F) = I := by
  apply Cplx.ext'
  · show (I.re * c + I.im * sn) * c - (-I.re * sn + I.im * c) * sn = I.re
    linear_combination I.re * h
  · show (I.re * c + I.im * sn) * sn + (-I.re * sn + I.im * c) * c = I.im
    linear_combination I.im * h

end


theorem atan2_zero_one : Complex.arg ⟨1, 0⟩ = 0 := by
  have h : (⟨1, 0⟩ : ℂ) = 1 := by apply Complex.ext <;> simp
  rw [h, Complex.arg_one]

/-- C1: after a successful `PVCV0::initialize()` (device and database present, not yet
initialized) from a load flow with `|Vxy| > 0.8`, `mbase`, `sbase` and the number of
lumped units non-zero and a source reactance non-zero, with blocks that return `x` from
`get_output()` after `set_output(x); initialize()`, and with the back-solved `IP` not
above the LVPL order and the back-solved `IQ` not below minus the HVRC current, the
terminal complex power in pu on `mbase` is `(P + jQ)/mbase`. -/
theorem PVCV0_initialize_reproduces_injection (order : LVPL ℝ → ℝ → ℝ) (binit : BlockId → BLOCK ℝ → BLOCK ℝ)
    (brun : BlockId → DYNAMIC_MODE → BLOCK ℝ → BLOCK ℝ)
    (s : PVCV0 ℝ) (u : PV_UNIT ℝ) (db : POWER_SYSTEM_DATABASE ℝ)
    (hdev : s.device = some u) (hdb : u.psdb = some db)
    (hni : s.flag_model_initialized = false)
    (hblk : ∀ b blk, (binit b blk).output = blk.output)
    (hV : 8 / 10 < (libm order binit brun).steps_fast_complex_abs db.bus_complex_voltage_in_pu)
    (hm : u.mbase_in_MVA ≠ 0) (hs : db.system_base_power_in_MVA ≠ 0)
    (hn : u.number_of_lumped_pv_units ≠ 0) (hx : u.source_impedance_in_pu.im ≠ 0)
    (hIP : ( PVCV0.initialize (libm order binit brun) s).initial_active_current_command_in_pu_based_on_mbase
        ≤ order s.lvpl ((libm order binit brun).steps_fast_complex_abs db.bus_complex_voltage_in_pu))
    (hIQ : -s.HVRCR_current ≤
        ( PVCV0.initialize (libm order binit brun) s).initial_reactive_current_command_in_pu_based_on_mbase) :
    PVCV0.get_terminal_complex_power_in_pu_based_on_mbase (libm order binit brun)
        ( PVCV0.initialize (libm order binit brun) s)
      = some ⟨u.p_generation_in_MW / u.mbase_in_MVA, u.q_generation_in_MVar / u.mbase_in_MVA⟩ := by
  have hVV : db.bus_complex_voltage_in_pu.re * db.bus_complex_voltage_in_pu.re
      + db.bus_complex_voltage_in_pu.im * db.bus_complex_voltage_in_pu.im ≠ 0 := by
    intro h0
    simp only [libm, h0, Real.sqrt_zero] at hV
    norm_num at hV
  have hnn : (u.number_of_lumped_pv_units : ℝ) ≠ 0 := by exact_mod_cast hn
  obtain ⟨tdev, tlvpl, thv, tkpll, tkipll, -, -, tacc, trvc, tang, tsen, tip, tiq, -⟩ :=
    PVCV0.initialize_outputs (libm order binit brun) s u db hdev hdb hni hblk
  rw [tip] at hIP
  rw [tiq] at hIQ
  have hang : PVCV0.get_pll_angle_in_rad (libm order binit brun)
      ( PVCV0.initialize (libm order binit brun) s)
      = (libm order binit brun).atan2 db.bus_complex_voltage_in_pu.im
          db.bus_complex_voltage_in_pu.re := by
    simp only [PVCV0.get_pll_angle_in_rad, tang, PVCV0.get_terminal_complex_voltage_in_pu,
      PVCV0.get_power_system_database, tdev, hdb, Option.bind]
    split_ifs <;> rfl
  rw [PVCV0.terminal_power_of_outputs (libm order binit brun) _ u db _ _ _ tdev hdb hV hm hs hx
    tacc trvc hang (by rw [tlvpl, tsen]; exact hIP) (by rw [thv]; exact hIQ)]
  have hcs : ∀ x : ℝ, (libm order binit brun).cos x * (libm order binit brun).cos x
      + (libm order binit brun).sin x * (libm order binit brun).sin x = 1 := by
    intro x
    have := Real.cos_sq_add_sin_sq x
    simp only [libm]
    nlinarith [this]
  rw [Cplx.rotate_back _ _ _ (hcs _), Cplx.add_sub_cancel, Cplx.mul_conj_conj_div _ _ hVV]
  congr 1
  apply Cplx.ext' <;> field_simp

/-- Witness of C1: the sample unit (1.0 pu voltage, 100 MW on 100 MVA, source reactance
1 pu) gets back its injection `1 + j0`. -/
theorem PVCV0_initialize_reproduces_injection_witness :
    PVCV0.get_terminal_complex_power_in_pu_based_on_mbase sampleExt
        ( PVCV0.initialize sampleExt (samplePVCV0 ℝ 1 1 1)) = some ⟨1, 0⟩ := by
  have h := PVCV0_initialize_reproduces_injection (fun _ _ => 10) (fun _ b => b) (fun _ _ b => b) (samplePVCV0 ℝ 1 1 1)
    (samplePvUnit ℝ) (sampleDatabase ℝ) rfl rfl rfl (fun _ _ => rfl)
    (by simp [libm, sampleDatabase]; norm_num)
    (by simp [samplePvUnit]) (by simp [sampleDatabase]) (by simp [samplePvUnit])
    (by simp [samplePvUnit])
    (by
      have := (PVCV0.initialize_outputs (libm (fun _ _ => 10) (fun _ b => b) (fun _ _ b => b))
        (samplePVCV0 ℝ 1 1 1) (samplePvUnit ℝ) (sampleDatabase ℝ) rfl rfl rfl (fun _ _ => rfl)).2.2.2.2.2.2.2.2.2.2.2.1
      rw [this]
      simp [libm, sampleDatabase, samplePvUnit, Cplx.div, Cplx.conj, Cplx.add, atan2_zero_one])
    (by
      have := (PVCV0.initialize_outputs (libm (fun _ _ => 10) (fun _ b => b) (fun _ _ b => b))
        (samplePVCV0 ℝ 1 1 1) (samplePvUnit ℝ) (sampleDatabase ℝ) rfl rfl rfl (fun _ _ => rfl)).2.2.2.2.2.2.2.2.2.2.2.2.1
      rw [this]
      simp [libm, sampleDatabase, samplePvUnit, Cplx.div, Cplx.conj, Cplx.add, atan2_zero_one, samplePVCV0,
        CONVERTER.set_PLLmax, CONVERTER.set_KIPLL, CONVERTER.set_KPLL, PVCV0.clear,
        CONVERTER.call_set_upper_limit, CONVERTER.call_set_T_in_s, CONVERTER.record, CONVERTER.setBlock])
  simpa [sampleExt, samplePvUnit] using h


/-! ## Idempotence of initialize -/

section
variable {F : Type} [LinearOrderedField F]

/-- An initialized model is left as it is by `PVCV0::initialize()`. -/
theorem PVCV0.initialize_of_initialized (E : Ext F) (s : PVCV0 F)
    (h : s.flag_model_initialized = true) : PVCV0.initialize E s = s := by
  simp [ PVCV0.initialize, CONVERTER.is_model_initialized, h]

/-- `PVCV0::initialize()` either returns early, or ends with the initialized flag set. -/
theorem PVCV0.initialize_cases (E : Ext F) (s : PVCV0 F) :
    PVCV0.initialize E s = s ∨ ( PVCV0.initialize E s).flag_model_initialized = true := by
  by_cases hf : s.flag_model_initialized = true
  · exact Or.inl ( PVCV0.initialize_of_initialized E s hf)
  · rcases hd : s.device with _ | u
    · left; simp [ PVCV0.initialize, hd]
    · rcases hp : u.psdb with _ | db
      · left; simp [ PVCV0.initialize, hd, hp]
      · right
        simp [ PVCV0.initialize, CONVERTER.is_model_initialized, hf, hd, hp,
          CONVERTER.set_flag_model_initialized_as_true, CONVERTER.record]

/-- An initialized model is left as it is by `WT3G2::initialize()`. -/
theorem WT3G2.wt_initialize_of_initialized (E : Ext F) (psdb : POWER_SYSTEM_DATABASE F)
    (s : WT3G2 F) (h : s.flag_model_initialized = true) : WT3G2.initialize E psdb s = s := by
  simp [ WT3G2.initialize, CONVERTER.is_model_initialized, h]

/-- `WT3G2::initialize()` either returns early, or ends with the initialized flag set. -/
theorem WT3G2.wt_initialize_cases (E : Ext F) (psdb : POWER_SYSTEM_DATABASE F) (s : WT3G2 F) :
    WT3G2.initialize E psdb s = s ∨
      ( WT3G2.initialize E psdb s).flag_model_initialized = true := by
  by_cases hf : s.flag_model_initialized = true
  · exact Or.inl ( WT3G2.wt_initialize_of_initialized E psdb s hf)
  · rcases hd : s.device with _ | u
    · left; simp [ WT3G2.initialize, hd]
    · right
      simp [ WT3G2.initialize, CONVERTER.is_model_initialized, hf, hd,
        CONVERTER.set_flag_model_initialized_as_true, CONVERTER.record]

/-- C2: `initialize()` of PVCV0 and of WT3G2 is idempotent: from every model state a
second call in a row returns the state the first call left, blocks (outputs, states,
limits, time constants), stored initial current commands, flags and recorded calls
included. -/
theorem initialize_idempotent (E : Ext F) (psdb : POWER_SYSTEM_DATABASE F)
    (s : PVCV0 F) (w : WT3G2 F) :
    PVCV0.initialize E ( PVCV0.initialize E s) = PVCV0.initialize E s ∧
    WT3G2.initialize E psdb ( WT3G2.initialize E psdb w) = WT3G2.initialize E psdb w := by
  constructor
  · rcases PVCV0.initialize_cases E s with h | h
    · rw [h, h]
    · exact PVCV0.initialize_of_initialized E _ h
  · rcases WT3G2.wt_initialize_cases E psdb w with h | h
    · rw [h, h]
    · exact WT3G2.wt_initialize_of_initialized E psdb _ h

end

/-! ## The calls of run -/

/-- The calls recorded since `s` by a step that appends `tr` to the record. -/
theorem CONVERTER.calls_since_of_append {F D : Type} (s t : CONVERTER F D) (tr : List (Call F))
    (h : t.calls = s.calls ++ tr) : s.calls_since t = tr := by
  simp [CONVERTER.calls_since, h]

section
variable {F : Type} [LinearOrderedField F]

/-- The calls of one `PVCV0::run(mode)` on a model whose device and database are present. -/
theorem PVCV0.run_calls (E : Ext F) (C : Cmd F (PV_UNIT F)) (mode : DYNAMIC_MODE)
    (s : PVCV0 F) (u : PV_UNIT F) (db : POWER_SYSTEM_DATABASE F)
    (hdev : s.device = some u) (hdb : u.psdb = some db) :
    ∃ x1 x2 x3 x4 x5 x6 : F,
      ( PVCV0.run E C mode s).calls = s.calls ++
        ([Call.set_input .LVPL_voltage_sensor x1, Call.run .LVPL_voltage_sensor mode,
          Call.set_input .active_current_commander x2, Call.run .active_current_commander mode,
          Call.set_input .reactive_voltage_commander x3,
          Call.run .reactive_voltage_commander mode] ++
         ((if s.get_KPLL = 0 ∧ s.get_KIPLL = 0 then
            [Call.set_output .PLL_angle_integrator x4,
             Call.initialize_block .PLL_angle_integrator]
          else
            [Call.set_input .PLL_frequency_integrator x5,
             Call.run .PLL_frequency_integrator mode,
             Call.set_input .PLL_angle_integrator x6, Call.run .PLL_angle_integrator mode]) ++
          (if mode = .UPDATE_MODE then [Call.set_flag_model_updated_as_true] else []))) := by
  by_cases hk : s.get_KPLL = 0 ∧ s.get_KIPLL = 0
  · cases mode <;>
    · simp only [CONVERTER.get_KPLL, CONVERTER.get_KIPLL, one_div, inv_eq_zero] at hk
      simp [ PVCV0.run, hdev, hdb, hk, CONVERTER.call_set_input, CONVERTER.call_run,
        CONVERTER.call_set_output, CONVERTER.call_initialize_block, CONVERTER.record,
        CONVERTER.setBlock, CONVERTER.block, BLOCK.with_signals_of, CONVERTER.get_KPLL,
        CONVERTER.get_KIPLL, CONVERTER.set_pll_angle_in_deg,
        CONVERTER.set_flag_model_updated_as_true]
  · cases mode <;>
    · simp only [CONVERTER.get_KPLL, CONVERTER.get_KIPLL, one_div, inv_eq_zero] at hk
      simp [ PVCV0.run, hdev, hdb, hk, CONVERTER.call_set_input, CONVERTER.call_run,
        CONVERTER.call_set_output, CONVERTER.call_initialize_block, CONVERTER.record,
        CONVERTER.setBlock, CONVERTER.block, BLOCK.with_signals_of, CONVERTER.get_KPLL,
        CONVERTER.get_KIPLL, CONVERTER.set_pll_angle_in_deg,
        CONVERTER.set_flag_model_updated_as_true]

/-- The calls of one `WT3G2::run(mode)` on a model whose device is present. -/
theorem WT3G2.wt_run_calls (E : Ext F) (C : Cmd F (WT_GENERATOR F))
    (psdb : POWER_SYSTEM_DATABASE F) (mode : DYNAMIC_MODE)
    (s : WT3G2 F) (g : WT_GENERATOR F) (hdev : s.device = some g) :
    ∃ x1 x2 x3 x4 x5 x6 : F,
      ( WT3G2.run E C psdb mode s).calls = s.calls ++
        ([Call.set_input .LVPL_voltage_sensor x1, Call.run .LVPL_voltage_sensor mode,
          Call.set_input .active_current_commander x2, Call.run .active_current_commander mode,
          Call.set_input .reactive_voltage_commander x3,
          Call.run .reactive_voltage_commander mode] ++
         ((if s.get_KPLL = 0 ∧ s.get_KIPLL = 0 then
            [Call.set_output .PLL_angle_integrator x4,
             Call.initialize_block .PLL_angle_integrator]
          else
            [Call.set_input .PLL_frequency_integrator x5,
             Call.run .PLL_frequency_integrator mode,
             Call.set_input .PLL_angle_integrator x6, Call.run .PLL_angle_integrator mode]) ++
          (if mode = .UPDATE_MODE then [Call.set_flag_model_updated_as_true] else []))) := by
  by_cases hk : s.get_KPLL = 0 ∧ s.get_KIPLL = 0
  · cases mode <;>
    · simp only [CONVERTER.get_KPLL, CONVERTER.get_KIPLL, one_div, inv_eq_zero] at hk
      simp [ WT3G2.run, hdev, hk, CONVERTER.call_set_input, CONVERTER.call_run,
        CONVERTER.call_set_output, CONVERTER.call_initialize_block, CONVERTER.record,
        CONVERTER.setBlock, CONVERTER.block, BLOCK.with_signals_of, CONVERTER.get_KPLL,
        CONVERTER.get_KIPLL, CONVERTER.set_pll_angle_in_deg,
        CONVERTER.set_flag_model_updated_as_true]
  · cases mode <;>
    · simp only [CONVERTER.get_KPLL, CONVERTER.get_KIPLL, one_div, inv_eq_zero] at hk
      simp [ WT3G2.run, hdev, hk, CONVERTER.call_set_input, CONVERTER.call_run,
        CONVERTER.call_set_output, CONVERTER.call_initialize_block, CONVERTER.record,
        CONVERTER.setBlock, CONVERTER.block, BLOCK.with_signals_of, CONVERTER.get_KPLL,
        CONVERTER.get_KIPLL, CONVERTER.set_pll_angle_in_deg,
        CONVERTER.set_flag_model_updated_as_true]

/-- C3, amended: with device and database present (WT3G2: device present),
`run(UPDATE_MODE)` calls `run(UPDATE_MODE)` on all five blocks when the gains `KPLL` and
`KIPLL` are not both zero; when both are zero it calls it on the three blocks other
than the two PLL integrators, and on these only. -/
theorem run_update_runs_every_block_unless_gains_zero (E : Ext F)
    (C : Cmd F (PV_UNIT F)) (Cw : Cmd F (WT_GENERATOR F)) (psdb : POWER_SYSTEM_DATABASE F)
    (s : PVCV0 F) (u : PV_UNIT F) (db : POWER_SYSTEM_DATABASE F)
    (w : WT3G2 F) (g : WT_GENERATOR F)
    (hs : s.device = some u) (hdb : u.psdb = some db) (hw : w.device = some g) :
    (¬ (s.get_KPLL = 0 ∧ s.get_KIPLL = 0) → ∀ b,
      (s.calls_since ( PVCV0.run E C .UPDATE_MODE s)).any (Call.isRun b .UPDATE_MODE) = true) ∧
    (s.get_KPLL = 0 ∧ s.get_KIPLL = 0 → ∀ b,
      ((s.calls_since ( PVCV0.run E C .UPDATE_MODE s)).any (Call.isRun b .UPDATE_MODE) = true ↔
        b ≠ .PLL_frequency_integrator ∧ b ≠ .PLL_angle_integrator)) ∧
    (¬ (w.get_KPLL = 0 ∧ w.get_KIPLL = 0) → ∀ b,
      (w.calls_since ( WT3G2.run E Cw psdb .UPDATE_MODE w)).any
        (Call.isRun b .UPDATE_MODE) = true) ∧
    (w.get_KPLL = 0 ∧ w.get_KIPLL = 0 → ∀ b,
      ((w.calls_since ( WT3G2.run E Cw psdb .UPDATE_MODE w)).any
        (Call.isRun b .UPDATE_MODE) = true ↔
        b ≠ .PLL_frequency_integrator ∧ b ≠ .PLL_angle_integrator)) := by
  obtain ⟨x1, x2, x3, x4, x5, x6, hc⟩ := PVCV0.run_calls E C .UPDATE_MODE s u db hs hdb
  obtain ⟨y1, y2, y3, y4, y5, y6, hcw⟩ := WT3G2.wt_run_calls E Cw psdb .UPDATE_MODE w g hw
  rw [CONVERTER.calls_since_of_append _ _ _ hc, CONVERTER.calls_since_of_append _ _ _ hcw]
  refine ⟨fun hk b => ?_, fun hk b => ?_, fun hk b => ?_, fun hk b => ?_⟩
  · rw [if_neg hk]; cases b <;> simp [Call.isRun]
  · rw [if_pos hk]; cases b <;> simp [Call.isRun]
  · rw [if_neg hk]; cases b <;> simp [Call.isRun]
  · rw [if_pos hk]; cases b <;> simp [Call.isRun]

end

/-- Counterexample of C3: a PVCV0 model with device and database attached and
`KPLL = KIPLL = 0`; `run(UPDATE_MODE)` does not call `run(UPDATE_MODE)` on the PLL
frequency integrator, nor on the PLL angle integrator.  And a PVCV0 model with gains 1
whose device is attached but has no database: `run(UPDATE_MODE)` returns at once and
leaves the model, its recorded calls included, as it is. -/
theorem run_update_skips_PLL_blocks_of_sample :
    ((samplePVCV0_without_database ℝ 1 1 1).device.isSome = true ∧
      PVCV0.run sampleExt (sampleCmd ℝ _) .UPDATE_MODE (samplePVCV0_without_database ℝ 1 1 1)
        = samplePVCV0_without_database ℝ 1 1 1) ∧
    (samplePVCV0 ℝ 0 0 1).device = some (samplePvUnit ℝ) ∧
    (samplePvUnit ℝ).psdb = some (sampleDatabase ℝ) ∧
    (samplePVCV0 ℝ 0 0 1).get_KPLL = 0 ∧ (samplePVCV0 ℝ 0 0 1).get_KIPLL = 0 ∧
    ((samplePVCV0 ℝ 0 0 1).calls_since
      ( PVCV0.run sampleExt (sampleCmd ℝ _) .UPDATE_MODE (samplePVCV0 ℝ 0 0 1))).any
        (Call.isRun .PLL_frequency_integrator .UPDATE_MODE) = false ∧
    ((samplePVCV0 ℝ 0 0 1).calls_since
      ( PVCV0.run sampleExt (sampleCmd ℝ _) .UPDATE_MODE (samplePVCV0 ℝ 0 0 1))).any
        (Call.isRun .PLL_angle_integrator .UPDATE_MODE) = false := by
  have hk : (samplePVCV0 ℝ 0 0 1).get_KPLL = 0 ∧ (samplePVCV0 ℝ 0 0 1).get_KIPLL = 0 := by
    simp [samplePVCV0, CONVERTER.get_KPLL, CONVERTER.get_KIPLL, CONVERTER.set_PLLmax,
      CONVERTER.set_KIPLL, CONVERTER.set_KPLL, CONVERTER.call_set_upper_limit,
      CONVERTER.call_set_T_in_s, CONVERTER.record, CONVERTER.setBlock, CONVERTER.block]
  obtain ⟨x1, x2, x3, x4, x5, x6, hc⟩ := PVCV0.run_calls sampleExt (sampleCmd ℝ _)
    .UPDATE_MODE (samplePVCV0 ℝ 0 0 1) (samplePvUnit ℝ) (sampleDatabase ℝ) rfl rfl
  rw [CONVERTER.calls_since_of_append _ _ _ hc, if_pos hk]
  refine ⟨⟨rfl, rfl⟩, rfl, rfl, hk.1, hk.2, ?_, ?_⟩ <;> simp [Call.isRun]

/-- Witness of C3 (amended): the sample models with `KPLL = KIPLL = 1` run all five
blocks in `run(UPDATE_MODE)`. -/
theorem run_update_runs_every_block_unless_gains_zero_witness :
    (∀ b, ((samplePVCV0 ℝ 1 1 1).calls_since
      ( PVCV0.run sampleExt (sampleCmd ℝ _) .UPDATE_MODE (samplePVCV0 ℝ 1 1 1))).any
        (Call.isRun b .UPDATE_MODE) = true) ∧
    (∀ b, ((sampleWT3G2 ℝ 1 1 1).calls_since
      ( WT3G2.run sampleExt (sampleCmd ℝ _) (sampleDatabase ℝ) .UPDATE_MODE
        (sampleWT3G2 ℝ 1 1 1))).any (Call.isRun b .UPDATE_MODE) = true) := by
  have h := run_update_runs_every_block_unless_gains_zero sampleExt (sampleCmd ℝ _)
    (sampleCmd ℝ _) (sampleDatabase ℝ) (samplePVCV0 ℝ 1 1 1) (samplePvUnit ℝ)
    (sampleDatabase ℝ) (sampleWT3G2 ℝ 1 1 1) (sampleWtGenerator ℝ) rfl rfl rfl
  refine ⟨h.1 ?_, h.2.2.1 ?_⟩
  · simp [samplePVCV0, CONVERTER.get_KPLL, CONVERTER.set_PLLmax,
      CONVERTER.set_KIPLL, CONVERTER.set_KPLL, CONVERTER.call_set_upper_limit,
      CONVERTER.call_set_T_in_s, CONVERTER.record, CONVERTER.setBlock, CONVERTER.block]
  · simp [sampleWT3G2, samplePVCV0, CONVERTER.get_KPLL, CONVERTER.set_PLLmax,
      CONVERTER.set_KIPLL, CONVERTER.set_KPLL, CONVERTER.call_set_upper_limit,
      CONVERTER.call_set_T_in_s, CONVERTER.record, CONVERTER.setBlock, CONVERTER.block]

/-! ## The calls of initialize -/

section
variable {F : Type} [LinearOrderedField F]

/-- The calls of a successful `PVCV0::initialize()`. -/
theorem PVCV0.initialize_calls (E : Ext F) (s : PVCV0 F) (u : PV_UNIT F)
    (db : POWER_SYSTEM_DATABASE F) (hdev : s.device = some u) (hdb : u.psdb = some db)
    (hni : s.flag_model_initialized = false) :
    ∃ x1 x2 x3 x4 x5 x6 x7 x8 : F,
      ( PVCV0.initialize E s).calls = s.calls ++
        ((if s.get_KIPLL ≠ 0 then
            [Call.set_T_in_s .PLL_frequency_integrator x1,
             Call.set_upper_limit .PLL_frequency_integrator x2,
             Call.set_lower_limit .PLL_frequency_integrator x3]
          else []) ++
         ([Call.set_T_in_s .PLL_angle_integrator x4,
           Call.set_output .active_current_commander x5,
           Call.initialize_block .active_current_commander,
           Call.set_output .reactive_voltage_commander x6,
           Call.initialize_block .reactive_voltage_commander] ++
          ((if s.get_KIPLL ≠ 0 then
              [Call.set_output .PLL_frequency_integrator 0,
               Call.initialize_block .PLL_frequency_integrator]
            else []) ++
           [Call.set_output .PLL_angle_integrator x7,
            Call.initialize_block .PLL_angle_integrator,
            Call.set_output .LVPL_voltage_sensor x8,
            Call.initialize_block .LVPL_voltage_sensor,
            Call.set_flag_model_initialized_as_true]))) := by
  by_cases hk : s.get_KIPLL = 0
  · simp [ PVCV0.initialize, CONVERTER.is_model_initialized, hni, hdev, hdb, hk,
      CONVERTER.call_set_output, CONVERTER.call_initialize_block, CONVERTER.call_set_T_in_s,
      CONVERTER.record, CONVERTER.setBlock, CONVERTER.block,
      CONVERTER.set_flag_model_initialized_as_true,
      CONVERTER.set_initial_active_current_command_in_pu_based_on_mbase,
      CONVERTER.set_initial_reactive_current_command_in_pu_based_on_mbase]
  · simp [ PVCV0.initialize, CONVERTER.is_model_initialized, hni, hdev, hdb, hk,
      CONVERTER.call_set_output, CONVERTER.call_initialize_block, CONVERTER.call_set_T_in_s,
      CONVERTER.call_set_upper_limit, CONVERTER.call_set_lower_limit,
      CONVERTER.record, CONVERTER.setBlock, CONVERTER.block,
      CONVERTER.set_flag_model_initialized_as_true,
      CONVERTER.set_initial_active_current_command_in_pu_based_on_mbase,
      CONVERTER.set_initial_reactive_current_command_in_pu_based_on_mbase]

/-- C4, amended: a successful `PVCV0::initialize()` (device and database present, not
yet initialized) back-solves, before it sets the initialized flag, all five blocks when
`KIPLL ≠ 0`, and all blocks but the PLL frequency integrator when `KIPLL = 0`. -/
theorem PVCV0_initialize_backsolves_blocks (E : Ext F) (s : PVCV0 F) (u : PV_UNIT F)
    (db : POWER_SYSTEM_DATABASE F) (hdev : s.device = some u) (hdb : u.psdb = some db)
    (hni : s.flag_model_initialized = false) :
    (s.get_KIPLL ≠ 0 → ∀ b,
      backSolvedBeforeFlag (s.calls_since ( PVCV0.initialize E s)) b = true) ∧
    (s.get_KIPLL = 0 → ∀ b,
      (backSolvedBeforeFlag (s.calls_since ( PVCV0.initialize E s)) b = true ↔
        b ≠ .PLL_frequency_integrator)) := by
  obtain ⟨x1, x2, x3, x4, x5, x6, x7, x8, hc⟩ := PVCV0.initialize_calls E s u db hdev hdb hni
  rw [CONVERTER.calls_since_of_append _ _ _ hc]
  refine ⟨fun hk b => ?_, fun hk b => ?_⟩
  · rw [if_pos hk, if_pos hk]
    cases b <;> simp [backSolvedBeforeFlag, Call.isSetInitialized, Call.isSetOutput,
      Call.isInitializeBlock, List.takeWhile, List.dropWhile]
  · rw [if_neg (not_not.mpr hk), if_neg (not_not.mpr hk)]
    cases b <;> simp [backSolvedBeforeFlag, Call.isSetInitialized, Call.isSetOutput,
      Call.isInitializeBlock, List.takeWhile, List.dropWhile]

end

/-- Counterexample of C4: the sample PVCV0 model with `KIPLL = 0` (device and database
present, not initialized); `initialize()` sets the initialized flag without a
`set_output` / `initialize` on the PLL frequency integrator. -/
theorem PVCV0_initialize_skips_PLL_frequency_integrator_of_sample :
    (samplePVCV0 ℝ 1 0 1).device = some (samplePvUnit ℝ) ∧
    (samplePvUnit ℝ).psdb = some (sampleDatabase ℝ) ∧
    (samplePVCV0 ℝ 1 0 1).flag_model_initialized = false ∧
    (samplePVCV0 ℝ 1 0 1).get_KIPLL = 0 ∧
    ( PVCV0.initialize sampleExt (samplePVCV0 ℝ 1 0 1)).flag_model_initialized = true ∧
    backSolvedBeforeFlag ((samplePVCV0 ℝ 1 0 1).calls_since
      ( PVCV0.initialize sampleExt (samplePVCV0 ℝ 1 0 1))) .PLL_frequency_integrator = false ∧
    ((samplePVCV0 ℝ 1 0 1).calls_since
      ( PVCV0.initialize sampleExt (samplePVCV0 ℝ 1 0 1))).any
        (Call.isSetOutput .PLL_frequency_integrator) = false := by
  have hk : (samplePVCV0 ℝ 1 0 1).get_KIPLL = 0 := by
    simp [samplePVCV0, CONVERTER.get_KIPLL, CONVERTER.set_PLLmax,
      CONVERTER.set_KIPLL, CONVERTER.set_KPLL, CONVERTER.call_set_upper_limit,
      CONVERTER.call_set_T_in_s, CONVERTER.record, CONVERTER.setBlock, CONVERTER.block]
  obtain ⟨x1, x2, x3, x4, x5, x6, x7, x8, hc⟩ := PVCV0.initialize_calls sampleExt
    (samplePVCV0 ℝ 1 0 1) (samplePvUnit ℝ) (sampleDatabase ℝ) rfl rfl rfl
  have hf : ( PVCV0.initialize sampleExt (samplePVCV0 ℝ 1 0 1)).flag_model_initialized
      = true := by
    rcases PVCV0.initialize_cases sampleExt (samplePVCV0 ℝ 1 0 1) with h | h
    · have h2 := congrArg (fun t => t.calls.length) h
      simp [hc] at h2
    · exact h
  rw [CONVERTER.calls_since_of_append _ _ _ hc, if_neg (not_not.mpr hk),
    if_neg (not_not.mpr hk)]
  refine ⟨rfl, rfl, rfl, hk, ?_, ?_, ?_⟩
  · exact hf
  · simp [backSolvedBeforeFlag, Call.isSetInitialized, Call.isSetOutput,
      Call.isInitializeBlock, List.takeWhile, List.dropWhile]
  · simp [Call.isSetOutput]

/-- Witness of C4 (amended): the sample PVCV0 model with `KIPLL = 1`. -/
theorem PVCV0_initialize_backsolves_blocks_witness :
    allBlocks.all (fun b => backSolvedBeforeFlag ((samplePVCV0 ℝ 1 1 1).calls_since
      ( PVCV0.initialize sampleExt (samplePVCV0 ℝ 1 1 1))) b) = true :=
  List.all_eq_true.mpr (fun b _ =>
    (PVCV0_initialize_backsolves_blocks sampleExt (samplePVCV0 ℝ 1 1 1) (samplePvUnit ℝ)
      (sampleDatabase ℝ) rfl rfl rfl).1 (by
        simp [samplePVCV0, CONVERTER.get_KIPLL, CONVERTER.set_PLLmax,
          CONVERTER.set_KIPLL, CONVERTER.set_KPLL, CONVERTER.call_set_upper_limit,
          CONVERTER.call_set_T_in_s, CONVERTER.record, CONVERTER.setBlock, CONVERTER.block])
      b)

/-! ## What run commits -/

section
variable {F : Type} [LinearOrderedField F]

/-- `PVCV0::run(mode)` returns at once unless device and database are present. -/
theorem PVCV0.run_eq_self_or (E : Ext F) (C : Cmd F (PV_UNIT F)) (mode : DYNAMIC_MODE)
    (s : PVCV0 F) :
    PVCV0.run E C mode s = s ∨ ∃ u db, s.device = some u ∧ u.psdb = some db := by
  rcases hd : s.device with _ | u
  · left; simp [PVCV0.run, hd]
  · rcases hp : u.psdb with _ | db
    · left; simp [PVCV0.run, hd, hp]
    · right; exact ⟨u, db, rfl, hp⟩

/-- The updated flag after `PVCV0::run(mode)` on a model with device and database. -/
theorem PVCV0.run_flag_model_updated (E : Ext F) (C : Cmd F (PV_UNIT F))
    (mode : DYNAMIC_MODE) (s : PVCV0 F) (u : PV_UNIT F) (db : POWER_SYSTEM_DATABASE F)
    (hdev : s.device = some u) (hdb : u.psdb = some db) :
    ( PVCV0.run E C mode s).flag_model_updated =
      if mode = .UPDATE_MODE then true else s.flag_model_updated := by
  by_cases hk : s.get_KPLL = 0 ∧ s.get_KIPLL = 0
  · cases mode <;>
    · simp only [CONVERTER.get_KPLL, CONVERTER.get_KIPLL, one_div, inv_eq_zero] at hk
      simp [ PVCV0.run, hdev, hdb, hk, CONVERTER.call_set_input, CONVERTER.call_run,
        CONVERTER.call_set_output, CONVERTER.call_initialize_block, CONVERTER.record,
        CONVERTER.setBlock, CONVERTER.block, BLOCK.with_signals_of, CONVERTER.get_KPLL,
        CONVERTER.get_KIPLL, CONVERTER.set_pll_angle_in_deg,
        CONVERTER.set_flag_model_updated_as_true]
  · cases mode <;>
    · simp only [CONVERTER.get_KPLL, CONVERTER.get_KIPLL, one_div, inv_eq_zero] at hk
      simp [ PVCV0.run, hdev, hdb, hk, CONVERTER.call_set_input, CONVERTER.call_run,
        CONVERTER.call_set_output, CONVERTER.call_initialize_block, CONVERTER.record,
        CONVERTER.setBlock, CONVERTER.block, BLOCK.with_signals_of, CONVERTER.get_KPLL,
        CONVERTER.get_KIPLL, CONVERTER.set_pll_angle_in_deg,
        CONVERTER.set_flag_model_updated_as_true]

/-- C6, amended: `PVCV0::run(INTEGRATE_MODE)` never sets the model-updated flag, and
when the gains `KPLL`, `KIPLL` are not both zero it makes no `set_output` or
`initialize` call on a block; when both are zero (device and database present) its
`set_output` / `initialize` calls are one `set_output` and one `initialize` on the PLL
angle integrator.  `run(UPDATE_MODE)` with device and database present sets the
model-updated flag. -/
theorem PVCV0_run_integrate_commits (E : Ext F) (C : Cmd F (PV_UNIT F)) (s : PVCV0 F) :
    ( PVCV0.run E C .INTEGRATE_MODE s).flag_model_updated = s.flag_model_updated ∧
    (s.calls_since ( PVCV0.run E C .INTEGRATE_MODE s)).any Call.isSetUpdated = false ∧
    (¬ (s.get_KPLL = 0 ∧ s.get_KIPLL = 0) →
      (s.calls_since ( PVCV0.run E C .INTEGRATE_MODE s)).any Call.isCommit = false) ∧
    (∀ u db, s.device = some u → u.psdb = some db →
      (s.get_KPLL = 0 ∧ s.get_KIPLL = 0 → ∃ x,
        (s.calls_since ( PVCV0.run E C .INTEGRATE_MODE s)).filter Call.isCommit
          = [Call.set_output .PLL_angle_integrator x,
             Call.initialize_block .PLL_angle_integrator]) ∧
      ( PVCV0.run E C .UPDATE_MODE s).flag_model_updated = true) := by
  rcases PVCV0.run_eq_self_or E C .INTEGRATE_MODE s with h | ⟨u, db, hdev, hdb⟩
  · rw [h]
    refine ⟨rfl, by simp [CONVERTER.calls_since], fun _ => by simp [CONVERTER.calls_since],
      fun u db hdev hdb => ?_⟩
    have h2 := PVCV0.run_calls E C .INTEGRATE_MODE s u db hdev hdb
    obtain ⟨x1, x2, x3, x4, x5, x6, hc⟩ := h2
    rw [h] at hc
    have := congrArg List.length hc
    simp at this
  · obtain ⟨x1, x2, x3, x4, x5, x6, hc⟩ := PVCV0.run_calls E C .INTEGRATE_MODE s u db hdev hdb
    rw [CONVERTER.calls_since_of_append _ _ _ hc]
    refine ⟨?_, ?_, fun hk => ?_, fun u2 db2 hdev2 hdb2 => ⟨fun hk => ⟨x4, ?_⟩, ?_⟩⟩
    · rw [PVCV0.run_flag_model_updated E C _ s u db hdev hdb]; simp
    · by_cases hk : s.get_KPLL = 0 ∧ s.get_KIPLL = 0
      · rw [if_pos hk]; simp [Call.isSetUpdated]
      · rw [if_neg hk]; simp [Call.isSetUpdated]
    · rw [if_neg hk]; simp [Call.isCommit]
    · rw [if_pos hk]; simp [Call.isCommit, List.filter]
    · rw [PVCV0.run_flag_model_updated E C _ s u2 db2 hdev2 hdb2]; simp

end

/-- Counterexample of C6: the sample PVCV0 model with `KPLL = KIPLL = 0`;
`run(INTEGRATE_MODE)` calls `set_output` and `initialize` on the PLL angle integrator. -/
theorem PVCV0_run_integrate_overwrites_PLL_angle_of_sample :
    (samplePVCV0 ℝ 0 0 1).get_KPLL = 0 ∧ (samplePVCV0 ℝ 0 0 1).get_KIPLL = 0 ∧
    ((samplePVCV0 ℝ 0 0 1).calls_since
      ( PVCV0.run sampleExt (sampleCmd ℝ _) .INTEGRATE_MODE (samplePVCV0 ℝ 0 0 1))).any
        Call.isCommit = true ∧
    ((samplePVCV0 ℝ 0 0 1).calls_since
      ( PVCV0.run sampleExt (sampleCmd ℝ _) .INTEGRATE_MODE (samplePVCV0 ℝ 0 0 1))).any
        (Call.isSetOutput .PLL_angle_integrator) = true ∧
    ((samplePVCV0 ℝ 0 0 1).calls_since
      ( PVCV0.run sampleExt (sampleCmd ℝ _) .INTEGRATE_MODE (samplePVCV0 ℝ 0 0 1))).any
        (Call.isInitializeBlock .PLL_angle_integrator) = true := by
  have hk : (samplePVCV0 ℝ 0 0 1).get_KPLL = 0 ∧ (samplePVCV0 ℝ 0 0 1).get_KIPLL = 0 := by
    simp [samplePVCV0, CONVERTER.get_KPLL, CONVERTER.get_KIPLL, CONVERTER.set_PLLmax,
      CONVERTER.set_KIPLL, CONVERTER.set_KPLL, CONVERTER.call_set_upper_limit,
      CONVERTER.call_set_T_in_s, CONVERTER.record, CONVERTER.setBlock, CONVERTER.block]
  obtain ⟨x1, x2, x3, x4, x5, x6, hc⟩ := PVCV0.run_calls sampleExt (sampleCmd ℝ _)
    .INTEGRATE_MODE (samplePVCV0 ℝ 0 0 1) (samplePvUnit ℝ) (sampleDatabase ℝ) rfl rfl
  rw [CONVERTER.calls_since_of_append _ _ _ hc, if_pos hk]
  refine ⟨hk.1, hk.2, ?_, ?_, ?_⟩ <;> simp [Call.isCommit, Call.isSetOutput, Call.isInitializeBlock]

/-! ## The steady state is a fixed point of run -/

section
variable {F : Type} [LinearOrderedField F]

/-- The calls of `PVCV0::run(mode)` from a steady state: the active current
commander sits at the current command, the PLL axis is aligned with the terminal
voltage, and the PLL frequency integrator rests at zero. -/
theorem PVCV0.run_calls_of_steady (E : Ext F) (C : Cmd F (PV_UNIT F)) (mode : DYNAMIC_MODE)
    (t : PVCV0 F) (u : PV_UNIT F) (db : POWER_SYSTEM_DATABASE F)
    (hdev : t.device = some u) (hdb : u.psdb = some db)
    (hC : ∀ st : PVCV0 F, C.get_active_current_command_in_pu_based_on_mbase st
        = st.initial_active_current_command_in_pu_based_on_mbase ∧
      C.get_reactive_current_command_in_pu_based_on_mbase st
        = st.initial_reactive_current_command_in_pu_based_on_mbase)
    (hk : t.get_KIPLL ≠ 0)
    (hacc : t.active_current_commander.output
      = t.initial_active_current_command_in_pu_based_on_mbase)
    (hIP : t.initial_active_current_command_in_pu_based_on_mbase ≤
      E.get_LVPL_order t.lvpl
        (E.run_block .LVPL_voltage_sensor mode
          { t.LVPL_voltage_sensor with
            input := E.steps_fast_complex_abs db.bus_complex_voltage_in_pu }).output)
    (hrate : 0 ≤ t.LVPL_active_power_change_rate)
    (hVy : -db.bus_complex_voltage_in_pu.re * E.sin t.PLL_angle_integrator.output
      + db.bus_complex_voltage_in_pu.im * E.cos t.PLL_angle_integrator.output = 0)
    (hfreq : (E.run_block .PLL_frequency_integrator mode
      { t.PLL_frequency_integrator with input := 0 }).output = 0)
 :
    t.calls_since ( PVCV0.run E C mode t) =
      [Call.set_input .LVPL_voltage_sensor
          (E.steps_fast_complex_abs db.bus_complex_voltage_in_pu),
        Call.run .LVPL_voltage_sensor mode,
        Call.set_input .active_current_commander 0,
        Call.run .active_current_commander mode,
        Call.set_input .reactive_voltage_commander
          (t.initial_reactive_current_command_in_pu_based_on_mbase
            * (-u.source_impedance_in_pu.im)),
        Call.run .reactive_voltage_commander mode,
        Call.set_input .PLL_frequency_integrator 0,
        Call.run .PLL_frequency_integrator mode,
        Call.set_input .PLL_angle_integrator
          (if (if 0 > t.get_PLLmax then t.get_PLLmax else 0) < -t.get_PLLmax
            then -t.get_PLLmax else (if 0 > t.get_PLLmax then t.get_PLLmax else 0)),
        Call.run .PLL_angle_integrator mode] ++
      (if mode = .UPDATE_MODE then [Call.set_flag_model_updated_as_true] else []) := by
  have hk' : ¬ (t.KPLL = 0 ∧ t.PLL_frequency_integrator.T = 0) := by
    simp only [CONVERTER.get_KIPLL, one_div, ne_eq, inv_eq_zero] at hk
    exact fun h => hk h.2
  have h1 : ¬ (E.get_LVPL_order t.lvpl
        (E.run_block .LVPL_voltage_sensor mode
          { t.LVPL_voltage_sensor with
            input := E.steps_fast_complex_abs db.bus_complex_voltage_in_pu }).output
      < t.initial_active_current_command_in_pu_based_on_mbase) := not_lt.mpr hIP
  have h2 : ¬ (t.LVPL_active_power_change_rate < 0) := not_lt.mpr hrate
  apply CONVERTER.calls_since_of_append
  cases mode <;>
  simp [ PVCV0.run, hdev, hdb, hk', CONVERTER.call_set_input, CONVERTER.call_run,
    CONVERTER.call_set_output, CONVERTER.call_initialize_block, CONVERTER.record,
    CONVERTER.setBlock, CONVERTER.block, BLOCK.with_signals_of, CONVERTER.get_KPLL,
    CONVERTER.get_KIPLL, CONVERTER.set_pll_angle_in_deg, CONVERTER.get_PLLmax,
    CONVERTER.set_flag_model_updated_as_true, (hC _).1, (hC _).2, hacc, h1, h2,
    PVCV0.get_terminal_complex_voltage_in_pu, PVCV0.get_power_system_database,
    PVCV0.get_source_impedance_in_pu_based_on_mbase, PVCV0.get_pll_angle_in_rad,
    CONVERTER.get_LVPL_max_rate_of_active_current_change] at hfreq hVy h1 ⊢ <;>
  simp [h1, hVy, hfreq]

end

/-- The component of a voltage across the axis of its own angle is zero:
`-Vr*sin(a) + Vi*cos(a) = 0` for `a = atan2(Vi, Vr)`. -/
theorem libm_Vy_eq_zero (Vr Vi : ℝ) :
    -Vr * Real.sin (Complex.arg ⟨Vr, Vi⟩) + Vi * Real.cos (Complex.arg ⟨Vr, Vi⟩) = 0 := by
  by_cases hz : (⟨Vr, Vi⟩ : ℂ) = 0
  · have h1 : Vr = 0 := by simpa using congrArg Complex.re hz
    have h2 : Vi = 0 := by simpa using congrArg Complex.im hz
    simp [h1, h2]
  · have habs : Complex.abs ⟨Vr, Vi⟩ ≠ 0 := by simpa using hz
    rw [Complex.sin_arg, Complex.cos_arg hz]
    field_simp
    ring

/-- The gains and the limit of the sample model are the ones it was built with. -/
theorem samplePVCV0_gains (kpll kipll pllmax : ℝ) :
    (samplePVCV0 ℝ kpll kipll pllmax).get_KPLL = kpll ∧
    (samplePVCV0 ℝ kpll kipll pllmax).get_KIPLL = kipll ∧
    (samplePVCV0 ℝ kpll kipll pllmax).get_PLLmax = pllmax := by
  simp [samplePVCV0, CONVERTER.get_KPLL, CONVERTER.get_KIPLL, CONVERTER.get_PLLmax,
    CONVERTER.set_PLLmax, CONVERTER.set_KIPLL, CONVERTER.set_KPLL,
    CONVERTER.call_set_upper_limit, CONVERTER.call_set_T_in_s, CONVERTER.record,
    CONVERTER.setBlock, CONVERTER.block]

/-! ## The limits of the PLL frequency integrator -/

section
variable {F : Type} [LinearOrderedField F]

/-- The limits of the PLL frequency integrator after a successful `PVCV0::initialize()`. -/
theorem PVCV0.initialize_PLL_limits (E : Ext F) (s : PVCV0 F) (u : PV_UNIT F)
    (db : POWER_SYSTEM_DATABASE F) (hdev : s.device = some u) (hdb : u.psdb = some db)
    (hni : s.flag_model_initialized = false) :
    (s.get_KIPLL ≠ 0 →
      ( PVCV0.initialize E s).get_PLLmax = s.get_PLLmax ∧
      ( PVCV0.initialize E s).get_PLLmin = -s.get_PLLmax) ∧
    (s.get_KIPLL = 0 →
      ( PVCV0.initialize E s).get_PLLmax = s.get_PLLmax ∧
      ( PVCV0.initialize E s).get_PLLmin = s.get_PLLmin) := by
  constructor <;> intro hk <;>
  simp [ PVCV0.initialize, CONVERTER.is_model_initialized, hni, hdev, hdb, hk,
    CONVERTER.call_set_output, CONVERTER.call_initialize_block, CONVERTER.call_set_T_in_s,
    CONVERTER.call_set_upper_limit, CONVERTER.call_set_lower_limit, CONVERTER.record,
    CONVERTER.setBlock, CONVERTER.block, BLOCK.with_signals_of,
    CONVERTER.set_flag_model_initialized_as_true,
    CONVERTER.set_initial_active_current_command_in_pu_based_on_mbase,
    CONVERTER.set_initial_reactive_current_command_in_pu_based_on_mbase,
    CONVERTER.get_PLLmax, CONVERTER.get_PLLmin]

end

section
variable {F : Type} [LinearOrderedField F]

/-- An accepted upper limit is stored as `call_set_upper_limit` stores it. -/
theorem CONVERTER.call_set_upper_limit_reporting_cases {D : Type} (s : CONVERTER F D)
    (b : BlockId) (v : F) :
    (v < (s.block b).lower_limit ∧
      s.call_set_upper_limit_reporting b v = .error .InvalidLimits) ∨
    ((s.block b).lower_limit ≤ v ∧
      s.call_set_upper_limit_reporting b v = .ok (s.call_set_upper_limit b v)) := by
  by_cases h : v < (s.block b).lower_limit
  · left
    simp [CONVERTER.call_set_upper_limit_reporting, BLOCK.set_upper_limit, h]
  · right
    refine ⟨not_lt.mp h, ?_⟩
    simp [CONVERTER.call_set_upper_limit_reporting, BLOCK.set_upper_limit, h,
      CONVERTER.call_set_upper_limit]

/-- An accepted lower limit is stored as `call_set_lower_limit` stores it. -/
theorem CONVERTER.call_set_lower_limit_reporting_cases {D : Type} (s : CONVERTER F D)
    (b : BlockId) (v : F) :
    ((s.block b).upper_limit < v ∧
      s.call_set_lower_limit_reporting b v = .error .InvalidLimits) ∨
    (v ≤ (s.block b).upper_limit ∧
      s.call_set_lower_limit_reporting b v = .ok (s.call_set_lower_limit b v)) := by
  by_cases h : (s.block b).upper_limit < v
  · left
    simp [CONVERTER.call_set_lower_limit_reporting, BLOCK.set_lower_limit, h]
  · right
    refine ⟨not_lt.mp h, ?_⟩
    simp [CONVERTER.call_set_lower_limit_reporting, BLOCK.set_lower_limit, h,
      CONVERTER.call_set_lower_limit]

/-- What `initialize()` reports: where it returns at once (initialized already, no
device, no database) and with `KIPLL = 0` it makes no limit call and cannot fail; with
`KIPLL ≠ 0` it fails with `InvalidLimits` when `PLLmax` is below the lower limit or
below `-PLLmax`, and completes otherwise. -/
theorem PVCV0.initialize_reporting_cases (E : Ext F) (s : PVCV0 F) :
    (((s.flag_model_initialized = true ∨ PVCV0.get_power_system_database s = none ∨
        s.get_KIPLL = 0) ∨ (s.get_PLLmin ≤ s.get_PLLmax ∧ 0 ≤ s.get_PLLmax)) ∧
      PVCV0.initialize_reporting E s = .ok ( PVCV0.initialize E s)) ∨
    ((s.flag_model_initialized = false ∧ PVCV0.get_power_system_database s ≠ none ∧
        s.get_KIPLL ≠ 0 ∧ (s.get_PLLmax < s.get_PLLmin ∨ s.get_PLLmax < 0)) ∧
      PVCV0.initialize_reporting E s = .error .InvalidLimits) := by
  unfold PVCV0.initialize_reporting
  by_cases hi : s.flag_model_initialized = true
  · left
    exact ⟨Or.inl (Or.inl hi), by simp [CONVERTER.is_model_initialized, hi]⟩
  have hi' : s.flag_model_initialized = false := by simpa using hi
  cases hdev : s.device with
  | none =>
    left
    exact ⟨Or.inl (Or.inr (Or.inl (by simp [PVCV0.get_power_system_database, hdev]))),
      by simp [CONVERTER.is_model_initialized, hi']⟩
  | some pv_unit =>
    cases hdb : pv_unit.psdb with
    | none =>
      left
      exact ⟨Or.inl (Or.inr (Or.inl (by simp [PVCV0.get_power_system_database, hdev, hdb]))),
        by simp [CONVERTER.is_model_initialized, hi', hdb]⟩
    | some db =>
      have hpsdb : PVCV0.get_power_system_database s ≠ none := by
        simp [PVCV0.get_power_system_database, hdev, hdb]
      by_cases hk : s.get_KIPLL = 0
      · left
        exact ⟨Or.inl (Or.inr (Or.inr hk)), by simp [CONVERTER.is_model_initialized, hi', hdb, hk]⟩
      · simp only [CONVERTER.is_model_initialized, hi', Bool.false_eq_true, if_false, hdb,
          ne_eq, hk, not_false_eq_true, if_true]
        rcases CONVERTER.call_set_upper_limit_reporting_cases
          (s.call_set_T_in_s .PLL_frequency_integrator (1 / s.get_KIPLL))
          .PLL_frequency_integrator
          (s.call_set_T_in_s .PLL_frequency_integrator (1 / s.get_KIPLL)).get_PLLmax
          with ⟨h1, e1⟩ | ⟨h1, e1⟩
        · right
          refine ⟨⟨trivial, hpsdb, trivial, Or.inl ?_⟩, by rw [e1]⟩
          simpa [CONVERTER.call_set_T_in_s, CONVERTER.record, CONVERTER.setBlock,
            CONVERTER.block, CONVERTER.get_PLLmax, CONVERTER.get_PLLmin] using h1
        · rw [e1]
          rcases CONVERTER.call_set_lower_limit_reporting_cases
            ((s.call_set_T_in_s .PLL_frequency_integrator (1 / s.get_KIPLL)).call_set_upper_limit
              .PLL_frequency_integrator
              (s.call_set_T_in_s .PLL_frequency_integrator (1 / s.get_KIPLL)).get_PLLmax)
            .PLL_frequency_integrator
            (-(s.call_set_T_in_s .PLL_frequency_integrator (1 / s.get_KIPLL)).get_PLLmax)
            with ⟨h2, e2⟩ | ⟨h2, e2⟩
          · right
            refine ⟨⟨trivial, hpsdb, trivial, Or.inr ?_⟩, by simp only [e2]⟩
            have h2' : s.get_PLLmax < -s.get_PLLmax := by
              simpa [CONVERTER.call_set_T_in_s, CONVERTER.call_set_upper_limit,
                CONVERTER.record, CONVERTER.setBlock, CONVERTER.block, CONVERTER.get_PLLmax]
                using h2
            linarith
          · left
            refine ⟨Or.inr ⟨?_, ?_⟩, by simp only [e2]⟩
            · simpa [CONVERTER.call_set_T_in_s, CONVERTER.record, CONVERTER.setBlock,
                CONVERTER.block, CONVERTER.get_PLLmax, CONVERTER.get_PLLmin] using h1
            · have h2' : -s.get_PLLmax ≤ s.get_PLLmax := by
                simpa [CONVERTER.call_set_T_in_s, CONVERTER.call_set_upper_limit,
                  CONVERTER.record, CONVERTER.setBlock, CONVERTER.block, CONVERTER.get_PLLmax]
                  using h2
              linarith

/-- `PVCV0::initialize()` keeps the limits of the PLL frequency integrator in order
when it makes no limit call or `PLLmax` is not negative. -/
theorem PVCV0.initialize_keeps_limits_in_order (E : Ext F) (s : PVCV0 F)
    (h0 : s.get_PLLmin ≤ s.get_PLLmax)
    (h : (s.flag_model_initialized = true ∨ PVCV0.get_power_system_database s = none ∨
        s.get_KIPLL = 0) ∨ 0 ≤ s.get_PLLmax) :
    ( PVCV0.initialize E s).get_PLLmin ≤ ( PVCV0.initialize E s).get_PLLmax := by
  by_cases hi : s.flag_model_initialized = true
  · rw [ PVCV0.initialize_of_initialized E s hi]
    exact h0
  have hi' : s.flag_model_initialized = false := by simpa using hi
  cases hdev : s.device with
  | none =>
    have e : PVCV0.initialize E s = s := by
      simp [ PVCV0.initialize, hdev]
    rw [e]
    exact h0
  | some u =>
    cases hdb : u.psdb with
    | none =>
      have e : PVCV0.initialize E s = s := by
        simp [ PVCV0.initialize, hdev, hdb]
      rw [e]
      exact h0
    | some db =>
      obtain ⟨h1, h2⟩ := PVCV0.initialize_PLL_limits E s u db hdev hdb hi'
      by_cases hk : s.get_KIPLL = 0
      · obtain ⟨ha, hb⟩ := h2 hk
        rw [ha, hb]
        exact h0
      · obtain ⟨ha, hb⟩ := h1 hk
        rw [ha, hb]
        have hp : 0 ≤ s.get_PLLmax := by
          rcases h with (h | h | h) | h
          · exact absurd h hi
          · simp [PVCV0.get_power_system_database, hdev, hdb] at h
          · exact absurd h hk
          · exact h
        linarith

/-- `PVCV0::initialize()` leaves the limits of the PLL frequency integrator as they are
when it makes no limit call: on an initialized model, without device or database, and
with `KIPLL = 0`. -/
theorem PVCV0.initialize_keeps_limits (E : Ext F) (s : PVCV0 F)
    (h : s.flag_model_initialized = true ∨ PVCV0.get_power_system_database s = none ∨
        s.get_KIPLL = 0) :
    ( PVCV0.initialize E s).get_PLLmin = s.get_PLLmin ∧
    ( PVCV0.initialize E s).get_PLLmax = s.get_PLLmax := by
  by_cases hi : s.flag_model_initialized = true
  · rw [ PVCV0.initialize_of_initialized E s hi]
    exact ⟨rfl, rfl⟩
  have hi' : s.flag_model_initialized = false := by simpa using hi
  cases hdev : s.device with
  | none =>
    have e : PVCV0.initialize E s = s := by
      simp [ PVCV0.initialize, hdev]
    rw [e]
    exact ⟨rfl, rfl⟩
  | some u =>
    cases hdb : u.psdb with
    | none =>
      have e : PVCV0.initialize E s = s := by
        simp [ PVCV0.initialize, hdev, hdb]
      rw [e]
      exact ⟨rfl, rfl⟩
    | some db =>
      have hk : s.get_KIPLL = 0 := by
        rcases h with h | h | h
        · exact absurd h hi
        · simp [PVCV0.get_power_system_database, hdev, hdb] at h
        · exact h
      obtain ⟨ha, hb⟩ := ( PVCV0.initialize_PLL_limits E s u db hdev hdb hi').2 hk
      exact ⟨hb, ha⟩

/-- One configuring call fails with `InvalidLimits`, or leaves the limits in order, or
leaves them as they were. -/
theorem PVCV0.configure_keeps_limits_in_order (E : Ext F) (s : PVCV0 F)
    (c : PLL_LIMIT_CALL F) :
    PVCV0.configure E s c = .error .InvalidLimits ∨
    ∃ t, PVCV0.configure E s c = .ok t ∧
      (t.get_PLLmin ≤ t.get_PLLmax ∨
        (t.get_PLLmin = s.get_PLLmin ∧ t.get_PLLmax = s.get_PLLmax)) := by
  cases c with
  | set_PLLmax pmax =>
    rcases CONVERTER.call_set_upper_limit_reporting_cases s .PLL_frequency_integrator pmax
      with ⟨-, e⟩ | ⟨h, e⟩
    · exact Or.inl e
    · refine Or.inr ⟨_, e, Or.inl ?_⟩
      simpa [CONVERTER.call_set_upper_limit, CONVERTER.record, CONVERTER.setBlock,
        CONVERTER.block, CONVERTER.get_PLLmax, CONVERTER.get_PLLmin] using h
  | set_PLLmin pmin =>
    rcases CONVERTER.call_set_lower_limit_reporting_cases s .PLL_frequency_integrator pmin
      with ⟨-, e⟩ | ⟨h, e⟩
    · exact Or.inl e
    · refine Or.inr ⟨_, e, Or.inl ?_⟩
      simpa [CONVERTER.call_set_lower_limit, CONVERTER.record, CONVERTER.setBlock,
        CONVERTER.block, CONVERTER.get_PLLmax, CONVERTER.get_PLLmin] using h
  | initialize_model =>
    rcases PVCV0.initialize_reporting_cases E s with ⟨h, e⟩ | ⟨-, e⟩
    · refine Or.inr ⟨_, e, ?_⟩
      rcases h with h | h
      · exact Or.inr ( PVCV0.initialize_keeps_limits E s h)
      · exact Or.inl ( PVCV0.initialize_keeps_limits_in_order E s h.1 (Or.inr h.2))
    · exact Or.inl e

/-- A sequence of configuring calls fails with `InvalidLimits`, or leaves the limits in
order, or leaves them as they were. -/
theorem PVCV0.configure_all_keeps_limits_in_order (E : Ext F)
    (calls : List (PLL_LIMIT_CALL F)) (s : PVCV0 F) :
    PVCV0.configure_all E s calls = .error .InvalidLimits ∨
    ∃ t, PVCV0.configure_all E s calls = .ok t ∧
      (t.get_PLLmin ≤ t.get_PLLmax ∨
        (t.get_PLLmin = s.get_PLLmin ∧ t.get_PLLmax = s.get_PLLmax)) := by
  induction calls generalizing s with
  | nil => exact Or.inr ⟨s, rfl, Or.inr ⟨rfl, rfl⟩⟩
  | cons c cs ih =>
    rcases PVCV0.configure_keeps_limits_in_order E s c with e | ⟨t, e, ht⟩
    · left
      simp [PVCV0.configure_all, e]
    · rcases ih t with e2 | ⟨r, e2, hr⟩
      · left
        simp [PVCV0.configure_all, e, e2]
      · right
        refine ⟨r, by simp [PVCV0.configure_all, e, e2], ?_⟩
        rcases hr with hr | ⟨hr1, hr2⟩
        · exact Or.inl hr
        · rcases ht with ht | ⟨ht1, ht2⟩
          · left
            rw [hr1, hr2]
            exact ht
          · right
            exact ⟨hr1.trans ht1, hr2.trans ht2⟩

/-- C7: configuring the PLL frequency integrator of a PVCV0 model with an upper limit
below its lower limit is reported as `InvalidLimits`.  Every sequence of `set_PLLmax`,
`set_PLLmin` and `initialize()` calls either fails with `InvalidLimits`, or ends with
the upper limit not below the lower limit, or ends with the limits the model had before
the sequence (no call stored a limit); hence on a model whose limits are in order no
sequence that completes leaves the upper limit below the lower limit.  `set_PLLmax`
with a value below the lower limit and `set_PLLmin` with a value above the upper limit
fail with `InvalidLimits`; and so does an `initialize()` that reaches its limit calls
(not yet initialized, device and database present, `KIPLL ≠ 0`) with a negative
`PLLmax`, for which it asks for the upper limit `PLLmax` and the lower limit
`-PLLmax`. -/
theorem PVCV0_PLL_limits_in_order_or_InvalidLimits (E : Ext F) (s : PVCV0 F)
    (calls : List (PLL_LIMIT_CALL F)) :
    (PVCV0.configure_all E s calls = .error .InvalidLimits ∨
      ∃ t, PVCV0.configure_all E s calls = .ok t ∧
        (t.get_PLLmin ≤ t.get_PLLmax ∨
          (t.get_PLLmin = s.get_PLLmin ∧ t.get_PLLmax = s.get_PLLmax))) ∧
    (s.get_PLLmin ≤ s.get_PLLmax →
      PVCV0.configure_all E s calls = .error .InvalidLimits ∨
      ∃ t, PVCV0.configure_all E s calls = .ok t ∧ t.get_PLLmin ≤ t.get_PLLmax) ∧
    (∀ pmax, pmax < s.get_PLLmin → s.set_PLLmax_reporting pmax = .error .InvalidLimits) ∧
    (∀ pmin, s.get_PLLmax < pmin → s.set_PLLmin_reporting pmin = .error .InvalidLimits) ∧
    (s.flag_model_initialized = false → PVCV0.get_power_system_database s ≠ none →
      s.get_KIPLL ≠ 0 → s.get_PLLmax < 0 →
      PVCV0.initialize_reporting E s = .error .InvalidLimits) := by
  refine ⟨PVCV0.configure_all_keeps_limits_in_order E calls s, ?_, ?_, ?_, ?_⟩
  · intro h0
    rcases PVCV0.configure_all_keeps_limits_in_order E calls s with e | ⟨t, e, ht⟩
    · exact Or.inl e
    · refine Or.inr ⟨t, e, ?_⟩
      rcases ht with ht | ⟨ht1, ht2⟩
      · exact ht
      · rw [ht1, ht2]
        exact h0
  · intro pmax h
    rcases CONVERTER.call_set_upper_limit_reporting_cases s .PLL_frequency_integrator pmax
      with ⟨-, e⟩ | ⟨h2, -⟩
    · exact e
    · exact absurd h (not_lt.mpr h2)
  · intro pmin h
    rcases CONVERTER.call_set_lower_limit_reporting_cases s .PLL_frequency_integrator pmin
      with ⟨-, e⟩ | ⟨h2, -⟩
    · exact e
    · exact absurd h (not_lt.mpr h2)
  · intro hi hp hk hneg
    rcases PVCV0.initialize_reporting_cases E s with ⟨h, -⟩ | ⟨-, e⟩
    · rcases h with (h | h | h) | h
      · rw [hi] at h
        exact absurd h (by simp)
      · exact absurd h hp
      · exact absurd h hk
      · exact absurd hneg (not_lt.mpr h.2)
    · exact e

end

/-- What the sample PVCV0 model (limits 0 and 1, `KIPLL = 1`) answers: `set_PLLmax(2)`,
`set_PLLmin(-2)` and `initialize()` are accepted and leave the limits `-2` and `2`;
`set_PLLmax(-1)` and `set_PLLmin(2)` are refused. -/
theorem samplePVCV0_configure_all :
    (∃ t, PVCV0.configure_all sampleExt (samplePVCV0 ℝ 1 1 1)
        [.set_PLLmax 2, .set_PLLmin (-2), .initialize_model] = .ok t ∧
      t.get_PLLmin = -2 ∧ t.get_PLLmax = 2 ∧ t.flag_model_initialized = true) ∧
    PVCV0.configure_all sampleExt (samplePVCV0 ℝ 1 1 1) [.set_PLLmax (-1)]
      = .error .InvalidLimits ∧
    PVCV0.configure_all sampleExt (samplePVCV0 ℝ 1 1 1) [.set_PLLmin 2]
      = .error .InvalidLimits := by
  have hlim : ∀ p : ℝ, ((samplePVCV0 ℝ 1 1 p).get_PLLmin = 0 ∧
      (samplePVCV0 ℝ 1 1 p).get_PLLmax = p) := by
    intro p
    simp [samplePVCV0, sampleBlock, CONVERTER.get_PLLmin, CONVERTER.get_PLLmax,
      CONVERTER.set_PLLmax, CONVERTER.set_KIPLL, CONVERTER.set_KPLL, PVCV0.clear,
      CONVERTER.call_set_upper_limit, CONVERTER.call_set_T_in_s, CONVERTER.record,
      CONVERTER.setBlock, CONVERTER.block]
  have e1 : PVCV0.configure sampleExt (samplePVCV0 ℝ 1 1 1) (.set_PLLmax 2)
      = .ok ((samplePVCV0 ℝ 1 1 1).call_set_upper_limit .PLL_frequency_integrator 2) := by
    rcases CONVERTER.call_set_upper_limit_reporting_cases (samplePVCV0 ℝ 1 1 1)
      .PLL_frequency_integrator 2 with ⟨h, -⟩ | ⟨-, e⟩
    · have := (hlim 1).1
      simp only [CONVERTER.get_PLLmin, CONVERTER.block] at this h
      rw [this] at h
      norm_num at h
    · exact e
  have e2 : PVCV0.configure sampleExt
      ((samplePVCV0 ℝ 1 1 1).call_set_upper_limit .PLL_frequency_integrator 2)
      (.set_PLLmin (-2))
      = .ok (((samplePVCV0 ℝ 1 1 1).call_set_upper_limit .PLL_frequency_integrator
          2).call_set_lower_limit .PLL_frequency_integrator (-2)) := by
    rcases CONVERTER.call_set_lower_limit_reporting_cases
      ((samplePVCV0 ℝ 1 1 1).call_set_upper_limit .PLL_frequency_integrator 2)
      .PLL_frequency_integrator (-2) with ⟨h, -⟩ | ⟨-, e⟩
    · simp [CONVERTER.call_set_upper_limit, CONVERTER.record, CONVERTER.setBlock,
        CONVERTER.block] at h
      norm_num at h
    · exact e
  have hs : ∃ s2 : PVCV0 ℝ, s2 = ((samplePVCV0 ℝ 1 1 1).call_set_upper_limit
      .PLL_frequency_integrator 2).call_set_lower_limit .PLL_frequency_integrator (-2) :=
    ⟨_, rfl⟩
  obtain ⟨s2, hs2⟩ := hs
  rw [← hs2] at e2
  have hmin : s2.get_PLLmin = -2 := by
    rw [hs2]
    simp [CONVERTER.call_set_upper_limit, CONVERTER.call_set_lower_limit, CONVERTER.record,
      CONVERTER.setBlock, CONVERTER.block, CONVERTER.get_PLLmin]
  have hmax : s2.get_PLLmax = 2 := by
    rw [hs2]
    simp [CONVERTER.call_set_upper_limit, CONVERTER.call_set_lower_limit, CONVERTER.record,
      CONVERTER.setBlock, CONVERTER.block, CONVERTER.get_PLLmax]
  have hk : s2.get_KIPLL ≠ 0 := by
    rw [hs2]
    simp [samplePVCV0, CONVERTER.get_KIPLL, CONVERTER.set_PLLmax, CONVERTER.set_KIPLL,
      CONVERTER.set_KPLL, CONVERTER.call_set_upper_limit, CONVERTER.call_set_lower_limit,
      CONVERTER.call_set_T_in_s, CONVERTER.record, CONVERTER.setBlock, CONVERTER.block]
  have hdev : s2.device = some (samplePvUnit ℝ) := by
    rw [hs2]
    rfl
  have hni : s2.flag_model_initialized = false := by
    rw [hs2]
    rfl
  have e3 : PVCV0.configure sampleExt s2 .initialize_model
      = .ok ( PVCV0.initialize sampleExt s2) := by
    rcases PVCV0.initialize_reporting_cases sampleExt s2 with ⟨-, e⟩ | ⟨⟨-, -, -, h⟩, -⟩
    · exact e
    · rw [hmin, hmax] at h
      norm_num at h
  obtain ⟨h1, -⟩ := PVCV0.initialize_PLL_limits sampleExt s2 (samplePvUnit ℝ)
    (sampleDatabase ℝ) hdev rfl hni
  obtain ⟨ha, hb⟩ := h1 hk
  refine ⟨⟨ PVCV0.initialize sampleExt s2, ?_, by rw [hb, hmax], by rw [ha, hmax], ?_⟩, ?_, ?_⟩
  · simp [PVCV0.configure_all, e1, e2, e3]
  · have hdb : (samplePvUnit ℝ).psdb = some (sampleDatabase ℝ) := rfl
    simp [ PVCV0.initialize, CONVERTER.is_model_initialized, hni, hdev, hdb,
      CONVERTER.set_flag_model_initialized_as_true, CONVERTER.record]
  · rcases CONVERTER.call_set_upper_limit_reporting_cases (samplePVCV0 ℝ 1 1 1)
      .PLL_frequency_integrator (-1) with ⟨-, e⟩ | ⟨h, -⟩
    · simp [PVCV0.configure_all, PVCV0.configure, CONVERTER.set_PLLmax_reporting, e]
    · have := (hlim 1).1
      simp only [CONVERTER.get_PLLmin, CONVERTER.block] at this h
      rw [this] at h
      norm_num at h
  · rcases CONVERTER.call_set_lower_limit_reporting_cases (samplePVCV0 ℝ 1 1 1)
      .PLL_frequency_integrator 2 with ⟨-, e⟩ | ⟨h, -⟩
    · simp [PVCV0.configure_all, PVCV0.configure, CONVERTER.set_PLLmin_reporting, e]
    · have := (hlim 1).2
      simp only [CONVERTER.get_PLLmax, CONVERTER.block] at this h
      rw [this] at h
      norm_num at h

/-- Witness of C7: the sample PVCV0 model, whose limits are 0 and 1, and the calls
`set_PLLmax(2)`, `set_PLLmin(-2)`, `initialize()`, `set_PLLmin(3)`. -/
theorem PVCV0_PLL_limits_in_order_or_InvalidLimits_witness :
    (samplePVCV0 ℝ 1 1 1).get_PLLmin ≤ (samplePVCV0 ℝ 1 1 1).get_PLLmax ∧
    (PVCV0.configure_all sampleExt (samplePVCV0 ℝ 1 1 1)
        [.set_PLLmax 2, .set_PLLmin (-2), .initialize_model, .set_PLLmin 3]
          = .error .InvalidLimits ∨
      ∃ t, PVCV0.configure_all sampleExt (samplePVCV0 ℝ 1 1 1)
        [.set_PLLmax 2, .set_PLLmin (-2), .initialize_model, .set_PLLmin 3] = .ok t ∧
        t.get_PLLmin ≤ t.get_PLLmax) :=
  have h0 : (samplePVCV0 ℝ 1 1 1).get_PLLmin ≤ (samplePVCV0 ℝ 1 1 1).get_PLLmax := by
    simp [samplePVCV0, sampleBlock, CONVERTER.get_PLLmin, CONVERTER.get_PLLmax,
      CONVERTER.set_PLLmax, CONVERTER.set_KIPLL, CONVERTER.set_KPLL, PVCV0.clear,
      CONVERTER.call_set_upper_limit, CONVERTER.call_set_T_in_s, CONVERTER.record,
      CONVERTER.setBlock, CONVERTER.block]
  ⟨h0, (PVCV0_PLL_limits_in_order_or_InvalidLimits sampleExt (samplePVCV0 ℝ 1 1 1)
    [.set_PLLmax 2, .set_PLLmin (-2), .initialize_model, .set_PLLmin 3]).2.1 h0⟩

/-! ## The steady state with the blocks of the specification -/

section
variable {F : Type} [LinearOrderedField F]

/-- With no limiter, or with an output within the limits, `initialize()` of a block of
either kind keeps the output that was set. -/
theorem BLOCK.initialize_of_kind_output (kind : BLOCK_KIND) (h : F) (b : BLOCK F)
    (hb : b.limiter_type = .NO_LIMITER ∨
      (b.lower_limit ≤ b.output ∧ b.output ≤ b.upper_limit)) :
    (BLOCK.initialize_of_kind kind h b).output = b.output := by
  have hc : b.limiter_type ≠ .NO_LIMITER → b.clamp b.output = b.output := by
    intro hne
    rcases hb with hb | ⟨h1, h2⟩
    · exact absurd hb hne
    · simp [BLOCK.clamp, not_lt.mpr h1, not_lt.mpr h2]
  cases kind <;> cases hl : b.limiter_type <;>
    simp [BLOCK.initialize_of_kind, INTEGRAL_BLOCK.initialize, FIRST_ORDER_BLOCK.initialize,
      BLOCK.limited_state, BLOCK.limited_output, hl] <;>
    simp [hc (by simp [hl])]

/-- A block of either kind that was initialized at the output 0, with 0 within its
limits, shows the output 0 after a run with the input 0. -/
theorem BLOCK.run_of_kind_at_rest (kind : BLOCK_KIND) (h : F) (mode : DYNAMIC_MODE)
    (b : BLOCK F) (hout : b.output = 0) (hl : b.lower_limit ≤ 0) (hu : 0 ≤ b.upper_limit) :
    (BLOCK.run_of_kind kind h mode
      { b.with_signals_of (BLOCK.initialize_of_kind kind h b) with input := 0 }).output = 0 := by
  have h1 : ¬ (0 : F) > b.upper_limit := not_lt.mpr hu
  have h2 : ¬ (0 : F) < b.lower_limit := not_lt.mpr hl
  cases kind <;> cases mode <;> cases hlt : b.limiter_type <;>
    simp [BLOCK.run_of_kind, INTEGRAL_BLOCK.run, INTEGRAL_BLOCK.integrate,
      INTEGRAL_BLOCK.update, INTEGRAL_BLOCK.tentative_state, FIRST_ORDER_BLOCK.run,
      FIRST_ORDER_BLOCK.integrate, FIRST_ORDER_BLOCK.update,
      FIRST_ORDER_BLOCK.tentative_state, BLOCK.initialize_of_kind,
      INTEGRAL_BLOCK.initialize, FIRST_ORDER_BLOCK.initialize, BLOCK.with_signals_of,
      BLOCK.limited_state, BLOCK.limited_output, BLOCK.clamp, hlt, hout, h1, h2]

/-- What a successful `PVCV0::initialize()` leaves behind, field by field, when the
blocks without limiter keep the output that was set. -/
theorem PVCV0.initialize_outputs_of_limiters (E : Ext F) (s : PVCV0 F) (u : PV_UNIT F)
    (db : POWER_SYSTEM_DATABASE F) (hdev : s.device = some u) (hdb : u.psdb = some db)
    (hni : s.flag_model_initialized = false)
    (hblk : ∀ b blk, blk.limiter_type = .NO_LIMITER →
      (E.initialize_block b blk).output = blk.output)
    (hacc : s.active_current_commander.limiter_type = .NO_LIMITER)
    (hrvc : s.reactive_voltage_commander.limiter_type = .NO_LIMITER)
    (hang : s.PLL_angle_integrator.limiter_type = .NO_LIMITER)
    (hsen : s.LVPL_voltage_sensor.limiter_type = .NO_LIMITER) :
    let t := PVCV0.initialize E s
    let n : F := (u.number_of_lumped_pv_units : F)
    let V := db.bus_complex_voltage_in_pu
    let Z := u.source_impedance_in_pu
    let S : Cplx F := ⟨u.p_generation_in_MW / n / (u.mbase_in_MVA / n),
      u.q_generation_in_MVar / n / (u.mbase_in_MVA / n)⟩
    let Isource := ((S.div V).conj).add (V.div Z)
    let a := E.atan2 V.im V.re
    let IP := Isource.re * E.cos a + Isource.im * E.sin a
    let IQ := -Isource.re * E.sin a + Isource.im * E.cos a
    t.device = some u ∧ t.lvpl = s.lvpl ∧
    t.KPLL = s.KPLL ∧ t.get_KIPLL = s.get_KIPLL ∧
    t.LVPL_active_power_change_rate = s.LVPL_active_power_change_rate ∧
    t.active_current_commander.output = IP ∧
    t.reactive_voltage_commander.output = IQ * (-Z.im) ∧
    t.PLL_angle_integrator.output = a ∧
    t.LVPL_voltage_sensor.output = E.steps_fast_complex_abs V ∧
    t.initial_active_current_command_in_pu_based_on_mbase = IP ∧
    t.initial_reactive_current_command_in_pu_based_on_mbase = IQ := by
  by_cases hk : s.get_KIPLL = 0 <;>
  simp [ PVCV0.initialize, CONVERTER.is_model_initialized, hni, hdev, hdb, hk,
    CONVERTER.call_set_output, CONVERTER.call_initialize_block, CONVERTER.call_set_T_in_s,
    CONVERTER.call_set_upper_limit, CONVERTER.call_set_lower_limit, CONVERTER.record,
    CONVERTER.setBlock, CONVERTER.block, BLOCK.with_signals_of, CONVERTER.set_flag_model_initialized_as_true,
    CONVERTER.set_initial_active_current_command_in_pu_based_on_mbase,
    CONVERTER.set_initial_reactive_current_command_in_pu_based_on_mbase, hblk,
    hacc, hrvc, hang, hsen,
    PVCV0.get_terminal_complex_voltage_in_pu, PVCV0.get_power_system_database,
    PVCV0.get_mbase_in_MVA, PVCV0.get_source_impedance_in_pu_based_on_mbase,
    PVCV0.get_number_of_lumped_pv_units, CONVERTER.get_PLLmax] <;>
  simp_all [CONVERTER.get_KIPLL]

/-- The PLL frequency integrator after a successful `PVCV0::initialize()` with
`KIPLL ≠ 0`: the block with the limits `PLLmax` and `-PLLmax` and the output 0, as its
`initialize()` leaves it. -/
theorem PVCV0.initialize_PLL_frequency_integrator (E : Ext F) (s : PVCV0 F) (u : PV_UNIT F)
    (db : POWER_SYSTEM_DATABASE F) (hdev : s.device = some u) (hdb : u.psdb = some db)
    (hni : s.flag_model_initialized = false) (hk : s.get_KIPLL ≠ 0) :
    ( PVCV0.initialize E s).PLL_frequency_integrator =
      ({ s.PLL_frequency_integrator with
          T := 1 / s.get_KIPLL, upper_limit := s.get_PLLmax, lower_limit := -s.get_PLLmax,
          output := 0 } : BLOCK F).with_signals_of
        (E.initialize_block .PLL_frequency_integrator
          { s.PLL_frequency_integrator with
            T := 1 / s.get_KIPLL, upper_limit := s.get_PLLmax,
            lower_limit := -s.get_PLLmax, output := 0 }) := by
  simp [ PVCV0.initialize, CONVERTER.is_model_initialized, hni, hdev, hdb, hk,
    CONVERTER.call_set_output, CONVERTER.call_initialize_block, CONVERTER.call_set_T_in_s,
    CONVERTER.call_set_upper_limit, CONVERTER.call_set_lower_limit, CONVERTER.record,
    CONVERTER.setBlock, CONVERTER.block, BLOCK.with_signals_of,
    CONVERTER.set_flag_model_initialized_as_true,
    CONVERTER.set_initial_active_current_command_in_pu_based_on_mbase,
    CONVERTER.set_initial_reactive_current_command_in_pu_based_on_mbase,
    CONVERTER.get_PLLmax]

/-- Where `wbase` is not zero, the argument of
`PLL_frequency_integrator.set_input` is the number `PVCV0::run(mode)` hands to the
block. -/
theorem PVCV0.run_hands_input_of_PLL_frequency_integrator (E : Ext F)
    (C : Cmd F (PV_UNIT F)) (mode : DYNAMIC_MODE) (s : PVCV0 F) (u : PV_UNIT F)
    (db : POWER_SYSTEM_DATABASE F) (hdev : s.device = some u) (hdb : u.psdb = some db)
    (hk : ¬ (s.get_KPLL = 0 ∧ s.get_KIPLL = 0))
    (hw : 2 * E.PI * db.system_base_frequency_in_Hz ≠ 0) :
    ∃ x, PVCV0.run_input_of_PLL_frequency_integrator E s = some (DOUBLE.finite x) ∧
      Call.set_input .PLL_frequency_integrator x ∈ s.calls_since ( PVCV0.run E C mode s) := by
  refine ⟨(-(PVCV0.get_terminal_complex_voltage_in_pu s).re
        * E.sin (PVCV0.get_pll_angle_in_rad E s)
      + (PVCV0.get_terminal_complex_voltage_in_pu s).im
        * E.cos (PVCV0.get_pll_angle_in_rad E s)) * s.get_KPLL
      / (2 * E.PI * db.system_base_frequency_in_Hz), ?_, ?_⟩
  · simp only [PVCV0.run_input_of_PLL_frequency_integrator, hdev, hdb, hk, if_false,
      DOUBLE.div_of_ne_zero _ _ hw]
  · have hk' : ¬ (s.KPLL = 0 ∧ s.PLL_frequency_integrator.T = 0) := by
      simpa [CONVERTER.get_KPLL, CONVERTER.get_KIPLL] using hk
    cases mode <;>
    simp [ PVCV0.run, hdev, hdb, hk', CONVERTER.calls_since, CONVERTER.call_set_input,
      CONVERTER.call_run, CONVERTER.call_set_output, CONVERTER.call_initialize_block,
      CONVERTER.record, CONVERTER.setBlock, CONVERTER.block, BLOCK.with_signals_of,
      CONVERTER.get_KPLL, CONVERTER.get_KIPLL, CONVERTER.set_pll_angle_in_deg,
      CONVERTER.set_flag_model_updated_as_true, PVCV0.get_pll_angle_in_rad,
      PVCV0.get_terminal_complex_voltage_in_pu, PVCV0.get_power_system_database]

end

/-- The blocks of the specification keep, without limiter, the output that was set. -/
theorem libm_and_blocks_initialize_output (order : LVPL ℝ → ℝ → ℝ)
    (kind : BlockId → BLOCK_KIND) (h : ℝ) (b : BlockId) (blk : BLOCK ℝ)
    (hb : blk.limiter_type = .NO_LIMITER) :
    ((libm_and_blocks order kind h).initialize_block b blk).output = blk.output :=
  BLOCK.initialize_of_kind_output (kind b) h blk (Or.inl hb)

/-- A successful `initialize()` with `KIPLL ≠ 0` found `PLLmax` not negative. -/
theorem PVCV0.PLLmax_nonneg_of_initialize_reporting {F : Type} [LinearOrderedField F]
    (E : Ext F) (s t : PVCV0 F) (u : PV_UNIT F) (db : POWER_SYSTEM_DATABASE F)
    (hdev : s.device = some u) (hdb : u.psdb = some db)
    (hni : s.flag_model_initialized = false) (hk : s.get_KIPLL ≠ 0)
    (hok : PVCV0.initialize_reporting E s = .ok t) :
    t = PVCV0.initialize E s ∧ 0 ≤ s.get_PLLmax := by
  rcases PVCV0.initialize_reporting_cases E s with ⟨hc, e⟩ | ⟨-, e⟩
  · rw [e] at hok
    refine ⟨(Except.ok.inj hok).symm, ?_⟩
    rcases hc with (h | h | h) | h
    · rw [hni] at h
      exact absurd h (by simp)
    · simp [PVCV0.get_power_system_database, hdev, hdb] at h
    · exact absurd h hk
    · exact h.2
  · rw [e] at hok
    exact absurd hok (by simp)

/-- C5, amended: for a PVCV0 model whose blocks have the limiter types `clear()` gives
them (none on the blocks other than the PLL frequency integrator) and compute as the
specification has it, immediately after a successful `initialize()` (device and
database present, not yet initialized, no `InvalidLimits`) with `KIPLL ≠ 0`, with the
base frequency, `mbase`, the number of lumped units and the source impedance non-zero,
with the non-zero terminal voltage unchanged, the current commands equal to the stored
initial commands, the initial active current not above the LVPL order and the LVPL
maximum rate `≥ 0`, `run(mode)` hands to every block its equilibrium input: the LVPL
voltage sensor and the reactive voltage commander get their initialized outputs (`|V|`
and `EQ = IQ*(-Xeq)`), the other three blocks get 0. -/
theorem PVCV0_run_after_initialize_hands_equilibrium_inputs
    (order : LVPL ℝ → ℝ → ℝ) (kind : BlockId → BLOCK_KIND) (h : ℝ) (E : Ext ℝ)
    (C : Cmd ℝ (PV_UNIT ℝ)) (mode : DYNAMIC_MODE) (s t : PVCV0 ℝ) (u : PV_UNIT ℝ)
    (db : POWER_SYSTEM_DATABASE ℝ)
    (hE : E = libm_and_blocks order kind h)
    (hdev : s.device = some u) (hdb : u.psdb = some db)
    (hni : s.flag_model_initialized = false)
    (hacc : s.active_current_commander.limiter_type = .NO_LIMITER)
    (hrvc : s.reactive_voltage_commander.limiter_type = .NO_LIMITER)
    (hang : s.PLL_angle_integrator.limiter_type = .NO_LIMITER)
    (hsen : s.LVPL_voltage_sensor.limiter_type = .NO_LIMITER)
    (hok : PVCV0.initialize_reporting E s = .ok t)
    (hKI : s.get_KIPLL ≠ 0)
    (hf : db.system_base_frequency_in_Hz ≠ 0) (hm : u.mbase_in_MVA ≠ 0)
    (hn : u.number_of_lumped_pv_units ≠ 0) (hZ : u.source_impedance_in_pu ≠ ⟨0, 0⟩)
    (hV : db.bus_complex_voltage_in_pu ≠ ⟨0, 0⟩)
    (hC : ∀ st : PVCV0 ℝ, C.get_active_current_command_in_pu_based_on_mbase st
        = st.initial_active_current_command_in_pu_based_on_mbase ∧
      C.get_reactive_current_command_in_pu_based_on_mbase st
        = st.initial_reactive_current_command_in_pu_based_on_mbase)
    (hIP : t.initial_active_current_command_in_pu_based_on_mbase ≤
      E.get_LVPL_order t.lvpl
        (E.run_block .LVPL_voltage_sensor mode
          { t.LVPL_voltage_sensor with
            input := E.steps_fast_complex_abs db.bus_complex_voltage_in_pu }).output)
    (hrate : 0 ≤ s.LVPL_active_power_change_rate) :
    t.calls_since ( PVCV0.run E C mode t) =
      [Call.set_input .LVPL_voltage_sensor t.LVPL_voltage_sensor.output,
        Call.run .LVPL_voltage_sensor mode,
        Call.set_input .active_current_commander 0,
        Call.run .active_current_commander mode,
        Call.set_input .reactive_voltage_commander t.reactive_voltage_commander.output,
        Call.run .reactive_voltage_commander mode,
        Call.set_input .PLL_frequency_integrator 0,
        Call.run .PLL_frequency_integrator mode,
        Call.set_input .PLL_angle_integrator 0,
        Call.run .PLL_angle_integrator mode] ++
      (if mode = .UPDATE_MODE then [Call.set_flag_model_updated_as_true] else []) ∧
    t.LVPL_voltage_sensor.output
      = Real.sqrt (db.bus_complex_voltage_in_pu.re * db.bus_complex_voltage_in_pu.re
          + db.bus_complex_voltage_in_pu.im * db.bus_complex_voltage_in_pu.im) ∧
    t.reactive_voltage_commander.output
      = t.initial_reactive_current_command_in_pu_based_on_mbase
        * (-u.source_impedance_in_pu.im) ∧
    PVCV0.run_input_of_PLL_frequency_integrator E t = some (DOUBLE.finite 0) := by
  obtain ⟨ht, hpll⟩ := PVCV0.PLLmax_nonneg_of_initialize_reporting E s t u db hdev hdb hni hKI hok
  subst ht
  subst hE
  obtain ⟨tdev, tlvpl, tkpll, tkipll, trate, tacc, trvc, tang, tsen, tip, tiq⟩ :=
    PVCV0.initialize_outputs_of_limiters (libm_and_blocks order kind h) s u db hdev hdb hni
      (libm_and_blocks_initialize_output order kind h) hacc hrvc hang hsen
  have tfreq := PVCV0.initialize_PLL_frequency_integrator (libm_and_blocks order kind h) s u
    db hdev hdb hni hKI
  obtain ⟨tmax, -⟩ := ( PVCV0.initialize_PLL_limits (libm_and_blocks order kind h) s u db
    hdev hdb hni).1 hKI
  have hpll' : 0 ≤ ( PVCV0.initialize (libm_and_blocks order kind h) s).get_PLLmax := by
    rw [tmax]; exact hpll
  have h3 : ¬ (0 > ( PVCV0.initialize (libm_and_blocks order kind h) s).get_PLLmax) :=
    not_lt.mpr hpll'
  have h4 : ¬ ((0 : ℝ) < -( PVCV0.initialize (libm_and_blocks order kind h) s).get_PLLmax) := by
    intro h; linarith
  have hfreq : ((libm_and_blocks order kind h).run_block .PLL_frequency_integrator mode
      { ( PVCV0.initialize (libm_and_blocks order kind h) s).PLL_frequency_integrator with
        input := 0 }).output = 0 := by
    rw [tfreq]
    exact BLOCK.run_of_kind_at_rest (kind .PLL_frequency_integrator) h mode _ rfl
      (by simpa using hpll) hpll
  have key := PVCV0.run_calls_of_steady (libm_and_blocks order kind h) C mode
    ( PVCV0.initialize (libm_and_blocks order kind h) s) u db tdev hdb hC
    (by rw [tkipll]; exact hKI) (by rw [tacc, tip]) hIP (by rw [trate]; exact hrate)
    (by rw [tang]; exact libm_Vy_eq_zero _ _) hfreq
  rw [if_neg h3, if_neg h4] at key
  have hw : 2 * (libm_and_blocks order kind h).PI * db.system_base_frequency_in_Hz ≠ 0 :=
    mul_ne_zero (mul_ne_zero two_ne_zero Real.pi_ne_zero) hf
  have hgain : ¬ (( PVCV0.initialize (libm_and_blocks order kind h) s).get_KPLL = 0 ∧
      ( PVCV0.initialize (libm_and_blocks order kind h) s).get_KIPLL = 0) := by
    rw [tkipll]
    exact fun hh => hKI hh.2
  have hVy : -db.bus_complex_voltage_in_pu.re * (libm_and_blocks order kind h).sin
        ( PVCV0.initialize (libm_and_blocks order kind h) s).PLL_angle_integrator.output
      + db.bus_complex_voltage_in_pu.im * (libm_and_blocks order kind h).cos
        ( PVCV0.initialize (libm_and_blocks order kind h) s).PLL_angle_integrator.output
      = 0 := by
    rw [tang]; exact libm_Vy_eq_zero _ _
  refine ⟨?_, ?_, ?_, ?_⟩
  · rw [key, tsen, trvc, tiq]
  · rw [tsen]; rfl
  · rw [trvc, tiq]
  · simp only [PVCV0.run_input_of_PLL_frequency_integrator, tdev, hdb, hgain, if_false,
      DOUBLE.div_of_ne_zero _ _ hw, PVCV0.get_pll_angle_in_rad,
      PVCV0.get_terminal_complex_voltage_in_pu, PVCV0.get_power_system_database,
      Option.bind, hVy, zero_mul, zero_div]

/-- Counterexample of C5: the sample PVCV0 model (`KPLL = KIPLL = PLLmax = 1`, the
limiter types of `clear()`) in a system whose base frequency is 0 Hz.  The hypotheses
of the claim hold: `initialize()` is successful, `KIPLL ≠ 0`, the terminal voltage is
1.0 pu, the initial active current 1 is below the LVPL order 10, the LVPL rate is 1.
Yet `run(mode)` right after `initialize()` does not hand 0 to the PLL frequency
integrator: `wbase = 2*PI*fbase` is `0.0`, `Vy*kpll` is `0.0`, and the argument
`Vy*kpll/wbase` of `set_input` is NaN. -/
theorem PVCV0_run_after_initialize_at_zero_base_frequency :
    PVCV0.initialize_reporting sampleBlocksExt (samplePVCV0_at_zero_base_frequency ℝ)
      = .ok ( PVCV0.initialize sampleBlocksExt (samplePVCV0_at_zero_base_frequency ℝ)) ∧
    (samplePVCV0_at_zero_base_frequency ℝ).get_KIPLL ≠ 0 ∧
    PVCV0.get_terminal_complex_voltage_in_pu
      ( PVCV0.initialize sampleBlocksExt (samplePVCV0_at_zero_base_frequency ℝ)) = ⟨1, 0⟩ ∧
    ( PVCV0.initialize sampleBlocksExt (samplePVCV0_at_zero_base_frequency ℝ)
      ).initial_active_current_command_in_pu_based_on_mbase ≤
      sampleBlocksExt.get_LVPL_order
        ( PVCV0.initialize sampleBlocksExt (samplePVCV0_at_zero_base_frequency ℝ)).lvpl
        (sampleBlocksExt.run_block .LVPL_voltage_sensor .INTEGRATE_MODE
          { ( PVCV0.initialize sampleBlocksExt
                (samplePVCV0_at_zero_base_frequency ℝ)).LVPL_voltage_sensor with
            input := sampleBlocksExt.steps_fast_complex_abs ⟨1, 0⟩ }).output ∧
    (0 : ℝ) ≤ (samplePVCV0_at_zero_base_frequency ℝ).LVPL_active_power_change_rate ∧
    PVCV0.run_input_of_PLL_frequency_integrator sampleBlocksExt
      ( PVCV0.initialize sampleBlocksExt (samplePVCV0_at_zero_base_frequency ℝ))
      = some DOUBLE.NaN := by
  have hdev : (samplePVCV0_at_zero_base_frequency ℝ).device
      = some { samplePvUnit ℝ with
          psdb := some { sampleDatabase ℝ with system_base_frequency_in_Hz := 0 } } := rfl
  have hlimits : (samplePVCV0_at_zero_base_frequency ℝ).get_PLLmin = 0 ∧
      (samplePVCV0_at_zero_base_frequency ℝ).get_PLLmax = 1 ∧
      (samplePVCV0_at_zero_base_frequency ℝ).get_KIPLL = 1 ∧
      (samplePVCV0_at_zero_base_frequency ℝ).KPLL = 1 ∧
      (samplePVCV0_at_zero_base_frequency ℝ).LVPL_active_power_change_rate = 1 := by
    simp [samplePVCV0_at_zero_base_frequency, samplePVCV0, sampleBlock,
      CONVERTER.get_PLLmin, CONVERTER.get_PLLmax, CONVERTER.get_KIPLL, CONVERTER.set_PLLmax,
      CONVERTER.set_KIPLL, CONVERTER.set_KPLL, PVCV0.clear, CONVERTER.call_set_upper_limit,
      CONVERTER.call_set_T_in_s, CONVERTER.record, CONVERTER.setBlock, CONVERTER.block]
  obtain ⟨hmin, hmax, hki, hkp, hrate⟩ := hlimits
  obtain ⟨tdev, -, tkpll, tkipll, -, -, -, tang, -, tip, -⟩ :=
    PVCV0.initialize_outputs_of_limiters sampleBlocksExt
      (samplePVCV0_at_zero_base_frequency ℝ) _ _ hdev rfl rfl
      (libm_and_blocks_initialize_output _ _ _) rfl rfl rfl rfl
  have hvolt : PVCV0.get_terminal_complex_voltage_in_pu
      ( PVCV0.initialize sampleBlocksExt (samplePVCV0_at_zero_base_frequency ℝ))
      = ⟨1, 0⟩ := by
    simp [PVCV0.get_terminal_complex_voltage_in_pu, PVCV0.get_power_system_database, tdev,
      sampleDatabase]
  refine ⟨?_, by rw [hki]; norm_num, hvolt, ?_, by rw [hrate]; norm_num, ?_⟩
  · rcases PVCV0.initialize_reporting_cases sampleBlocksExt
      (samplePVCV0_at_zero_base_frequency ℝ) with ⟨-, e⟩ | ⟨⟨-, -, -, hbad⟩, -⟩
    · exact e
    · rw [hmin, hmax] at hbad
      norm_num at hbad
  · rw [tip]
    simp [sampleBlocksExt, libm_and_blocks, libm, sampleDatabase, samplePvUnit, Cplx.div,
      Cplx.conj, Cplx.add, atan2_zero_one]
  · have hgain : ¬ (( PVCV0.initialize sampleBlocksExt
          (samplePVCV0_at_zero_base_frequency ℝ)).get_KPLL = 0 ∧
        ( PVCV0.initialize sampleBlocksExt
          (samplePVCV0_at_zero_base_frequency ℝ)).get_KIPLL = 0) := by
      rw [tkipll, hki]
      norm_num
    simp only [PVCV0.run_input_of_PLL_frequency_integrator, tdev, hgain, if_false,
      PVCV0.get_pll_angle_in_rad, PVCV0.get_terminal_complex_voltage_in_pu,
      PVCV0.get_power_system_database, Option.bind, tang]
    simp [sampleBlocksExt, libm_and_blocks, libm, sampleDatabase, atan2_zero_one, DOUBLE.div]

/-- Witness of C5 (amended): the sample PVCV0 model with `KPLL = KIPLL = PLLmax = 1` in
the 50 Hz sample system, with the blocks of the specification. -/
theorem PVCV0_run_after_initialize_hands_equilibrium_inputs_witness :
    ( PVCV0.initialize sampleBlocksExt (samplePVCV0 ℝ 1 1 1)).calls_since
        ( PVCV0.run sampleBlocksExt (sampleCmd ℝ _) .INTEGRATE_MODE
          ( PVCV0.initialize sampleBlocksExt (samplePVCV0 ℝ 1 1 1))) =
      [Call.set_input .LVPL_voltage_sensor
          ( PVCV0.initialize sampleBlocksExt (samplePVCV0 ℝ 1 1 1)).LVPL_voltage_sensor.output,
        Call.run .LVPL_voltage_sensor .INTEGRATE_MODE,
        Call.set_input .active_current_commander 0,
        Call.run .active_current_commander .INTEGRATE_MODE,
        Call.set_input .reactive_voltage_commander
          ( PVCV0.initialize sampleBlocksExt
            (samplePVCV0 ℝ 1 1 1)).reactive_voltage_commander.output,
        Call.run .reactive_voltage_commander .INTEGRATE_MODE,
        Call.set_input .PLL_frequency_integrator 0,
        Call.run .PLL_frequency_integrator .INTEGRATE_MODE,
        Call.set_input .PLL_angle_integrator 0,
        Call.run .PLL_angle_integrator .INTEGRATE_MODE] ∧
    PVCV0.run_input_of_PLL_frequency_integrator sampleBlocksExt
      ( PVCV0.initialize sampleBlocksExt (samplePVCV0 ℝ 1 1 1)) = some (DOUBLE.finite 0) := by
  obtain ⟨-, hki, hmax⟩ := samplePVCV0_gains 1 1 1
  have hmin : (samplePVCV0 ℝ 1 1 1).get_PLLmin = 0 := by
    simp [samplePVCV0, sampleBlock, CONVERTER.get_PLLmin, CONVERTER.set_PLLmax,
      CONVERTER.set_KIPLL, CONVERTER.set_KPLL, PVCV0.clear, CONVERTER.call_set_upper_limit,
      CONVERTER.call_set_T_in_s, CONVERTER.record, CONVERTER.setBlock, CONVERTER.block]
  have hok : PVCV0.initialize_reporting sampleBlocksExt (samplePVCV0 ℝ 1 1 1)
      = .ok ( PVCV0.initialize sampleBlocksExt (samplePVCV0 ℝ 1 1 1)) := by
    rcases PVCV0.initialize_reporting_cases sampleBlocksExt (samplePVCV0 ℝ 1 1 1)
      with ⟨-, e⟩ | ⟨⟨-, -, -, hbad⟩, -⟩
    · exact e
    · rw [hmin, hmax] at hbad
      norm_num at hbad
  obtain ⟨-, -, -, -, -, -, -, -, -, tip, -⟩ :=
    PVCV0.initialize_outputs_of_limiters sampleBlocksExt (samplePVCV0 ℝ 1 1 1)
      (samplePvUnit ℝ) (sampleDatabase ℝ) rfl rfl rfl
      (libm_and_blocks_initialize_output _ _ _) rfl rfl rfl rfl
  have h := PVCV0_run_after_initialize_hands_equilibrium_inputs (fun _ _ => 10)
    sampleBlockKind (1 / 100) sampleBlocksExt (sampleCmd ℝ _) .INTEGRATE_MODE
    (samplePVCV0 ℝ 1 1 1) ( PVCV0.initialize sampleBlocksExt (samplePVCV0 ℝ 1 1 1))
    (samplePvUnit ℝ) (sampleDatabase ℝ) rfl rfl rfl rfl rfl rfl rfl rfl hok
    (by rw [hki]; norm_num)
    (by simp [sampleDatabase]) (by simp [samplePvUnit]) (by simp [samplePvUnit])
    (by simp [samplePvUnit]) (by simp [sampleDatabase]) (fun _ => ⟨rfl, rfl⟩)
    (by
      rw [tip]
      simp [sampleBlocksExt, libm_and_blocks, libm, sampleDatabase, samplePvUnit, Cplx.div,
        Cplx.conj, Cplx.add, atan2_zero_one])
    (by simp [samplePVCV0, CONVERTER.set_PLLmax, CONVERTER.set_KIPLL,
      CONVERTER.set_KPLL, CONVERTER.call_set_upper_limit, CONVERTER.call_set_T_in_s,
      CONVERTER.record, CONVERTER.setBlock, PVCV0.clear])
  exact ⟨by simpa using h.1, h.2.2.2⟩

/-! ## Sparse matrix: compression -/

section
variable {F : Type} [LinearOrderedField F]

theorem Cplx.add_zero_right (a : Cplx F) : a.add Cplx.zero = a := by
  apply Cplx.ext' <;> simp [Cplx.add, Cplx.zero]

theorem Cplx.add_zero_left (a : Cplx F) : Cplx.zero.add a = a := by
  apply Cplx.ext' <;> simp [Cplx.add, Cplx.zero]

theorem Cplx.add_commutes (a b : Cplx F) : a.add b = b.add a := by
  apply Cplx.ext' <;> simp [Cplx.add, add_comm]

theorem Cplx.add_associates (a b c : Cplx F) : (a.add b).add c = a.add (b.add c) := by
  apply Cplx.ext' <;> simp [Cplx.add, add_assoc]

open SPARSE_MATRIX

/-- Two entries at the same position differ in their values only. -/
theorem TRIPLET.eq_of_key_eq (a b : TRIPLET F) (h : a.key = b.key) :
    a.row = b.row ∧ a.col = b.col := by
  have h2 : (a.col, a.row) = (b.col, b.row) := by
    simpa [TRIPLET.key] using h
  exact ⟨(Prod.mk.inj h2).2, (Prod.mk.inj h2).1⟩

theorem SPARSE_MATRIX.merge_entry_lt (e x : TRIPLET F) (t : List (TRIPLET F))
    (h : e.key < x.key) : merge_entry e (x :: t) = e :: x :: t := by
  simp [merge_entry, h]

theorem SPARSE_MATRIX.merge_entry_eq (e x : TRIPLET F) (t : List (TRIPLET F))
    (h : e.key = x.key) :
    merge_entry e (x :: t) = { x with value := x.value.add e.value } :: t := by
  simp [merge_entry, h]

theorem SPARSE_MATRIX.merge_entry_gt (e x : TRIPLET F) (t : List (TRIPLET F))
    (h : x.key < e.key) : merge_entry e (x :: t) = x :: merge_entry e t := by
  have h1 : ¬ e.key < x.key := not_lt.mpr h.le
  have h2 : ¬ e.key = x.key := fun e1 => (ne_of_lt h) e1.symm
  simp [merge_entry, h1, h2]

/-- Moving two entries into storage that begins after both gives the same storage in
either order. -/
theorem SPARSE_MATRIX.merge_entry_pair (a b : TRIPLET F) (l : List (TRIPLET F))
    (ha : merge_entry a l = a :: l) (hb : merge_entry b l = b :: l) :
    merge_entry a (b :: l) = merge_entry b (a :: l) := by
  rcases lt_trichotomy a.key b.key with h | h | h
  · rw [merge_entry_lt a b l h, merge_entry_gt b a l h, hb]
  · obtain ⟨hr, hc⟩ := TRIPLET.eq_of_key_eq a b h
    rw [merge_entry_eq a b l h, merge_entry_eq b a l h.symm]
    cases a; cases b
    simp_all [Cplx.add_commutes]
  · rw [merge_entry_gt a b l h, merge_entry_lt b a l h, ha]

/-- Moving two entries into compressed storage gives the same storage in either order. -/
theorem SPARSE_MATRIX.merge_entry_comm (a b : TRIPLET F) (l : List (TRIPLET F)) :
    merge_entry a (merge_entry b l) = merge_entry b (merge_entry a l) := by
  induction l with
  | nil => exact merge_entry_pair a b [] rfl rfl
  | cons x t ih =>
    have kx : ∀ v : Cplx F, TRIPLET.key ({ x with value := v } : TRIPLET F) = x.key :=
      fun _ => rfl
    rcases lt_trichotomy a.key x.key with hax | hax | hax <;>
    rcases lt_trichotomy b.key x.key with hbx | hbx | hbx
    · rw [merge_entry_lt b x t hbx, merge_entry_lt a x t hax]
      exact merge_entry_pair a b (x :: t) (merge_entry_lt a x t hax) (merge_entry_lt b x t hbx)
    · rw [merge_entry_eq b x t hbx, merge_entry_lt a x t hax,
        merge_entry_lt a _ t (by rw [kx]; exact hax),
        merge_entry_gt b a (x :: t) (by rw [hbx]; exact hax), merge_entry_eq b x t hbx]
    · rw [merge_entry_gt b x t hbx, merge_entry_lt a x t hax,
        merge_entry_lt a x _ hax, merge_entry_gt b a (x :: t) (hax.trans hbx),
        merge_entry_gt b x t hbx]
    · rw [merge_entry_lt b x t hbx, merge_entry_eq a x t hax,
        merge_entry_lt b _ t (by rw [kx]; exact hbx),
        merge_entry_gt a b (x :: t) (by rw [hax]; exact hbx), merge_entry_eq a x t hax]
    · rw [merge_entry_eq b x t hbx, merge_entry_eq a x t hax,
        merge_entry_eq a _ t (by rw [kx]; exact hax),
        merge_entry_eq b _ t (by rw [kx]; exact hbx)]
      simp [Cplx.add_associates, Cplx.add_commutes b.value a.value]
    · rw [merge_entry_gt b x t hbx, merge_entry_eq a x t hax,
        merge_entry_eq a x _ hax, merge_entry_gt b _ t (by rw [kx]; exact hbx)]
    · rw [merge_entry_lt b x t hbx, merge_entry_gt a x t hax,
        merge_entry_lt b x _ hbx, merge_entry_gt a b (x :: t) (hbx.trans hax),
        merge_entry_gt a x t hax]
    · rw [merge_entry_eq b x t hbx, merge_entry_gt a x t hax,
        merge_entry_eq b x _ hbx, merge_entry_gt a _ t (by rw [kx]; exact hax)]
    · rw [merge_entry_gt b x t hbx, merge_entry_gt a x t hax,
        merge_entry_gt a x _ hax, merge_entry_gt b x _ hbx, ih]

/-- The entry of an empty storage is zero. -/
theorem SPARSE_MATRIX.get_entry_nil (n : Nat) (lu : Option (LU_ARTIFACT F)) (r c : Int) :
    get_entry (⟨n, [], lu⟩ : COMPRESSED_FORM F) r c = Cplx.zero := by
  simp [get_entry, get_entry_index, index_of_key]

/-- Looking an entry up goes through the storage from its first entry on. -/
theorem SPARSE_MATRIX.get_entry_cons (n : Nat) (lu : Option (LU_ARTIFACT F))
    (h : TRIPLET F) (t : List (TRIPLET F)) (r c : Int) :
    get_entry (⟨n, h :: t, lu⟩ : COMPRESSED_FORM F) r c =
      if h.key = toLex (c, r) then h.value else get_entry ⟨n, t, lu⟩ r c := by
  by_cases hk : h.key = toLex (c, r)
  · simp [get_entry, get_entry_index, index_of_key, hk, get_complex_entry_value]
  · simp only [get_entry, get_entry_index, index_of_key, hk, if_false]
    cases index_of_key (toLex (c, r)) t <;> simp [get_complex_entry_value]

/-- Storage whose entries all lie after a position has no entry there. -/
theorem SPARSE_MATRIX.get_entry_of_lt (n : Nat) (lu : Option (LU_ARTIFACT F))
    (l : List (TRIPLET F)) (r c : Int) (h : ∀ y ∈ l, toLex (c, r) < y.key) :
    get_entry (⟨n, l, lu⟩ : COMPRESSED_FORM F) r c = Cplx.zero := by
  induction l with
  | nil => exact get_entry_nil n lu r c
  | cons x t ih =>
    rw [get_entry_cons, if_neg (fun e => (ne_of_lt (h x (List.mem_cons_self x t))) e.symm)]
    exact ih (fun y hy => h y (List.mem_cons_of_mem x hy))

/-- The positions in storage after an entry is moved in are its position and the
positions that were there. -/
theorem SPARSE_MATRIX.key_of_mem_merge_entry (e : TRIPLET F) (l : List (TRIPLET F)) :
    ∀ y ∈ merge_entry e l, y.key = e.key ∨ ∃ z ∈ l, y.key = z.key := by
  induction l with
  | nil => intro y hy; simp [merge_entry] at hy; exact Or.inl (by rw [hy])
  | cons x t ih =>
    intro y hy
    rcases lt_trichotomy e.key x.key with h | h | h
    · rw [merge_entry_lt e x t h] at hy
      rcases List.mem_cons.mp hy with h1 | h1
      · exact Or.inl (by rw [h1])
      · exact Or.inr ⟨y, h1, rfl⟩
    · rw [merge_entry_eq e x t h] at hy
      rcases List.mem_cons.mp hy with h1 | h1
      · exact Or.inl (by rw [h1, h]; rfl)
      · exact Or.inr ⟨y, List.mem_cons_of_mem x h1, rfl⟩
    · rw [merge_entry_gt e x t h] at hy
      rcases List.mem_cons.mp hy with h1 | h1
      · exact Or.inr ⟨x, List.mem_cons_self x t, by rw [h1]⟩
      · rcases ih y h1 with h2 | ⟨z, hz, h2⟩
        · exact Or.inl h2
        · exact Or.inr ⟨z, List.mem_cons_of_mem x hz, h2⟩

/-- Compressed storage stays in column-major order, rows sorted within a column and no
position twice, when an entry is moved in. -/
theorem SPARSE_MATRIX.merge_entry_sorted (e : TRIPLET F) (l : List (TRIPLET F))
    (hl : l.Pairwise (fun a b => a.key < b.key)) :
    (merge_entry e l).Pairwise (fun a b => a.key < b.key) := by
  induction l with
  | nil => simp [merge_entry]
  | cons x t ih =>
    obtain ⟨hx, ht⟩ := List.pairwise_cons.mp hl
    rcases lt_trichotomy e.key x.key with h | h | h
    · rw [merge_entry_lt e x t h]
      refine List.pairwise_cons.mpr ⟨fun y hy => ?_, hl⟩
      rcases List.mem_cons.mp hy with h1 | h1
      · rw [h1]; exact h
      · exact h.trans (hx y h1)
    · rw [merge_entry_eq e x t h]
      exact List.pairwise_cons.mpr ⟨fun y hy => hx y hy, ht⟩
    · rw [merge_entry_gt e x t h]
      refine List.pairwise_cons.mpr ⟨fun y hy => ?_, ih ht⟩
      rcases key_of_mem_merge_entry e t y hy with h1 | ⟨z, hz, h1⟩
      · rw [h1]; exact h
      · rw [h1]; exact hx z hz

/-- Moving an entry into sorted storage adds its value to the entry at its position
and leaves the other entries as they are. -/
theorem SPARSE_MATRIX.get_entry_merge_entry (n : Nat) (lu : Option (LU_ARTIFACT F))
    (e : TRIPLET F) (l : List (TRIPLET F)) (r c : Int)
    (hl : l.Pairwise (fun a b => a.key < b.key)) :
    get_entry (⟨n, merge_entry e l, lu⟩ : COMPRESSED_FORM F) r c =
      (get_entry ⟨n, l, lu⟩ r c).add (if e.key = toLex (c, r) then e.value else Cplx.zero) := by
  induction l with
  | nil =>
    simp only [merge_entry, get_entry_cons, get_entry_nil]
    split_ifs <;> simp [Cplx.add_zero_left]
  | cons x t ih =>
    obtain ⟨hx, ht⟩ := List.pairwise_cons.mp hl
    rcases lt_trichotomy e.key x.key with h | h | h
    · rw [merge_entry_lt e x t h, get_entry_cons]
      by_cases hk : e.key = toLex (c, r)
      · rw [if_pos hk, if_pos hk, get_entry_of_lt n lu (x :: t) r c, Cplx.add_zero_left]
        intro y hy
        rw [← hk]
        rcases List.mem_cons.mp hy with h1 | h1
        · rw [h1]; exact h
        · exact h.trans (hx y h1)
      · rw [if_neg hk, if_neg hk, Cplx.add_zero_right]
    · rw [merge_entry_eq e x t h, get_entry_cons, get_entry_cons]
      have kx : TRIPLET.key ({ x with value := x.value.add e.value } : TRIPLET F) = x.key := rfl
      rw [kx, h]
      by_cases hk : x.key = toLex (c, r)
      · rw [if_pos hk, if_pos hk, if_pos hk]
      · rw [if_neg hk, if_neg hk, if_neg hk, Cplx.add_zero_right]
    · rw [merge_entry_gt e x t h, get_entry_cons, get_entry_cons]
      by_cases hk : x.key = toLex (c, r)
      · rw [if_pos hk, if_pos hk, if_neg, Cplx.add_zero_right]
        intro he
        rw [he, ← hk] at h
        exact lt_irrefl _ h
      · rw [if_neg hk, if_neg hk, ih ht]

/-- Compressed storage built from sorted storage is sorted. -/
theorem SPARSE_MATRIX.foldl_merge_entry_sorted (ts acc : List (TRIPLET F))
    (hacc : acc.Pairwise (fun a b => a.key < b.key)) :
    (ts.foldl (fun acc e => merge_entry e acc) acc).Pairwise (fun a b => a.key < b.key) := by
  induction ts generalizing acc with
  | nil => exact hacc
  | cons t ts ih => exact ih (merge_entry t acc) (merge_entry_sorted t acc hacc)

/-- An entry sits at `(r, c)` when its position in column-major order is `(c, r)`. -/
theorem TRIPLET.key_eq_iff (t : TRIPLET F) (r c : Int) :
    t.key = toLex (c, r) ↔ t.row = r ∧ t.col = c := by
  constructor
  · intro h
    have h2 : (t.col, t.row) = (c, r) := by simpa [TRIPLET.key] using h
    exact ⟨(Prod.mk.inj h2).2, (Prod.mk.inj h2).1⟩
  · rintro ⟨h1, h2⟩
    simp [TRIPLET.key, h1, h2]

/-- The entry at `(r, c)` after a list of entries is moved into sorted storage: what
was there plus the values of the entries of the list at `(r, c)`. -/
theorem SPARSE_MATRIX.get_entry_foldl_merge_entry (n : Nat) (lu : Option (LU_ARTIFACT F))
    (ts acc : List (TRIPLET F)) (r c : Int)
    (hacc : acc.Pairwise (fun a b => a.key < b.key)) :
    get_entry (⟨n, ts.foldl (fun acc e => merge_entry e acc) acc, lu⟩ : COMPRESSED_FORM F) r c
      = (get_entry ⟨n, acc, lu⟩ r c).add
          (Cplx.sum ((ts.filter (fun t => decide (t.row = r ∧ t.col = c))).map
            (fun t => t.value))) := by
  induction ts generalizing acc with
  | nil => simp [Cplx.sum, Cplx.add_zero_right]
  | cons t ts ih =>
    rw [List.foldl_cons, ih (merge_entry t acc) (merge_entry_sorted t acc hacc),
      get_entry_merge_entry n lu t acc r c hacc]
    by_cases hk : t.row = r ∧ t.col = c
    · have hk2 : t.key = toLex (c, r) := (TRIPLET.key_eq_iff t r c).mpr hk
      simp [hk, hk2, Cplx.sum, Cplx.add_associates]
    · have hk2 : ¬ t.key = toLex (c, r) := fun h => hk ((TRIPLET.key_eq_iff t r c).mp h)
      simp [hk, hk2, Cplx.sum, Cplx.add_zero_right]

/-- A sequence of `add_entry` calls with indices inside the matrix appends its entries. -/
theorem SPARSE_MATRIX.add_entries_of_valid (m : TRIPLET_FORM F) (calls : List (TRIPLET F))
    (h : ∀ t ∈ calls, 0 ≤ t.row ∧ t.row < m.size ∧ 0 ≤ t.col ∧ t.col < m.size) :
    add_entries m calls = .ok { m with entries := m.entries ++ calls } := by
  induction calls generalizing m with
  | nil => simp [add_entries]
  | cons t ts ih =>
    have ht := h t (List.mem_cons_self t ts)
    simp only [add_entries, add_entry, ht, and_self, if_true]
    rw [ih ⟨m.size, m.entries ++ [(⟨t.row, t.col, t.value⟩ : TRIPLET F)]⟩
      (fun y hy => h y (List.mem_cons_of_mem t hy))]
    simp

/-- A sequence of `add_entry` calls with an index outside the matrix fails. -/
theorem SPARSE_MATRIX.add_entries_of_invalid (m : TRIPLET_FORM F) (calls : List (TRIPLET F))
    (h : ∃ t ∈ calls, ¬ (0 ≤ t.row ∧ t.row < m.size ∧ 0 ≤ t.col ∧ t.col < m.size)) :
    add_entries m calls = .error .InvalidIndex := by
  induction calls generalizing m with
  | nil => obtain ⟨t, ht, -⟩ := h; simp at ht
  | cons t ts ih =>
    by_cases hv : 0 ≤ t.row ∧ t.row < m.size ∧ 0 ≤ t.col ∧ t.col < m.size
    · simp only [add_entries, add_entry, hv, and_self, if_true]
      apply ih ⟨m.size, m.entries ++ [(⟨t.row, t.col, t.value⟩ : TRIPLET F)]⟩
      obtain ⟨y, hy, hny⟩ := h
      rcases List.mem_cons.mp hy with h1 | h1
      · rw [h1] at hny; exact absurd hv hny
      · exact ⟨y, h1, hny⟩
    · simp only [add_entries, add_entry, hv, if_false]

/-- C8: for every finite sequence of `add_entry(row, col, value)` calls on a new matrix
followed by `compress_and_merge_duplicate_entries()`: when all indices are inside the
matrix the calls succeed and the compressed matrix's entry at each `(r, c)` is the sum
of all added values with that `(row, col)`; when an index is outside the sequence fails
with `InvalidIndex`; and the result is the same for every permutation of the sequence. -/
theorem compress_sums_added_entries_in_any_order (n : Nat) (calls : List (TRIPLET F)) :
    ((∀ t ∈ calls, 0 ≤ t.row ∧ t.row < n ∧ 0 ≤ t.col ∧ t.col < n) →
      ∃ m : TRIPLET_FORM F, add_entries (create n) calls = .ok m ∧
        ∀ r c : Int, get_entry (compress_and_merge_duplicate_entries m) r c =
          Cplx.sum ((calls.filter (fun t => decide (t.row = r ∧ t.col = c))).map
            (fun t => t.value))) ∧
    ((∃ t ∈ calls, ¬ (0 ≤ t.row ∧ t.row < n ∧ 0 ≤ t.col ∧ t.col < n)) →
      add_entries (create n : TRIPLET_FORM F) calls = .error .InvalidIndex) ∧
    (∀ calls1 : List (TRIPLET F), calls1.Perm calls →
      (add_entries (create n) calls1).map compress_and_merge_duplicate_entries =
        (add_entries (create n) calls).map compress_and_merge_duplicate_entries) := by
  refine ⟨fun hv => ?_, fun hi => add_entries_of_invalid (create n) calls hi,
    fun calls1 hp => ?_⟩
  · refine ⟨_, add_entries_of_valid (create n) calls hv, fun r c => ?_⟩
    simp only [compress_and_merge_duplicate_entries, create, List.nil_append]
    rw [get_entry_foldl_merge_entry n none calls [] r c List.Pairwise.nil, get_entry_nil,
      Cplx.add_zero_left]
  · by_cases hv : ∀ t ∈ calls, 0 ≤ t.row ∧ t.row < n ∧ 0 ≤ t.col ∧ t.col < n
    · have hv1 : ∀ t ∈ calls1, 0 ≤ t.row ∧ t.row < n ∧ 0 ≤ t.col ∧ t.col < n :=
        fun t ht => hv t (hp.mem_iff.mp ht)
      rw [add_entries_of_valid (create n) calls hv, add_entries_of_valid (create n) calls1 hv1]
      simp only [Except.map, compress_and_merge_duplicate_entries, create, List.nil_append]
      rw [List.Perm.foldl_eq' hp (fun x _ y _ z => merge_entry_comm y x z)]
    · have hi : ∃ t ∈ calls, ¬ (0 ≤ t.row ∧ t.row < n ∧ 0 ≤ t.col ∧ t.col < n) := by
        push_neg at hv
        obtain ⟨t, ht, h2⟩ := hv
        exact ⟨t, ht, fun h => absurd h.2.2.2 (not_lt.mpr (h2 h.1 h.2.1 h.2.2.1))⟩
      have hi1 : ∃ t ∈ calls1, ¬ (0 ≤ t.row ∧ t.row < n ∧ 0 ≤ t.col ∧ t.col < n) := by
        obtain ⟨t, ht, h2⟩ := hi
        exact ⟨t, hp.mem_iff.mpr ht, h2⟩
      rw [add_entries_of_invalid (create n) calls hi,
        add_entries_of_invalid (create n) calls1 hi1]

end

/-! ## Sparse matrix: factorization and solution -/

section
variable {F : Type} [LinearOrderedField F]

open SPARSE_MATRIX

/-- The pivot chosen among the candidate rows is not zero. -/
theorem SPARSE_MATRIX.choose_pivot_ne_zero {n : Nat} (tolerance : F)
    (A : Matrix (Fin (n + 1)) (Fin (n + 1)) F) (p : Fin (n + 1))
    (h : choose_pivot tolerance A = some p) : A p 0 ≠ 0 := by
  unfold choose_pivot at h
  split_ifs at h with h1 h2
  · have hp : p = 0 := by simpa using h.symm
    rw [hp]
    exact abs_pos.mp h2.1
  · have h3 := List.find?_some h
    have h4 : |A p 0| = column_max A := by simpa using h3
    have h5 : 0 < |A p 0| := by rw [h4]; exact not_le.mp h1
    exact abs_pos.mp h5

/-- One elimination step: the determinant is the pivot times the determinant of what
remains. -/
theorem SPARSE_MATRIX.det_elimination_step {n : Nat}
    (M : Matrix (Fin (n + 1)) (Fin (n + 1)) F) (h : M 0 0 ≠ 0) :
    M.det = M 0 0 * Matrix.det
      (fun i j : Fin n => M i.succ j.succ - M i.succ 0 / M 0 0 * M 0 j.succ) := by
  let c : Fin (n + 1) → F := Fin.cases 0 (fun i => M i.succ 0 / M 0 0)
  let B : Matrix (Fin (n + 1)) (Fin (n + 1)) F := fun i j => M i j - c i * M 0 j
  have hB0 : ∀ j, B 0 j = M 0 j := by
    intro j; simp [B, c]
  have hdet : M.det = B.det := by
    apply Matrix.det_eq_of_forall_row_eq_smul_add_const c 0 (by simp [c])
    intro i j
    rw [hB0]
    simp [B]
  have hcol : ∀ i : Fin n, B i.succ 0 = 0 := by
    intro i
    simp only [B, c, Fin.cases_succ]
    field_simp
  rw [hdet, Matrix.det_succ_column_zero, Fin.sum_univ_succ]
  simp only [hcol, mul_zero, zero_mul, Finset.sum_const_zero, add_zero, Fin.val_zero,
    pow_zero, one_mul, hB0, Fin.succAbove_zero]
  congr 1

/-- The numeric factorization fails with `SingularMatrix` only. -/
theorem SPARSE_MATRIX.numeric_factorization_error (tolerance : F) :
    ∀ (n : Nat) (A : Matrix (Fin n) (Fin n) F) (e : ERROR),
      numeric_factorization tolerance n A = .error e → e = .SingularMatrix := by
  intro n
  induction n with
  | zero => intro A e h; simp [numeric_factorization] at h
  | succ n ih =>
    intro A e h
    unfold numeric_factorization at h
    cases hp : choose_pivot tolerance A with
    | none => rw [hp] at h; simp at h; exact h.symm
    | some p =>
      rw [hp] at h
      simp only at h
      split at h
      · rename_i e1 he1
        have := ih _ e1 he1
        simp at h
        rw [← h]; exact this
      · simp at h

/-- A numeric factorization that succeeds has one step per column, all its pivots are
non-zero, and the determinant of the matrix is not zero. -/
theorem SPARSE_MATRIX.numeric_factorization_ok (tolerance : F) :
    ∀ (n : Nat) (A : Matrix (Fin n) (Fin n) F) (steps : List (LU_STEP F)),
      numeric_factorization tolerance n A = .ok steps →
        A.det ≠ 0 ∧ steps.length = n ∧ ∀ st ∈ steps, st.pivot ≠ 0 := by
  intro n
  induction n with
  | zero =>
    intro A steps h
    simp only [numeric_factorization, Except.ok.injEq] at h
    subst h
    simp
  | succ n ih =>
    intro A steps h
    unfold numeric_factorization at h
    cases hp : choose_pivot tolerance A with
    | none => rw [hp] at h; simp at h
    | some p =>
      rw [hp] at h
      simp only at h
      split at h
      · simp at h
      · rename_i rest hrest
        simp only [Except.ok.injEq] at h
        subst h
        obtain ⟨hdet, hlen, hpiv⟩ := ih _ rest hrest
        have hp0 : A p 0 ≠ 0 := choose_pivot_ne_zero tolerance A p hp
        have h00 : (A.submatrix (Equiv.swap 0 p) id) 0 0 ≠ 0 := by
          simpa [Matrix.submatrix] using hp0
        refine ⟨?_, by simp [hlen], ?_⟩
        · have h1 := det_elimination_step (A.submatrix (Equiv.swap 0 p) id) h00
          have h2 : (A.submatrix (Equiv.swap 0 p) id).det ≠ 0 := by
            rw [h1]; exact mul_ne_zero h00 hdet
          rw [Matrix.det_permute] at h2
          exact right_ne_zero_of_mul h2
        · intro st hst
          rcases List.mem_cons.mp hst with h1 | h1
          · rw [h1]; exact h00
          · exact hpiv st h1

/-- C10: `LU_factorization(order, tolerance)` fails with `SingularMatrix` for every
singular matrix (determinant zero: structurally or numerically singular), whatever the
ordering strategy, `order` and `tolerance`; and when it succeeds the matrix owns
factors with one step per column whose pivots are all non-zero, so that the solution
never divides by zero. -/
theorem LU_factorization_fails_on_singular (O : ORDERING F) (order : Int) (tolerance : F)
    (m : COMPRESSED_FORM F) :
    ((real_matrix m).det = 0 →
      LU_factorization O order tolerance m = .error .SingularMatrix) ∧
    (∀ m1, LU_factorization O order tolerance m = .ok m1 →
      (real_matrix m).det ≠ 0 ∧ m1.size = m.size ∧ m1.entries = m.entries ∧
      ∃ lu, m1.LU = some lu ∧ lu.steps.length = m.size ∧ ∀ st ∈ lu.steps, st.pivot ≠ 0) := by
  have key : ∀ steps, numeric_factorization tolerance m.size
      ((real_matrix m).submatrix id (O.reorder order m.size (real_matrix m))) = .ok steps →
      (real_matrix m).det ≠ 0 ∧ steps.length = m.size ∧ ∀ st ∈ steps, st.pivot ≠ 0 := by
    intro steps h
    obtain ⟨h1, h2, h3⟩ := numeric_factorization_ok tolerance _ _ steps h
    rw [Matrix.det_permute'] at h1
    exact ⟨right_ne_zero_of_mul h1, h2, h3⟩
  constructor
  · intro hdet
    simp only [LU_factorization]
    cases h : numeric_factorization tolerance m.size
      ((real_matrix m).submatrix id (O.reorder order m.size (real_matrix m))) with
    | error e =>
      simp only [h]
      rw [numeric_factorization_error tolerance _ _ e h]
    | ok steps => exact absurd hdet (key steps h).1
  · intro m1 hm1
    simp only [LU_factorization] at hm1
    cases h : numeric_factorization tolerance m.size
      ((real_matrix m).submatrix id (O.reorder order m.size (real_matrix m))) with
    | error e => rw [h] at hm1; simp at hm1
    | ok steps =>
      rw [h] at hm1
      simp only [Except.ok.injEq] at hm1
      subst hm1
      obtain ⟨h1, h2, h3⟩ := key steps h
      exact ⟨h1, rfl, rfl, _, rfl, h2, h3⟩

/-- C9: `solve_Ax_eq_b(b)` fails with `NotFactorized` when the matrix has no valid
factorization (also right after compression and after a change of a value), fails with
`DimensionMismatch` when a factorization exists and `b.size() != get_matrix_size()`,
fails in any case when the sizes differ, and returns a solution vector when, and only
when, a factorization exists and the sizes agree. -/
theorem solve_Ax_eq_b_reports_failures (m : COMPRESSED_FORM F) (b : List F) :
    (m.LU = none → solve_Ax_eq_b m b = .error .NotFactorized) ∧
    (m.LU ≠ none → b.length ≠ get_matrix_size m →
      solve_Ax_eq_b m b = .error .DimensionMismatch) ∧
    (b.length ≠ get_matrix_size m → ∃ e, solve_Ax_eq_b m b = .error e) ∧
    (∀ x, solve_Ax_eq_b m b = .ok x → m.LU ≠ none ∧ b.length = get_matrix_size m) ∧
    (m.LU ≠ none → b.length = get_matrix_size m → ∃ x, solve_Ax_eq_b m b = .ok x) ∧
    (∀ t : TRIPLET_FORM F,
      solve_Ax_eq_b (compress_and_merge_duplicate_entries t) b = .error .NotFactorized) ∧
    (∀ (index : Nat) (value : F),
      solve_Ax_eq_b (change_real_entry_value m index value) b = .error .NotFactorized) := by
  refine ⟨?_, ?_, ?_, ?_, ?_, ?_, ?_⟩
  · intro h; simp [solve_Ax_eq_b, h]
  · intro h hb
    cases hlu : m.LU with
    | none => exact absurd hlu h
    | some lu => simp [solve_Ax_eq_b, hlu, hb]
  · intro hb
    cases hlu : m.LU with
    | none => exact ⟨.NotFactorized, by simp [solve_Ax_eq_b, hlu]⟩
    | some lu => exact ⟨.DimensionMismatch, by simp [solve_Ax_eq_b, hlu, hb]⟩
  · intro x hx
    cases hlu : m.LU with
    | none => simp [solve_Ax_eq_b, hlu] at hx
    | some lu =>
      by_cases hb : b.length = get_matrix_size m
      · exact ⟨by simp, hb⟩
      · simp [solve_Ax_eq_b, hlu, hb] at hx
  · intro h hb
    cases hlu : m.LU with
    | none => exact absurd hlu h
    | some lu =>
      exact ⟨unapply_reorder lu.reorder (solve_steps lu.steps b),
        by simp [solve_Ax_eq_b, hlu, hb]⟩
  · intro t; simp [solve_Ax_eq_b, compress_and_merge_duplicate_entries]
  · intro index value; simp [solve_Ax_eq_b, change_real_entry_value]

end

open SPARSE_MATRIX

/-! ## Sparse matrix: the sample matrices -/

/-- Column-major order of two entries, on their indices. -/
theorem TRIPLET.key_lt_iff {F : Type} (a b : TRIPLET F) :
    a.key < b.key ↔ a.col < b.col ∨ (a.col = b.col ∧ a.row < b.row) := by
  simp [TRIPLET.key, Prod.Lex.lt_iff]

/-- Two entries are at the same position when their indices agree. -/
theorem TRIPLET.key_eq_key_iff {F : Type} [LinearOrderedField F] (a b : TRIPLET F) :
    a.key = b.key ↔ a.row = b.row ∧ a.col = b.col := by
  constructor
  · exact TRIPLET.eq_of_key_eq a b
  · rintro ⟨h1, h2⟩
    simp [TRIPLET.key, h1, h2]

/-- The compressed storage of the sample matrix with a zero row. -/
theorem sampleZeroRowMatrix_eq :
    sampleZeroRowMatrix ℚ = ⟨2, [⟨0, 0, ⟨1, 0⟩⟩, ⟨0, 1, ⟨2, 0⟩⟩], none⟩ := by
  simp [sampleZeroRowMatrix, compress_and_merge_duplicate_entries, merge_entry,
    TRIPLET.key_lt_iff, TRIPLET.key_eq_key_iff]

/-- The compressed storage of the sample matrix: the two values added at `(1, 1)` are
merged into one entry. -/
theorem sampleMatrix_eq :
    sampleMatrix ℚ = ⟨2, [⟨1, 0, ⟨2, 0⟩⟩, ⟨0, 1, ⟨1, 0⟩⟩, ⟨1, 1, ⟨3, 0⟩⟩], none⟩ := by
  simp [sampleMatrix, compress_and_merge_duplicate_entries, merge_entry,
    TRIPLET.key_lt_iff, TRIPLET.key_eq_key_iff, Cplx.add]
  norm_num

/-- The compressed storage of the sample 1x1 matrix. -/
theorem sampleOneByOneMatrix_eq :
    sampleOneByOneMatrix ℚ = ⟨1, [⟨0, 0, ⟨5, 0⟩⟩], none⟩ := by
  simp [sampleOneByOneMatrix, compress_and_merge_duplicate_entries, merge_entry]

/-- The sample matrix with a zero row is singular. -/
theorem sampleZeroRowMatrix_det : (real_matrix (sampleZeroRowMatrix ℚ)).det = 0 := by
  apply Matrix.det_eq_zero_of_row_eq_zero (⟨1, by decide⟩ : Fin (sampleZeroRowMatrix ℚ).size)
  have h : ∀ c : Int, get_entry (sampleZeroRowMatrix ℚ) 1 c = Cplx.zero := by
    intro c
    rw [sampleZeroRowMatrix_eq]
    simp only [get_entry_cons, get_entry_nil, TRIPLET.key_eq_iff]
    simp
  intro j
  simp only [real_matrix]
  erw [h]
  rfl

/-- The factorization of the sample 1x1 matrix `(5)` succeeds, with the pivot 5. -/
theorem LU_factorization_sampleOneByOneMatrix :
    LU_factorization (naturalOrdering ℚ) 1 (1 / 1000000) (sampleOneByOneMatrix ℚ) =
      .ok ⟨1, [⟨0, 0, ⟨5, 0⟩⟩], some ⟨[0], [⟨0, 5, [], []⟩]⟩⟩ := by
  rw [sampleOneByOneMatrix_eq]
  have hf : List.finRange 1 = [0] := by decide
  have h00 : real_matrix (⟨1, [⟨0, 0, ⟨5, 0⟩⟩], none⟩ : COMPRESSED_FORM ℚ) 0 0 = 5 := by
    simp only [real_matrix, get_entry_cons, get_entry_nil, TRIPLET.key_eq_iff]
    simp
  have hm : column_max (real_matrix (⟨1, [⟨0, 0, ⟨5, 0⟩⟩], none⟩ : COMPRESSED_FORM ℚ)) = 5 := by
    simp only [column_max, hf, List.foldl]
    erw [h00]
    norm_num
  have hp : choose_pivot (1 / 1000000)
      (real_matrix (⟨1, [⟨0, 0, ⟨5, 0⟩⟩], none⟩ : COMPRESSED_FORM ℚ)) = some 0 := by
    simp only [choose_pivot, hm, h00]
    norm_num
  simp only [LU_factorization, naturalOrdering, Equiv.coe_refl, Matrix.submatrix_id_id,
    numeric_factorization, hp]
  simp [h00]

/-- Witness of C8: the entries `1` at `(1, 1)`, `1` at `(0, 1)`, `2` at `(1, 0)` and `2`
at `(1, 1)` added to a new 2x2 matrix; after compression the entry at `(1, 1)` is the
sum of the two values added there. -/
theorem compress_sums_added_entries_in_any_order_witness :
    ∃ m : TRIPLET_FORM ℚ,
      add_entries (create 2)
        [⟨1, 1, ⟨1, 0⟩⟩, ⟨0, 1, ⟨1, 0⟩⟩, ⟨1, 0, ⟨2, 0⟩⟩, ⟨1, 1, ⟨2, 0⟩⟩] = .ok m ∧
      get_entry (compress_and_merge_duplicate_entries m) 1 1 = ⟨3, 0⟩ := by
  obtain ⟨m, hm, he⟩ := (compress_sums_added_entries_in_any_order (F := ℚ) 2
    [⟨1, 1, ⟨1, 0⟩⟩, ⟨0, 1, ⟨1, 0⟩⟩, ⟨1, 0, ⟨2, 0⟩⟩, ⟨1, 1, ⟨2, 0⟩⟩]).1 (by
      intro t ht
      simp only [List.mem_cons, List.mem_singleton, List.not_mem_nil, or_false] at ht
      rcases ht with h | h | h | h <;> subst h <;> decide)
  refine ⟨m, hm, ?_⟩
  rw [he 1 1]
  simp [Cplx.sum, Cplx.add, Cplx.zero]
  norm_num

/-- Witness of C9: the sample 1x1 matrix `(5)`.  Before factorization the solution
fails with `NotFactorized`; with its factors, a right-hand side of size 2 fails with
`DimensionMismatch` and the right-hand side `(10)` gives the solution `(2)`. -/
theorem solve_Ax_eq_b_reports_failures_witness :
    solve_Ax_eq_b (sampleOneByOneMatrix ℚ) [10] = .error .NotFactorized ∧
    solve_Ax_eq_b (⟨1, [⟨0, 0, ⟨5, 0⟩⟩], some ⟨[0], [⟨0, 5, [], []⟩]⟩⟩ : COMPRESSED_FORM ℚ)
      [1, 2] = .error .DimensionMismatch ∧
    solve_Ax_eq_b (⟨1, [⟨0, 0, ⟨5, 0⟩⟩], some ⟨[0], [⟨0, 5, [], []⟩]⟩⟩ : COMPRESSED_FORM ℚ)
      [10] = .ok [2] := by
  refine ⟨?_, ?_, ?_⟩
  · exact (solve_Ax_eq_b_reports_failures (sampleOneByOneMatrix ℚ) [10]).1
      (by rw [sampleOneByOneMatrix_eq])
  · exact (solve_Ax_eq_b_reports_failures _ [1, 2]).2.1 (by simp) (by simp [get_matrix_size])
  · simp [solve_Ax_eq_b, get_matrix_size, unapply_reorder, solve_steps, swap_entries,
      List.range_succ, List.indexOf_cons]
    norm_num

/-- Witness of C10: the 2x2 matrix with rows `(1, 2)` and `(0, 0)`, a matrix with a zero
row, fails to factorize with `SingularMatrix`. -/
theorem LU_factorization_fails_on_singular_witness :
    LU_factorization (naturalOrdering ℚ) 1 (1 / 1000000) (sampleZeroRowMatrix ℚ) =
      .error .SingularMatrix :=
  (LU_factorization_fails_on_singular (naturalOrdering ℚ) 1 (1 / 1000000)
    (sampleZeroRowMatrix ℚ)).1 sampleZeroRowMatrix_det

/-! ## The API utilities -/

/-- What `api_get_toolkit_bool_data` returns for a parameter it does not support: `true`,
with the shared buffer cleared and the not-supported text shown. -/
theorem api_get_toolkit_bool_data_of_not_supported (size : Nat) (parameter_name : String)
    (toolkit : TOOLKIT) (h : string2upper parameter_name ≠ "DETAILED LOG LOGIC") :
    (api_get_toolkit_bool_data size parameter_name toolkit).1 = true := by
  simp [api_get_toolkit_bool_data, h, TOOLKIT.steps_char_buffer_as_bool]

/-- C13, at the input `"SBASE"`: the parameter is not `DETAILED LOG LOGIC`,
`api_get_toolkit_bool_data` shows the text that promises `False` and returns `true`. -/
theorem api_get_toolkit_bool_data_of_SBASE :
    string2upper "SBASE" ≠ "DETAILED LOG LOGIC" ∧
    (api_get_toolkit_bool_data 1000 "SBASE" sampleToolkit).1 = true ∧
    (api_get_toolkit_bool_data 1000 "SBASE" sampleToolkit).2.shown =
      ["Parameter 'SBASE' is not supported with api api_get_toolkit_bool_data.\n" ++
       "Nothing will be chaged.\n" ++
       "If return value is expected, 0/0.0/False/EMPTY STRING will be returned"] := by
  exact ⟨by decide, rfl, rfl⟩

/-- C14: for every parameter name whose upper-cased form is none of `TOOLKIT NAME`,
`CASE INFORMATION`, `CASE ADDITIONAL INFORMATION`, `api_get_toolkit_string_data`
returns the empty text, whatever the shared buffer of the toolkit held before. -/
theorem api_get_toolkit_string_data_of_not_supported (size : Nat) (parameter_name : String)
    (toolkit : TOOLKIT)
    (h : string2upper parameter_name ∉
      ["TOOLKIT NAME", "CASE INFORMATION", "CASE ADDITIONAL INFORMATION"]) :
    (api_get_toolkit_string_data size parameter_name toolkit).1 = "" ∧
    (api_get_toolkit_string_data size parameter_name toolkit).2.steps_char_buffer = "" := by
  simp only [List.mem_cons, List.mem_singleton, List.not_mem_nil, or_false, not_or] at h
  obtain ⟨h1, h2, h3⟩ := h
  simp [api_get_toolkit_string_data, h1, h2, h3, show_parameter_not_supported_with_api,
    TOOLKIT.show_information_with_leading_time_stamp, snprintf]

theorem api_get_toolkit_string_data_of_not_supported_witness :
    sampleToolkit.steps_char_buffer = "3 bus case" ∧
    (api_get_toolkit_string_data 1000 "sbase" sampleToolkit).1 = "" ∧
    (api_get_toolkit_string_data 1000 "sbase" sampleToolkit).2.steps_char_buffer = "" :=
  ⟨rfl, api_get_toolkit_string_data_of_not_supported 1000 "sbase" sampleToolkit (by decide)⟩

/-- The names of two kinds of device are the same for one kind only. -/
theorem DEVICE_KIND.name_injective (a b : DEVICE_KIND) (h : a.name = b.name) : a = b := by
  cases a <;> cases b <;> first | rfl | (exact absurd h (by decide))

/-- C15: `api_get_device_count` returns, for a device type whose upper-cased form is the
name of one of the eleven kinds of device, the count the database keeps for that kind,
and 0 for every other device type. -/
theorem api_get_device_count_dispatch (size : Nat) (device_type : String) (toolkit : TOOLKIT) :
    (∀ kind : DEVICE_KIND, string2upper device_type = kind.name →
      (api_get_device_count size device_type toolkit).1 = toolkit.psdb.count kind) ∧
    ((∀ kind : DEVICE_KIND, string2upper device_type ≠ kind.name) →
      (api_get_device_count size device_type toolkit).1 = 0) := by
  constructor
  · intro kind h
    cases kind <;>
      simp [api_get_device_count, h, DEVICE_KIND.name, TOOLKIT.get_power_system_database,
        DATABASE_TABLES.get_bus_count, DATABASE_TABLES.get_generator_count,
        DATABASE_TABLES.get_wt_generator_count, DATABASE_TABLES.get_pv_unit_count,
        DATABASE_TABLES.get_load_count, DATABASE_TABLES.get_fixed_shunt_count,
        DATABASE_TABLES.get_line_count, DATABASE_TABLES.get_transformer_count,
        DATABASE_TABLES.get_hvdc_count, DATABASE_TABLES.get_equivalent_device_count,
        DATABASE_TABLES.get_energy_storage_count]
  · intro h
    have h1 := h .BUS
    have h2 := h .GENERATOR
    have h3 := h .WT_GENERATOR
    have h4 := h .PV_UNIT
    have h5 := h .LOAD
    have h6 := h .FIXED_SHUNT
    have h7 := h .LINE
    have h8 := h .TRANSFORMER
    have h9 := h .HVDC
    have h10 := h .EQUIVALENT_DEVICE
    have h11 := h .ENERGY_STORAGE
    simp only [DEVICE_KIND.name] at h1 h2 h3 h4 h5 h6 h7 h8 h9 h10 h11
    simp [api_get_device_count, h1, h2, h3, h4, h5, h6, h7, h8, h9, h10, h11]

theorem api_get_device_count_dispatch_witness :
    (api_get_device_count 1000 "Line" sampleToolkit).1 = 5 ∧
    (api_get_device_count 1000 "AREA" sampleToolkit).1 = 0 :=
  ⟨(api_get_device_count_dispatch 1000 "Line" sampleToolkit).1 .LINE (by decide),
   (api_get_device_count_dispatch 1000 "AREA" sampleToolkit).2
     (fun kind => by cases kind <;> decide)⟩
/-- C16: `api_set_device_capacity` leaves the database as it is when the upper-cased
device type is none of the eleven names; for the name of a kind of device it sets the
capacity of that kind to `cap` and leaves the capacity of every other kind, the counts
and the texts of the case as they are. -/
theorem api_set_device_capacity_frame (size : Nat) (device_type : String) (cap : Nat)
    (toolkit : TOOLKIT) :
    ((∀ kind : DEVICE_KIND, string2upper device_type ≠ kind.name) →
      (api_set_device_capacity size device_type cap toolkit).psdb = toolkit.psdb) ∧
    (∀ kind : DEVICE_KIND, string2upper device_type = kind.name →
      (api_set_device_capacity size device_type cap toolkit).psdb.capacity kind = cap ∧
      (∀ other : DEVICE_KIND, other ≠ kind →
        (api_set_device_capacity size device_type cap toolkit).psdb.capacity other =
          toolkit.psdb.capacity other) ∧
      (api_set_device_capacity size device_type cap toolkit).psdb.count = toolkit.psdb.count ∧
      (api_set_device_capacity size device_type cap toolkit).psdb.case_information =
        toolkit.psdb.case_information ∧
      (api_set_device_capacity size device_type cap toolkit).psdb.case_additional_information =
        toolkit.psdb.case_additional_information) := by
  constructor
  · intro h
    have h1 := h .BUS
    have h2 := h .GENERATOR
    have h3 := h .WT_GENERATOR
    have h4 := h .PV_UNIT
    have h5 := h .LOAD
    have h6 := h .FIXED_SHUNT
    have h7 := h .LINE
    have h8 := h .TRANSFORMER
    have h9 := h .HVDC
    have h10 := h .EQUIVALENT_DEVICE
    have h11 := h .ENERGY_STORAGE
    simp only [DEVICE_KIND.name] at h1 h2 h3 h4 h5 h6 h7 h8 h9 h10 h11
    simp [api_set_device_capacity, h1, h2, h3, h4, h5, h6, h7, h8, h9, h10, h11,
      show_parameter_not_supported_with_api, TOOLKIT.show_information_with_leading_time_stamp]
  · intro kind h
    have hset : (api_set_device_capacity size device_type cap toolkit).psdb =
        toolkit.psdb.set_capacity kind cap := by
      cases kind <;>
        simp [api_set_device_capacity, h, DEVICE_KIND.name, TOOLKIT.get_power_system_database,
          DATABASE_TABLES.set_bus_capacity, DATABASE_TABLES.set_generator_capacity,
          DATABASE_TABLES.set_wt_generator_capacity, DATABASE_TABLES.set_pv_unit_capacity,
          DATABASE_TABLES.set_load_capacity, DATABASE_TABLES.set_fixed_shunt_capacity,
          DATABASE_TABLES.set_line_capacity, DATABASE_TABLES.set_transformer_capacity,
          DATABASE_TABLES.set_hvdc_capacity, DATABASE_TABLES.set_equivalent_device_capacity,
          DATABASE_TABLES.set_energy_storage_capacity]
    rw [hset]
    refine ⟨by simp [DATABASE_TABLES.set_capacity], ?_, rfl, rfl, rfl⟩
    intro other ho
    simp [DATABASE_TABLES.set_capacity, Function.update_noteq ho]

theorem api_set_device_capacity_frame_witness :
    (api_set_device_capacity 1000 "AREA" 50 sampleToolkit).psdb = sampleToolkit.psdb ∧
    (api_set_device_capacity 1000 "pv unit" 50 sampleToolkit).psdb.capacity .PV_UNIT = 50 ∧
    (api_set_device_capacity 1000 "pv unit" 50 sampleToolkit).psdb.capacity .BUS = 10 :=
  ⟨(api_set_device_capacity_frame 1000 "AREA" 50 sampleToolkit).1
     (fun kind => by cases kind <;> decide),
   ((api_set_device_capacity_frame 1000 "pv unit" 50 sampleToolkit).2 .PV_UNIT (by decide)).1,
   ((api_set_device_capacity_frame 1000 "pv unit" 50 sampleToolkit).2 .PV_UNIT
     (by decide)).2.1 .BUS (by decide)⟩

section
variable {F : Type} [LinearOrderedField F]

/-- C17: `set_owner_of_device` with a parameter name that reads `OWNERk` in upper case
(`k` from 1 to 4) leaves the ownership of a device with at least `k` owners as it is,
and so it does with every parameter name that reads none of `OWNER1` .. `OWNER4`. -/
theorem set_owner_of_device_keeps_ownership (size : Nat) (device : DEVICE F)
    (parameter_name : String) (value : Int) (toolkit : TOOLKIT) :
    (∀ k : Fin 4, string2upper parameter_name = OWNER_parameter k →
      (k : Nat) + 1 ≤ device.get_owner_count →
      (set_owner_of_device size device parameter_name value toolkit).1 = device) ∧
    ((∀ k : Fin 4, string2upper parameter_name ≠ OWNER_parameter k) →
      (set_owner_of_device size device parameter_name value toolkit).1 = device) := by
  constructor
  · intro k h hn
    fin_cases k <;> simp [OWNER_parameter] at h hn <;>
      simp [set_owner_of_device, h, hn]
  · intro h
    have h1 := h 0
    have h2 := h 1
    have h3 := h 2
    have h4 := h 3
    simp [OWNER_parameter] at h1 h2 h3 h4
    simp [set_owner_of_device, h1, h2, h3, h4]

theorem set_owner_of_device_keeps_ownership_witness :
    (set_owner_of_device 1000 (sampleDevice ℚ) "OWNER2" 5 sampleToolkit).1 = sampleDevice ℚ ∧
    (set_owner_of_device 1000 (sampleDevice ℚ) "AREA" 5 sampleToolkit).1 = sampleDevice ℚ :=
  ⟨(set_owner_of_device_keeps_ownership 1000 (sampleDevice ℚ) "OWNER2" 5 sampleToolkit).1 1
     (by decide) (by decide),
   (set_owner_of_device_keeps_ownership 1000 (sampleDevice ℚ) "AREA" 5 sampleToolkit).2
     (fun k => by fin_cases k <;> decide)⟩

end
section
variable {F : Type} [LinearOrderedField F]

/-- The owner at an index below the count is one of the owners. -/
theorem OWNERSHIP.get_owner_of_index_mem (os : OWNERSHIP F) (k : Nat)
    (hk : k < os.get_owner_count) : os.get_owner_of_index k ∈ os.pairs.map Prod.fst := by
  unfold OWNERSHIP.get_owner_count at hk
  simp only [OWNERSHIP.get_owner_of_index, List.get?_eq_getElem?, List.getElem?_eq_getElem hk]
  exact List.mem_map_of_mem _ (List.getElem_mem hk)

/-- Appending to the owner of index `k` the increment `value - f_k` makes the fraction
of that owner `value` and keeps every owner and every other fraction. -/
theorem OWNERSHIP.append_increment (os : OWNERSHIP F) (k : Nat) (value : F)
    (hk : k < os.get_owner_count) :
    (os.append_owner_and_its_fraction (os.get_owner_of_index k)
      (value - os.get_fraction_of_owner_of_index k)).get_fraction_of_owner_of_index k = value ∧
    (∀ j : Nat, j ≠ k →
      (os.append_owner_and_its_fraction (os.get_owner_of_index k)
        (value - os.get_fraction_of_owner_of_index k)).get_fraction_of_owner_of_index j =
        os.get_fraction_of_owner_of_index j) ∧
    (∀ j : Nat,
      (os.append_owner_and_its_fraction (os.get_owner_of_index k)
        (value - os.get_fraction_of_owner_of_index k)).get_owner_of_index j =
        os.get_owner_of_index j) := by
  have hmem := os.get_owner_of_index_mem k hk
  unfold OWNERSHIP.get_owner_count at hk
  obtain ⟨o, ho⟩ : ∃ o, o = os.get_owner_of_index k := ⟨_, rfl⟩
  obtain ⟨f, hf⟩ : ∃ f, f = os.get_fraction_of_owner_of_index k := ⟨_, rfl⟩
  rw [← ho] at hmem
  rw [← ho, ← hf]
  have hown : o = (os.pairs[k]).1 := by
    simp [ho, OWNERSHIP.get_owner_of_index, List.getElem?_eq_getElem hk]
  have hfrac : f = (os.pairs[k]).2 := by
    simp [hf, OWNERSHIP.get_fraction_of_owner_of_index, List.getElem?_eq_getElem hk]
  have hpairs : ∀ j : Nat, (os.append_owner_and_its_fraction o (value - f)).pairs[j]? =
      (os.pairs[j]?).map (fun p => if p.1 = o then (p.1, p.2 + (value - f)) else p) := by
    intro j
    simp [OWNERSHIP.append_owner_and_its_fraction, hmem, OWNERSHIP.accumulate]
  refine ⟨?_, ?_, ?_⟩
  · simp only [OWNERSHIP.get_fraction_of_owner_of_index, List.get?_eq_getElem?, hpairs,
      List.getElem?_eq_getElem hk, Option.map_some']
    simp [hown, hfrac]
  · intro j hj
    by_cases hjl : j < os.pairs.length
    · have hne : (os.pairs[j]).1 ≠ o := by
        intro he
        have hnd := os.owners_distinct
        have : j = k := by
          have hjm : j < (os.pairs.map Prod.fst).length := by simpa using hjl
          have hkm : k < (os.pairs.map Prod.fst).length := by simpa using hk
          have h1 : (os.pairs.map Prod.fst)[j] = (os.pairs.map Prod.fst)[k] := by
            simpa [hown] using he
          exact (List.Nodup.getElem_inj_iff hnd).mp h1
        exact hj this
      simp only [OWNERSHIP.get_fraction_of_owner_of_index, List.get?_eq_getElem?, hpairs,
        List.getElem?_eq_getElem hjl, Option.map_some']
      simp [hne]
    · have hnone : os.pairs[j]? = none := List.getElem?_eq_none (by omega)
      simp [OWNERSHIP.get_fraction_of_owner_of_index, hpairs, hnone]
  · intro j
    by_cases hjl : j < os.pairs.length
    · simp only [OWNERSHIP.get_owner_of_index, List.get?_eq_getElem?, hpairs,
        List.getElem?_eq_getElem hjl, Option.map_some']
      by_cases he : (os.pairs[j]).1 = o <;> simp [he]
    · have hnone : os.pairs[j]? = none := List.getElem?_eq_none (by omega)
      simp [OWNERSHIP.get_owner_of_index, hpairs, hnone]

/-- C18: `set_owner_fraction_of_device` with a parameter name that reads `FRACk` in upper
case (`k` from 1 to 4) leaves a device with fewer than `k` owners as it is; on a
device with at least `k` owners it appends the `k`-th owner with the increment
`value - f_k`, after which the fraction of the `k`-th owner is `value`, and the owners
and the fraction of every other owner are what they were. -/
theorem set_owner_fraction_of_device_sets_fraction (size : Nat) (device : DEVICE F)
    (parameter_name : String) (value : F) (toolkit : TOOLKIT) (k : Fin 4)
    (h : string2upper parameter_name = FRAC_parameter k) :
    (device.get_owner_count < (k : Nat) + 1 →
      (set_owner_fraction_of_device size device parameter_name value toolkit).1 = device) ∧
    ((k : Nat) + 1 ≤ device.get_owner_count →
      (set_owner_fraction_of_device size device parameter_name value toolkit).1.ownership =
        device.ownership.append_owner_and_its_fraction (device.get_owner_of_index k)
          (value - device.get_fraction_of_owner_of_index k) ∧
      (set_owner_fraction_of_device size device parameter_name value
        toolkit).1.get_fraction_of_owner_of_index k = value ∧
      (∀ j : Nat, j ≠ (k : Nat) →
        (set_owner_fraction_of_device size device parameter_name value
          toolkit).1.get_fraction_of_owner_of_index j =
          device.get_fraction_of_owner_of_index j) ∧
      (∀ j : Nat,
        (set_owner_fraction_of_device size device parameter_name value
          toolkit).1.get_owner_of_index j = device.get_owner_of_index j)) := by
  constructor
  · intro hn
    fin_cases k <;> simp [FRAC_parameter] at h hn <;>
      simp [set_owner_fraction_of_device, h, hn]
  · intro hn
    have hown : (set_owner_fraction_of_device size device parameter_name value
        toolkit).1.ownership =
        device.ownership.append_owner_and_its_fraction (device.get_owner_of_index k)
          (value - device.get_fraction_of_owner_of_index k) := by
      fin_cases k <;> simp [FRAC_parameter] at h hn <;>
        simp [set_owner_fraction_of_device, h, Nat.not_lt.mpr hn, DEVICE.set_ownership,
          DEVICE.get_ownership, neg_add_eq_sub]
    have hk : (k : Nat) < device.ownership.get_owner_count := hn
    have hinc := device.ownership.append_increment k value hk
    refine ⟨hown, ?_, ?_, ?_⟩
    · simp only [DEVICE.get_fraction_of_owner_of_index, hown]
      exact hinc.1
    · intro j hj
      simp only [DEVICE.get_fraction_of_owner_of_index, hown]
      exact hinc.2.1 j hj
    · intro j
      simp only [DEVICE.get_owner_of_index, hown]
      exact hinc.2.2 j

theorem set_owner_fraction_of_device_sets_fraction_witness :
    (set_owner_fraction_of_device 1000 (sampleDeviceWithoutOwner ℚ) "frac1" (1 / 2)
      sampleToolkit).1 = sampleDeviceWithoutOwner ℚ ∧
    (set_owner_fraction_of_device 1000 (sampleDevice ℚ) "FRAC2" (1 / 2)
      sampleToolkit).1.get_fraction_of_owner_of_index 1 = 1 / 2 ∧
    (set_owner_fraction_of_device 1000 (sampleDevice ℚ) "FRAC2" (1 / 2)
      sampleToolkit).1.get_fraction_of_owner_of_index 0 =
      (sampleDevice ℚ).get_fraction_of_owner_of_index 0 :=
  ⟨(set_owner_fraction_of_device_sets_fraction 1000 (sampleDeviceWithoutOwner ℚ) "frac1"
      (1 / 2) sampleToolkit 0 (by decide)).1 (by decide),
   ((set_owner_fraction_of_device_sets_fraction 1000 (sampleDevice ℚ) "FRAC2" (1 / 2)
      sampleToolkit 1 (by decide)).2 (by decide)).2.1,
   ((set_owner_fraction_of_device_sets_fraction 1000 (sampleDevice ℚ) "FRAC2" (1 / 2)
      sampleToolkit 1 (by decide)).2 (by decide)).2.2.1 0 (by decide)⟩

end

/-! ## Blocks with non-windup limiting -/

section
variable {F : Type} [LinearOrderedField F]

/-- A clamped value is within the limits when the limits are in order. -/
theorem BLOCK.clamp_mem (b : BLOCK F) (x : F) (hle : b.lower_limit ≤ b.upper_limit) :
    b.lower_limit ≤ b.clamp x ∧ b.clamp x ≤ b.upper_limit := by
  unfold BLOCK.clamp
  split_ifs with h1 h2
  · exact ⟨hle, le_refl _⟩
  · exact ⟨le_refl _, hle⟩
  · exact ⟨not_lt.mp h2, not_lt.mp h1⟩

/-- The configuration of a block: limiter type, gain, time constant and limits. -/
theorem BLOCK.initialize_of_kind_configuration (kind : BLOCK_KIND) (h : F) (b : BLOCK F) :
    (b.initialize_of_kind kind h).limiter_type = b.limiter_type ∧
    (b.initialize_of_kind kind h).upper_limit = b.upper_limit ∧
    (b.initialize_of_kind kind h).lower_limit = b.lower_limit := by
  cases kind <;> exact ⟨rfl, rfl, rfl⟩

/-- A step leaves the configuration of a block as it is. -/
theorem BLOCK.step_configuration (kind : BLOCK_KIND) (h : F) (b : BLOCK F)
    (xm : F × DYNAMIC_MODE) :
    (b.step kind h xm).limiter_type = b.limiter_type ∧
    (b.step kind h xm).upper_limit = b.upper_limit ∧
    (b.step kind h xm).lower_limit = b.lower_limit := by
  obtain ⟨x, mode⟩ := xm
  cases kind <;> cases mode <;>
    simp only [BLOCK.step, BLOCK.run_of_kind, INTEGRAL_BLOCK.run, FIRST_ORDER_BLOCK.run,
      INTEGRAL_BLOCK.integrate, INTEGRAL_BLOCK.update, FIRST_ORDER_BLOCK.integrate,
      FIRST_ORDER_BLOCK.update, BLOCK.set_input] <;>
    (try split_ifs) <;> simp

/-- With non-windup limiting and limits in order, `initialize()` leaves state and output
within the limits. -/
theorem BLOCK.initialize_of_kind_within_limits (kind : BLOCK_KIND) (h : F) (b : BLOCK F)
    (hl : b.limiter_type = .NON_WINDUP_LIMITER) (hle : b.lower_limit ≤ b.upper_limit) :
    (b.initialize_of_kind kind h).within_limits := by
  have hc := b.clamp_mem
  cases kind <;>
    simp only [BLOCK.initialize_of_kind, INTEGRAL_BLOCK.initialize,
      FIRST_ORDER_BLOCK.initialize, BLOCK.within_limits, BLOCK.limited_state,
      BLOCK.limited_output, hl] <;>
    exact ⟨(hc _ hle).1, (hc _ hle).2, (hc _ hle).1, (hc _ hle).2⟩

/-- With non-windup limiting and limits in order, a step keeps state and output within
the limits. -/
theorem BLOCK.step_within_limits (kind : BLOCK_KIND) (h : F) (b : BLOCK F)
    (xm : F × DYNAMIC_MODE) (hl : b.limiter_type = .NON_WINDUP_LIMITER)
    (hle : b.lower_limit ≤ b.upper_limit) (hw : b.within_limits) :
    (b.step kind h xm).within_limits := by
  obtain ⟨x, mode⟩ := xm
  have hc : ∀ v, (b.set_input x).lower_limit ≤ (b.set_input x).clamp v ∧
      (b.set_input x).clamp v ≤ (b.set_input x).upper_limit :=
    fun v => (b.set_input x).clamp_mem v hle
  have hl1 : (b.set_input x).limiter_type = .NON_WINDUP_LIMITER := hl
  cases kind <;> cases mode <;>
    simp only [BLOCK.step, BLOCK.run_of_kind, INTEGRAL_BLOCK.run, FIRST_ORDER_BLOCK.run,
      INTEGRAL_BLOCK.integrate, INTEGRAL_BLOCK.update, FIRST_ORDER_BLOCK.integrate,
      FIRST_ORDER_BLOCK.update, INTEGRAL_BLOCK.tentative_state,
      FIRST_ORDER_BLOCK.tentative_state]
  · split_ifs
    · exact hw
    · simp only [BLOCK.within_limits, BLOCK.limited_state, BLOCK.limited_output, hl1]
      exact ⟨(hc _).1, (hc _).2, (hc _).1, (hc _).2⟩
  · split_ifs
    · exact hw
    · simp only [BLOCK.within_limits, BLOCK.limited_state, BLOCK.limited_output, hl1]
      exact ⟨(hc _).1, (hc _).2, (hc _).1, (hc _).2⟩
  · simp only [BLOCK.within_limits, BLOCK.limited_state, BLOCK.limited_output, hl1]
    split_ifs <;> exact ⟨(hc _).1, (hc _).2, (hc _).1, (hc _).2⟩
  · simp only [BLOCK.within_limits, BLOCK.limited_state, BLOCK.limited_output, hl1]
    split_ifs <;> exact ⟨(hc _).1, (hc _).2, (hc _).1, (hc _).2⟩

end
section
variable {F : Type} [LinearOrderedField F]

/-- With non-windup limiting and limits in order, any number of steps from a block
whose state and output are within the limits keeps them there, and keeps the
configuration. -/
theorem BLOCK.foldl_step_within_limits (kind : BLOCK_KIND) (h : F)
    (steps : List (F × DYNAMIC_MODE)) (b : BLOCK F)
    (hl : b.limiter_type = .NON_WINDUP_LIMITER) (hle : b.lower_limit ≤ b.upper_limit)
    (hw : b.within_limits) :
    (steps.foldl (BLOCK.step kind h) b).limiter_type = .NON_WINDUP_LIMITER ∧
    (steps.foldl (BLOCK.step kind h) b).upper_limit = b.upper_limit ∧
    (steps.foldl (BLOCK.step kind h) b).lower_limit = b.lower_limit ∧
    (steps.foldl (BLOCK.step kind h) b).within_limits := by
  induction steps generalizing b with
  | nil => exact ⟨hl, rfl, rfl, hw⟩
  | cons xm rest ih =>
    obtain ⟨c1, c2, c3⟩ := b.step_configuration kind h xm
    have hw1 := b.step_within_limits kind h xm hl hle hw
    have := ih (b.step kind h xm) (c1.trans hl) (by rw [c2, c3]; exact hle) hw1
    rw [c2, c3] at this
    exact this

/-- C11: a block (integrator or first-order lag) with `NON_WINDUP_LIMITER` and lower
limit ≤ upper limit has its state and its output within `[lower, upper]` after
`initialize()` and after every step `set_input(x)`, `run(INTEGRATE)` or `run(UPDATE)`
that follows, whatever the inputs, the modes and the integration step; the limits
and the limiter stay as configured.  `PVCV0::clear` configures the PLL frequency
integrator so. -/
theorem non_windup_block_stays_within_limits (kind : BLOCK_KIND) (h : F) (b : BLOCK F)
    (steps : List (F × DYNAMIC_MODE))
    (hl : b.limiter_type = .NON_WINDUP_LIMITER) (hle : b.lower_limit ≤ b.upper_limit) :
    ((b.after_steps kind h steps).upper_limit = b.upper_limit ∧
     (b.after_steps kind h steps).lower_limit = b.lower_limit ∧
     (b.after_steps kind h steps).limiter_type = .NON_WINDUP_LIMITER) ∧
    (b.lower_limit ≤ (b.after_steps kind h steps).state ∧
     (b.after_steps kind h steps).state ≤ b.upper_limit) ∧
    (b.lower_limit ≤ (b.after_steps kind h steps).output ∧
     (b.after_steps kind h steps).output ≤ b.upper_limit) ∧
    (∀ s : PVCV0 F, (PVCV0.clear s).PLL_frequency_integrator.limiter_type =
      .NON_WINDUP_LIMITER) := by
  obtain ⟨c1, c2, c3⟩ := b.initialize_of_kind_configuration kind h
  have hw0 := b.initialize_of_kind_within_limits kind h hl hle
  obtain ⟨r1, r2, r3, r4⟩ := BLOCK.foldl_step_within_limits kind h steps
    (b.initialize_of_kind kind h) (c1.trans hl) (by rw [c2, c3]; exact hle) hw0
  rw [c2] at r2
  rw [c3] at r3
  unfold BLOCK.within_limits at r4
  unfold BLOCK.after_steps
  rw [r2, r3] at r4
  exact ⟨⟨r2, r3, r1⟩, ⟨r4.1, r4.2.1⟩, ⟨r4.2.2.1, r4.2.2.2⟩, fun _ => rfl⟩

end

theorem non_windup_block_stays_within_limits_witness :
    (samplePVCV0 ℚ 1 1 1).PLL_frequency_integrator.lower_limit = 0 ∧
    (samplePVCV0 ℚ 1 1 1).PLL_frequency_integrator.upper_limit = 1 ∧
    (0 ≤ (((samplePVCV0 ℚ 1 1 1).PLL_frequency_integrator.set_output 5).after_steps
        .INTEGRAL_BLOCK (1 / 100)
        [(1000, .INTEGRATE_MODE), (1000, .UPDATE_MODE), (-5000, .INTEGRATE_MODE)]).state ∧
     (((samplePVCV0 ℚ 1 1 1).PLL_frequency_integrator.set_output 5).after_steps
        .INTEGRAL_BLOCK (1 / 100)
        [(1000, .INTEGRATE_MODE), (1000, .UPDATE_MODE), (-5000, .INTEGRATE_MODE)]).state
        ≤ 1) :=
  ⟨rfl, rfl,
   (non_windup_block_stays_within_limits .INTEGRAL_BLOCK (1 / 100)
      ((samplePVCV0 ℚ 1 1 1).PLL_frequency_integrator.set_output 5)
      [(1000, .INTEGRATE_MODE), (1000, .UPDATE_MODE), (-5000, .INTEGRATE_MODE)]
      rfl (show (0 : ℚ) ≤ 1 by norm_num)).2.1⟩

/-- The two limiters on the sample integrator, driven from rest with the input 1000 for
one tentative step of 0.01 s: with non-windup limiting the state stops at the upper
limit, with windup limiting the state passes it (5) and only the output is held at 1. -/
theorem sampleIntegrator_driven_to_saturation :
    (((sampleIntegrator ℚ .NON_WINDUP_LIMITER).after_steps .INTEGRAL_BLOCK (1 / 100)
        [(1000, .INTEGRATE_MODE)]).state = 1 ∧
     ((sampleIntegrator ℚ .NON_WINDUP_LIMITER).after_steps .INTEGRAL_BLOCK (1 / 100)
        [(1000, .INTEGRATE_MODE)]).output = 1) ∧
    (((sampleIntegrator ℚ .WINDUP_LIMITER).after_steps .INTEGRAL_BLOCK (1 / 100)
        [(1000, .INTEGRATE_MODE)]).state = 5 ∧
     ((sampleIntegrator ℚ .WINDUP_LIMITER).after_steps .INTEGRAL_BLOCK (1 / 100)
        [(1000, .INTEGRATE_MODE)]).output = 1) := by
  simp only [BLOCK.after_steps, List.foldl, BLOCK.step, BLOCK.run_of_kind,
    BLOCK.initialize_of_kind, INTEGRAL_BLOCK.run, INTEGRAL_BLOCK.integrate,
    INTEGRAL_BLOCK.initialize, INTEGRAL_BLOCK.tentative_state, BLOCK.set_input,
    BLOCK.limited_state, BLOCK.limited_output, BLOCK.clamp, sampleIntegrator]
  norm_num

/-! ## The Jacobian builder -/

section
variable {F : Type} [LinearOrderedField F]

open SPARSE_MATRIX

/-- An entry whose position comes after every stored position is stored last. -/
theorem SPARSE_MATRIX.merge_entry_of_last (e : TRIPLET F) (acc : List (TRIPLET F))
    (h : ∀ a ∈ acc, a.key < e.key) : merge_entry e acc = acc ++ [e] := by
  induction acc with
  | nil => rfl
  | cons x t ih =>
    rw [SPARSE_MATRIX.merge_entry_gt e x t (h x (List.mem_cons_self _ _)),
      ih (fun a ha => h a (List.mem_cons_of_mem _ ha))]
    rfl

/-- Entries that come in storage order, without duplicates, are stored as they come. -/
theorem SPARSE_MATRIX.foldl_merge_entry_of_sorted (l acc : List (TRIPLET F))
    (h : (acc ++ l).Pairwise (fun a b => a.key < b.key)) :
    l.foldl (fun acc e => merge_entry e acc) acc = acc ++ l := by
  induction l generalizing acc with
  | nil => simp
  | cons e t ih =>
    have hlast : ∀ a ∈ acc, a.key < e.key := by
      intro a ha
      rw [List.pairwise_append] at h
      exact h.2.2 a ha e (List.mem_cons_self _ _)
    rw [List.foldl_cons, SPARSE_MATRIX.merge_entry_of_last e acc hlast]
    have h2 : (acc ++ [e] ++ t).Pairwise (fun a b => a.key < b.key) := by
      simpa using h
    rw [ih (acc ++ [e]) h2]
    simp

/-- A function of the entry at each index, over all indices, is the function mapped over
the entries. -/
theorem SPARSE_MATRIX.map_range_entry {β : Type} (l : List (TRIPLET F))
    (g : Option (TRIPLET F) → β) :
    (List.range l.length).map (fun k => g (l.get? k)) = l.map (fun t => g (some t)) := by
  apply List.ext_getElem
  · simp
  · intro i h1 h2
    have hi : i < l.length := by simpa using h2
    simp [List.getElem?_eq_getElem hi]

/-- A block built from scratch has the entries of the admittance matrix, with the
derivative as value. -/
theorem JACOBIAN_BUILDER.build_jacobian_eq (der : Int → Int → F) (Y : COMPRESSED_FORM F)
    (hY : Y.entries.Pairwise (fun a b => a.key < b.key)) :
    JACOBIAN_BUILDER.build_jacobian der Y =
      { size := Y.size
        entries := Y.entries.map (fun t => ⟨t.row, t.col, ⟨der t.row t.col, 0⟩⟩)
        LU := none } := by
  have hmap : (List.range (get_matrix_entry_count Y)).map (fun k =>
      ({ row := get_row_number_of_entry_index Y k
         col := get_column_number_of_entry_index Y k
         value := ⟨der (get_row_number_of_entry_index Y k)
           (get_column_number_of_entry_index Y k), 0⟩ } : TRIPLET F)) =
      Y.entries.map (fun t => ⟨t.row, t.col, ⟨der t.row t.col, 0⟩⟩) := by
    have := SPARSE_MATRIX.map_range_entry Y.entries (fun o : Option (TRIPLET F) =>
      (⟨(match o with | some t => t.row | none => 0),
        (match o with | some t => t.col | none => 0),
        ⟨der (match o with | some t => t.row | none => 0)
          (match o with | some t => t.col | none => 0), 0⟩⟩ : TRIPLET F))
    simpa [get_matrix_entry_count, get_row_number_of_entry_index,
      get_column_number_of_entry_index] using this
  unfold JACOBIAN_BUILDER.build_jacobian compress_and_merge_duplicate_entries
  simp only [hmap]
  rw [SPARSE_MATRIX.foldl_merge_entry_of_sorted]
  · simp
  · simp only [List.nil_append]
    rw [List.pairwise_map]
    exact hY.imp (fun h => h)

/-- The updates of the first `n` indices of a block: size kept, no factorization, and at
every index the entry with the derivative written over its real part when the index is
below `n`, the entry as it was otherwise. -/
theorem JACOBIAN_BUILDER.foldl_update (der : Int → Int → F) (J : COMPRESSED_FORM F)
    (hJ : J.LU = none) (n : Nat) (hn : n ≤ J.entries.length) :
    ((List.range n).foldl (JACOBIAN_BUILDER.update_entry der) J).size = J.size ∧
    ((List.range n).foldl (JACOBIAN_BUILDER.update_entry der) J).LU = none ∧
    ∀ i : Nat, ((List.range n).foldl (JACOBIAN_BUILDER.update_entry der) J).entries[i]? =
      (J.entries[i]?).map (fun t =>
        if i < n then ({ t with value := ⟨der t.row t.col, t.value.im⟩ } : TRIPLET F)
        else t) := by
  induction n with
  | zero => simp [hJ]
  | succ n ih =>
    obtain ⟨h1, h2, h3⟩ := ih (Nat.le_of_succ_le hn)
    have hlt : n < J.entries.length := hn
    rw [List.range_succ, List.foldl_append, List.foldl_cons, List.foldl_nil]
    generalize (List.range n).foldl (JACOBIAN_BUILDER.update_entry der) J = M at h1 h2 h3
    refine ⟨h1, rfl, ?_⟩
    intro i
    have hn3 := h3 n
    simp only [List.getElem?_eq_getElem hlt, Option.map_some', lt_irrefl, if_false] at hn3
    simp only [JACOBIAN_BUILDER.update_entry, change_real_entry_value,
      get_row_number_of_entry_index, get_column_number_of_entry_index, List.get?_eq_getElem?,
      hn3, List.getElem?_modify, h3]
    by_cases hi : i < J.entries.length
    · simp only [List.getElem?_eq_getElem hi, Option.map_some', Option.map_eq_map]
      by_cases hin : n = i
      · subst hin
        simp
      · have : (i < n + 1) ↔ (i < n) := by omega
        simp [hin, this]
    · simp [List.getElem?_eq_none (not_lt.mp hi)]

/-- A block without factorization, updated: the entries of the block, with the
derivative written over the real part of each. -/
theorem JACOBIAN_BUILDER.update_jacobian_eq (der : Int → Int → F) (J : COMPRESSED_FORM F)
    (hJ : J.LU = none) :
    JACOBIAN_BUILDER.update_jacobian der J =
      { size := J.size
        entries := J.entries.map (fun t => { t with value := ⟨der t.row t.col, t.value.im⟩ })
        LU := none } := by
  obtain ⟨h1, h2, h3⟩ := JACOBIAN_BUILDER.foldl_update der J hJ J.entries.length (le_refl _)
  unfold JACOBIAN_BUILDER.update_jacobian get_matrix_entry_count
  generalize (List.range J.entries.length).foldl (JACOBIAN_BUILDER.update_entry der) J = R
    at h1 h2 h3
  have hent : R.entries =
      J.entries.map (fun t => { t with value := ⟨der t.row t.col, t.value.im⟩ }) := by
    apply List.ext_getElem?
    intro i
    rw [h3 i, List.getElem?_map]
    by_cases hi : i < J.entries.length
    · simp [List.getElem?_eq_getElem hi, hi]
    · simp [List.getElem?_eq_none (not_lt.mp hi)]
  cases R
  simp_all

/-- An updated block is the block a fresh build gives with the same derivatives, whatever
derivatives the block was built with. -/
theorem JACOBIAN_BUILDER.update_build_jacobian (der0 der1 : Int → Int → F)
    (Y : COMPRESSED_FORM F) (hY : Y.entries.Pairwise (fun a b => a.key < b.key)) :
    JACOBIAN_BUILDER.update_jacobian der1 (JACOBIAN_BUILDER.build_jacobian der0 Y) =
      JACOBIAN_BUILDER.build_jacobian der1 Y ∧
    (JACOBIAN_BUILDER.build_jacobian der0 Y).pattern = Y.pattern := by
  rw [JACOBIAN_BUILDER.build_jacobian_eq der0 Y hY, JACOBIAN_BUILDER.build_jacobian_eq der1 Y hY,
    JACOBIAN_BUILDER.update_jacobian_eq _ _ rfl]
  simp [SPARSE_MATRIX.COMPRESSED_FORM.pattern, Function.comp_def]

/-- The admittance matrix of a network is stored in order, without duplicates. -/
theorem NETWORK_MATRIX.get_network_Y_matrix_sorted (network : NETWORK_MATRIX F) :
    network.get_network_Y_matrix.entries.Pairwise (fun a b => a.key < b.key) :=
  SPARSE_MATRIX.foldl_merge_entry_sorted network.contributions [] List.Pairwise.nil

/-- C12: after `build_seprate_jacobians()` at the voltages `v0`, an
`update_seprate_jacobians()` at the voltages `v1` gives the four blocks a fresh
`build_seprate_jacobians()` gives at `v1`, entries and pattern; the pattern of each
block, built or updated, is the pattern of the admittance matrix of the network. -/
theorem update_seprate_jacobians_eq_build (E : Ext F) (network : NETWORK_MATRIX F)
    (v0 v1 : BUS_VOLTAGES F) :
    JACOBIAN_BUILDER.update_seprate_jacobians E network v1
      (JACOBIAN_BUILDER.build_seprate_jacobians E network v0) =
      JACOBIAN_BUILDER.build_seprate_jacobians E network v1 ∧
    ((JACOBIAN_BUILDER.update_seprate_jacobians E network v1
        (JACOBIAN_BUILDER.build_seprate_jacobians E network v0)).jacobian_delta_p_over_angle.pattern
      = (JACOBIAN_BUILDER.build_seprate_jacobians E network v0).jacobian_delta_p_over_angle.pattern
     ∧
     (JACOBIAN_BUILDER.update_seprate_jacobians E network v1
        (JACOBIAN_BUILDER.build_seprate_jacobians E network
          v0)).jacobian_delta_p_over_voltage.pattern
      = (JACOBIAN_BUILDER.build_seprate_jacobians E network
          v0).jacobian_delta_p_over_voltage.pattern ∧
     (JACOBIAN_BUILDER.update_seprate_jacobians E network v1
        (JACOBIAN_BUILDER.build_seprate_jacobians E network v0)).jacobian_delta_q_over_angle.pattern
      = (JACOBIAN_BUILDER.build_seprate_jacobians E network v0).jacobian_delta_q_over_angle.pattern
     ∧
     (JACOBIAN_BUILDER.update_seprate_jacobians E network v1
        (JACOBIAN_BUILDER.build_seprate_jacobians E network
          v0)).jacobian_delta_q_over_voltage.pattern
      = (JACOBIAN_BUILDER.build_seprate_jacobians E network
          v0).jacobian_delta_q_over_voltage.pattern) ∧
    (JACOBIAN_BUILDER.build_seprate_jacobians E network v0).jacobian_delta_p_over_angle.pattern
      = network.get_network_Y_matrix.pattern := by
  have hY := network.get_network_Y_matrix_sorted
  have hp := fun d0 d1 : Int → Int → F =>
    JACOBIAN_BUILDER.update_build_jacobian d0 d1 network.get_network_Y_matrix hY
  have heq : JACOBIAN_BUILDER.update_seprate_jacobians E network v1
      (JACOBIAN_BUILDER.build_seprate_jacobians E network v0) =
      JACOBIAN_BUILDER.build_seprate_jacobians E network v1 := by
    simp only [JACOBIAN_BUILDER.update_seprate_jacobians,
      JACOBIAN_BUILDER.build_seprate_jacobians, (hp _ _).1]
  have hpat : ∀ d0 : Int → Int → F,
      (JACOBIAN_BUILDER.build_jacobian d0 network.get_network_Y_matrix).pattern =
        network.get_network_Y_matrix.pattern := fun d0 => (hp d0 d0).2
  refine ⟨heq, ?_, ?_⟩
  · rw [heq]
    simp only [JACOBIAN_BUILDER.build_seprate_jacobians, hpat, and_self]
  · simp only [JACOBIAN_BUILDER.build_seprate_jacobians, hpat]

end

/-- The blocks of the sample network have the three positions of its admittance matrix,
built and updated, whatever the voltages. -/
theorem sampleNetwork_jacobian_pattern (E : Ext ℚ) (v0 v1 : BUS_VOLTAGES ℚ) :
    (JACOBIAN_BUILDER.build_seprate_jacobians E (sampleNetwork ℚ)
      v0).jacobian_delta_p_over_angle.pattern = [(1, 0), (0, 1), (1, 1)] ∧
    (JACOBIAN_BUILDER.update_seprate_jacobians E (sampleNetwork ℚ) v1
      (JACOBIAN_BUILDER.build_seprate_jacobians E (sampleNetwork ℚ)
        v0)).jacobian_delta_q_over_voltage.pattern = [(1, 0), (0, 1), (1, 1)] := by
  have hY : (sampleNetwork ℚ).get_network_Y_matrix = sampleMatrix ℚ := rfl
  have hs := (sampleNetwork ℚ).get_network_Y_matrix_sorted
  have hpat : (sampleNetwork ℚ).get_network_Y_matrix.pattern = [(1, 0), (0, 1), (1, 1)] := by
    rw [hY, sampleMatrix_eq]
    rfl
  constructor
  · simp only [JACOBIAN_BUILDER.build_seprate_jacobians]
    rw [(JACOBIAN_BUILDER.update_build_jacobian _ _ _ hs).2, hpat]
    exact fun _ _ => 0
  · simp only [JACOBIAN_BUILDER.update_seprate_jacobians,
      JACOBIAN_BUILDER.build_seprate_jacobians]
    rw [(JACOBIAN_BUILDER.update_build_jacobian _ _ _ hs).1,
      (JACOBIAN_BUILDER.update_build_jacobian _ _ _ hs).2, hpat]
    exact fun _ _ => 0

/-! ## The model variables -/

/-- The terminal power of the sample model with reactive power: `0 + j0.5` pu on
`mbase`. -/
theorem samplePVCV0_with_reactive_power_terminal_power :
    PVCV0.get_terminal_complex_power_in_pu_based_on_mbase sampleExt
      (samplePVCV0_with_reactive_power ℝ) = some ⟨0, 1 / 2⟩ := by
  have hang : PVCV0.get_pll_angle_in_rad sampleExt (samplePVCV0_with_reactive_power ℝ) = 0 := by
    simp [PVCV0.get_pll_angle_in_rad, samplePVCV0_with_reactive_power, samplePVCV0,
      CONVERTER.get_KPLL, CONVERTER.get_KIPLL, CONVERTER.set_PLLmax, CONVERTER.set_KIPLL,
      CONVERTER.set_KPLL, CONVERTER.call_set_upper_limit, CONVERTER.call_set_T_in_s,
      CONVERTER.record, CONVERTER.setBlock, CONVERTER.block, PVCV0.clear,
      PVCV0.get_terminal_complex_voltage_in_pu, PVCV0.get_power_system_database,
      samplePvUnit, sampleDatabase, sampleExt, libm, atan2_zero_one]
  rw [PVCV0.terminal_power_of_outputs sampleExt (samplePVCV0_with_reactive_power ℝ)
    (samplePvUnit ℝ) (sampleDatabase ℝ) 0 (-3 / 2) 0 rfl rfl
    (by simp [sampleExt, libm, sampleDatabase]; norm_num)
    (by simp [samplePvUnit]) (by simp [sampleDatabase]) (by simp [samplePvUnit])
    rfl (by simp [samplePVCV0_with_reactive_power, samplePvUnit]; norm_num) hang
    (by simp [sampleExt, libm])
    (by simp [samplePVCV0_with_reactive_power, samplePVCV0, CONVERTER.set_PLLmax,
      CONVERTER.set_KIPLL, CONVERTER.set_KPLL, CONVERTER.call_set_upper_limit,
      CONVERTER.call_set_T_in_s, CONVERTER.record, CONVERTER.setBlock, PVCV0.clear]
        ; norm_num)]
  simp [sampleExt, libm, sampleDatabase, samplePvUnit, Cplx.mul, Cplx.sub, Cplx.div, Cplx.conj]
  norm_num

/-- C21, at the name `TERMINAL Q IN MVAR`: of the 18 names of the variable table of
PVCV0 and of WT3G2, `get_variable_with_name` reaches the `return` of the name itself for
17; for `TERMINAL Q IN MVAR` (index 4) it reaches the last statement, `return 0.0`, on
every model, because the statement that returns the terminal reactive power in pu times
`mbase` stands under the name `TERMINAL Q IN MW`.  On the sample model with 0.5 pu of
reactive power on 100 MVA the variable reads 0 instead of 50. -/
theorem get_variable_with_name_of_TERMINAL_Q_IN_MVAR {F : Type} [LinearOrderedField F]
    (E : Ext F) (M : CMATH F) (C : Cmd F (PV_UNIT F)) (s : PVCV0 F)
    (Cw : Cmd F (WT_GENERATOR F)) (psdb : POWER_SYSTEM_DATABASE F) (sw : WT3G2 F) :
    (PVCV0.MODEL_VARIABLE_TABLE.length = 18 ∧
     PVCV0.MODEL_VARIABLE_TABLE.filter (fun name =>
        decide ((PVCV0.get_variable_with_name E M C name s).branch ≠ some name)) =
        ["TERMINAL Q IN MVAR"] ∧
     PVCV0.get_variable_with_name E M C "TERMINAL Q IN MVAR" s = ⟨none, some 0⟩ ∧
     PVCV0.get_variable_name_from_variable_index 4 = "TERMINAL Q IN MVAR" ∧
     PVCV0.get_variable_with_index E M C 4 s = ⟨none, some 0⟩ ∧
     PVCV0.get_variable_with_name E M C "TERMINAL Q IN MW" s =
       ⟨some "TERMINAL Q IN MW",
        (PVCV0.get_terminal_reactive_power_in_pu_based_on_mbase E s).map
          (fun Q => Q * PVCV0.get_mbase_in_MVA s)⟩) ∧
    (WT3G2.prepare_model_variable_table.map Prod.snd = List.range 18 ∧
     (WT3G2.prepare_model_variable_table.map Prod.fst).filter (fun name =>
        decide ((WT3G2.get_variable_with_name E M Cw psdb name sw).branch ≠ some name)) =
        ["TERMINAL Q IN MVAR"] ∧
     WT3G2.get_variable_with_name E M Cw psdb "TERMINAL Q IN MVAR" sw = ⟨none, some 0⟩ ∧
     WT3G2.get_variable_with_name E M Cw psdb "TERMINAL Q IN MW" sw =
       ⟨some "TERMINAL Q IN MW",
        some (WT3G2.get_terminal_reactive_power_in_pu_based_on_mbase E psdb sw *
          WT3G2.get_mbase_in_MVA sw)⟩) ∧
    ((PVCV0.get_variable_with_name sampleExt cmath (sampleCmd ℝ _) "TERMINAL Q IN MVAR"
        (samplePVCV0_with_reactive_power ℝ)).value = some 0 ∧
     (PVCV0.get_terminal_reactive_power_in_pu_based_on_mbase sampleExt
        (samplePVCV0_with_reactive_power ℝ)).map
          (fun Q => Q * PVCV0.get_mbase_in_MVA (samplePVCV0_with_reactive_power ℝ)) =
        some 50) := by
  refine ⟨⟨rfl, rfl, rfl, rfl, rfl, rfl⟩, ⟨rfl, rfl, rfl, rfl⟩, rfl, ?_⟩
  rw [PVCV0.get_terminal_reactive_power_in_pu_based_on_mbase,
    samplePVCV0_with_reactive_power_terminal_power]
  simp [PVCV0.get_mbase_in_MVA, samplePVCV0_with_reactive_power, samplePVCV0, samplePvUnit,
    CONVERTER.set_PLLmax, CONVERTER.set_KIPLL, CONVERTER.set_KPLL,
    CONVERTER.call_set_upper_limit, CONVERTER.call_set_T_in_s, CONVERTER.record,
    CONVERTER.setBlock, PVCV0.clear]
  norm_num
/-! ## The lower limit of the PLL frequency integrator after initialization -/

section
variable {F : Type} [LinearOrderedField F]

/-- The limits of the PLL frequency integrator after a successful `WT3G2::initialize()`
with `KIPLL ≠ 0`. -/
theorem WT3G2.wt_initialize_PLL_limits (E : Ext F) (psdb : POWER_SYSTEM_DATABASE F)
    (w : WT3G2 F) (g : WT_GENERATOR F) (hdev : w.device = some g)
    (hni : w.flag_model_initialized = false) (hk : w.get_KIPLL ≠ 0) :
    ( WT3G2.initialize E psdb w).get_PLLmax = w.get_PLLmax ∧
    ( WT3G2.initialize E psdb w).get_PLLmin = -w.get_PLLmax := by
  simp [ WT3G2.initialize, CONVERTER.is_model_initialized, hni, hdev, hk,
    CONVERTER.call_set_output, CONVERTER.call_initialize_block, CONVERTER.call_set_T_in_s,
    CONVERTER.call_set_upper_limit, CONVERTER.call_set_lower_limit, CONVERTER.record,
    CONVERTER.setBlock, CONVERTER.block, BLOCK.with_signals_of,
    CONVERTER.set_flag_model_initialized_as_true,
    CONVERTER.set_initial_active_current_command_in_pu_based_on_mbase,
    CONVERTER.set_initial_reactive_current_command_in_pu_based_on_mbase,
    CONVERTER.get_PLLmax, CONVERTER.get_PLLmin]

/-- `set_PLLmin` leaves the device, the flags, `KIPLL` and `PLLmax` as they are. -/
theorem CONVERTER.set_PLLmin_frame {D : Type} (s : CONVERTER F D) (pmin : F) :
    (s.set_PLLmin pmin).device = s.device ∧
    (s.set_PLLmin pmin).flag_model_initialized = s.flag_model_initialized ∧
    (s.set_PLLmin pmin).get_KIPLL = s.get_KIPLL ∧
    (s.set_PLLmin pmin).get_PLLmax = s.get_PLLmax ∧
    (s.set_PLLmin pmin).get_PLLmin = pmin := by
  simp [CONVERTER.set_PLLmin, CONVERTER.call_set_lower_limit, CONVERTER.record,
    CONVERTER.setBlock, CONVERTER.block, CONVERTER.get_KIPLL, CONVERTER.get_PLLmax,
    CONVERTER.get_PLLmin]

/-- C22: after a successful `PVCV0::initialize()` (device and database present, not yet
initialized) or `WT3G2::initialize()` (device present, not yet initialized) with
`KIPLL ≠ 0`, `get_PLLmin()` is `-get_PLLmax()`, also when `set_PLLmin(pmin)` was called
before with any `pmin`; `get_PLLmax()` is what it was before `initialize()`. -/
theorem initialize_sets_PLLmin_to_minus_PLLmax (E : Ext F) (psdb : POWER_SYSTEM_DATABASE F)
    (s : PVCV0 F) (u : PV_UNIT F) (db : POWER_SYSTEM_DATABASE F) (w : WT3G2 F)
    (g : WT_GENERATOR F) (pmin : F)
    (hdev : s.device = some u) (hdb : u.psdb = some db)
    (hni : s.flag_model_initialized = false) (hk : s.get_KIPLL ≠ 0)
    (hwdev : w.device = some g) (hwni : w.flag_model_initialized = false)
    (hwk : w.get_KIPLL ≠ 0) :
    (( PVCV0.initialize E s).get_PLLmin = -( PVCV0.initialize E s).get_PLLmax ∧
     ( PVCV0.initialize E (s.set_PLLmin pmin)).get_PLLmin =
       -( PVCV0.initialize E (s.set_PLLmin pmin)).get_PLLmax ∧
     ( PVCV0.initialize E (s.set_PLLmin pmin)).get_PLLmax = s.get_PLLmax) ∧
    (( WT3G2.initialize E psdb w).get_PLLmin = -( WT3G2.initialize E psdb w).get_PLLmax ∧
     ( WT3G2.initialize E psdb (w.set_PLLmin pmin)).get_PLLmin =
       -( WT3G2.initialize E psdb (w.set_PLLmin pmin)).get_PLLmax ∧
     ( WT3G2.initialize E psdb (w.set_PLLmin pmin)).get_PLLmax = w.get_PLLmax) := by
  obtain ⟨f1, f2, f3, f4, -⟩ := CONVERTER.set_PLLmin_frame s pmin
  obtain ⟨g1, g2, g3, g4, -⟩ := CONVERTER.set_PLLmin_frame w pmin
  have hp := (PVCV0.initialize_PLL_limits E s u db hdev hdb hni).1 hk
  have hp1 := (PVCV0.initialize_PLL_limits E (s.set_PLLmin pmin) u db (f1.trans hdev) hdb
    (f2.trans hni)).1 (by rw [f3]; exact hk)
  have hw := WT3G2.wt_initialize_PLL_limits E psdb w g hwdev hwni hwk
  have hw1 := WT3G2.wt_initialize_PLL_limits E psdb (w.set_PLLmin pmin) g (g1.trans hwdev)
    (g2.trans hwni) (by rw [g3]; exact hwk)
  refine ⟨⟨?_, ?_, ?_⟩, ⟨?_, ?_, ?_⟩⟩
  · rw [hp.1, hp.2]
  · rw [hp1.1, hp1.2]
  · rw [hp1.1, f4]
  · rw [hw.1, hw.2]
  · rw [hw1.1, hw1.2]
  · rw [hw1.1, g4]

end

theorem initialize_sets_PLLmin_to_minus_PLLmax_witness :
    ((samplePVCV0 ℝ 1 1 1).set_PLLmin 5).get_PLLmin = 5 ∧
    ( PVCV0.initialize sampleExt ((samplePVCV0 ℝ 1 1 1).set_PLLmin 5)).get_PLLmin =
      -( PVCV0.initialize sampleExt ((samplePVCV0 ℝ 1 1 1).set_PLLmin 5)).get_PLLmax ∧
    ( PVCV0.initialize sampleExt ((samplePVCV0 ℝ 1 1 1).set_PLLmin 5)).get_PLLmax = 1 ∧
    ( WT3G2.initialize sampleExt (sampleDatabase ℝ) ((sampleWT3G2 ℝ 1 1 1).set_PLLmin 5)).get_PLLmin
      = -( WT3G2.initialize sampleExt (sampleDatabase ℝ)
          ((sampleWT3G2 ℝ 1 1 1).set_PLLmin 5)).get_PLLmax := by
  have hk : (samplePVCV0 ℝ 1 1 1).get_KIPLL ≠ 0 := by
    rw [(samplePVCV0_gains 1 1 1).2.1]
    norm_num
  have hwk : (sampleWT3G2 ℝ 1 1 1).get_KIPLL ≠ 0 := hk
  have h := initialize_sets_PLLmin_to_minus_PLLmax sampleExt (sampleDatabase ℝ)
    (samplePVCV0 ℝ 1 1 1) (samplePvUnit ℝ) (sampleDatabase ℝ) (sampleWT3G2 ℝ 1 1 1)
    (sampleWtGenerator ℝ) 5 rfl rfl rfl hk rfl rfl hwk
  refine ⟨(CONVERTER.set_PLLmin_frame (samplePVCV0 ℝ 1 1 1) 5).2.2.2.2, h.1.2.1, ?_, h.2.2.1⟩
  rw [h.1.2.2, (samplePVCV0_gains 1 1 1).2.2]
/-! ## Thevenin and Norton equivalents of the source -/

section
variable {F : Type} [LinearOrderedField F]

/-- A voltage plus the Norton current less the current the voltage drives through a
non-zero impedance, times the impedance, is the Norton current times the impedance. -/
theorem Cplx.thevenin_of_norton (N V Z : Cplx F) (hZ : Z.re * Z.re + Z.im * Z.im ≠ 0) :
    V.add ((N.sub (V.div Z)).mul Z) = N.mul Z := by
  apply Cplx.ext'
  · simp only [Cplx.add, Cplx.sub, Cplx.mul, Cplx.div]
    field_simp
    ring
  · simp only [Cplx.add, Cplx.sub, Cplx.mul, Cplx.div]
    field_simp
    ring

/-- A non-zero impedance rebased with non-zero bases has a non-zero squared modulus. -/
theorem Cplx.rebased_ne_zero (Z : Cplx F) (m sb : F) (hZ : Z ≠ ⟨0, 0⟩) (hm : m ≠ 0)
    (hsb : sb ≠ 0) :
    ((Z.sdiv m).smul sb).re * ((Z.sdiv m).smul sb).re +
      ((Z.sdiv m).smul sb).im * ((Z.sdiv m).smul sb).im ≠ 0 := by
  intro h
  have h0 := mul_self_add_mul_self_eq_zero.mp h
  simp only [Cplx.sdiv, Cplx.smul, mul_eq_zero, div_eq_zero_iff, hm, hsb, or_false] at h0
  exact hZ (Cplx.ext' h0.1 h0.2)

/-- With a source reactance that is not zero the Norton current of the source is a
complex number. -/
theorem PVCV0.Norton_current_of_reactance (E : Ext F) (s : PVCV0 F)
    (db : POWER_SYSTEM_DATABASE F) (hpsdb : PVCV0.get_power_system_database s = some db)
    (hx : (PVCV0.get_source_impedance_in_pu_based_on_mbase s).im ≠ 0) :
    ∃ N, PVCV0.get_source_Norton_equivalent_complex_current_in_pu_in_xy_axis_based_on_sbase
      E s = some N := by
  simp only [PVCV0.get_source_Norton_equivalent_complex_current_in_pu_in_xy_axis_based_on_sbase,
    hpsdb, DOUBLE.div_of_ne_zero _ _ hx, DOUBLE.lt]
  split_ifs <;> exact ⟨_, rfl⟩

/-- C23, amended: for a PVCV0 model whose database `get_power_system_database()` is
there, with `mbase` and the `sbase` of the database non-zero and a source reactance
`Xeq` (the imaginary part of the source impedance) non-zero,
`get_internal_voltage_in_pu_in_xy_axis()` returns a complex number, and it is the
terminal voltage plus `get_terminal_complex_current_in_pu_in_xy_axis_based_on_sbase()`
times the source impedance rebased to `sbase` (`Zsource/mbase*sbase`). -/
theorem PVCV0_internal_voltage_is_thevenin (E : Ext F) (s : PVCV0 F)
    (db : POWER_SYSTEM_DATABASE F) (hpsdb : PVCV0.get_power_system_database s = some db)
    (hm : PVCV0.get_mbase_in_MVA s ≠ 0) (hs : db.system_base_power_in_MVA ≠ 0)
    (hx : (PVCV0.get_source_impedance_in_pu_based_on_mbase s).im ≠ 0) :
    (PVCV0.get_internal_voltage_in_pu_in_xy_axis E s).isSome = true ∧
    PVCV0.get_internal_voltage_in_pu_in_xy_axis E s =
      (PVCV0.get_terminal_complex_current_in_pu_in_xy_axis_based_on_sbase E s).map
        (fun Ixy => (PVCV0.get_terminal_complex_voltage_in_pu s).add
          (Ixy.mul (((PVCV0.get_source_impedance_in_pu_based_on_mbase s).sdiv
            (PVCV0.get_mbase_in_MVA s)).smul db.system_base_power_in_MVA))) := by
  have hZ : PVCV0.get_source_impedance_in_pu_based_on_mbase s ≠ ⟨0, 0⟩ := by
    intro h
    rw [h] at hx
    exact hx rfl
  obtain ⟨N, hN⟩ := PVCV0.Norton_current_of_reactance E s db hpsdb hx
  simp only [PVCV0.get_terminal_complex_current_in_pu_in_xy_axis_based_on_sbase,
    PVCV0.get_internal_voltage_in_pu_in_xy_axis, hpsdb, hN, Option.isSome_some, Option.map_some',
    true_and]
  rw [Cplx.thevenin_of_norton N _ _ (Cplx.rebased_ne_zero _ _ _ hZ hm hs)]

end

/-- Witness of C23 (amended): the sample PVCV0 model, whose source impedance is `j1`. -/
theorem PVCV0_internal_voltage_is_thevenin_witness :
    (PVCV0.get_internal_voltage_in_pu_in_xy_axis sampleExt (samplePVCV0 ℝ 1 1 1)).isSome
      = true ∧
    PVCV0.get_internal_voltage_in_pu_in_xy_axis sampleExt (samplePVCV0 ℝ 1 1 1) =
      (PVCV0.get_terminal_complex_current_in_pu_in_xy_axis_based_on_sbase sampleExt
        (samplePVCV0 ℝ 1 1 1)).map
        (fun Ixy => (PVCV0.get_terminal_complex_voltage_in_pu (samplePVCV0 ℝ 1 1 1)).add
          (Ixy.mul (((PVCV0.get_source_impedance_in_pu_based_on_mbase
            (samplePVCV0 ℝ 1 1 1)).sdiv (PVCV0.get_mbase_in_MVA (samplePVCV0 ℝ 1 1 1))).smul
              (sampleDatabase ℝ).system_base_power_in_MVA))) :=
  PVCV0_internal_voltage_is_thevenin sampleExt (samplePVCV0 ℝ 1 1 1) (sampleDatabase ℝ) rfl
    (by simp [PVCV0.get_mbase_in_MVA, samplePVCV0, samplePvUnit, CONVERTER.set_PLLmax,
      CONVERTER.set_KIPLL, CONVERTER.set_KPLL, CONVERTER.call_set_upper_limit,
      CONVERTER.call_set_T_in_s, CONVERTER.record, CONVERTER.setBlock, PVCV0.clear])
    (by simp [sampleDatabase])
    (by simp [PVCV0.get_source_impedance_in_pu_based_on_mbase, samplePVCV0, samplePvUnit,
      CONVERTER.set_PLLmax, CONVERTER.set_KIPLL, CONVERTER.set_KPLL,
      CONVERTER.call_set_upper_limit, CONVERTER.call_set_T_in_s, CONVERTER.record,
      CONVERTER.setBlock, PVCV0.clear])

/-- Counterexample of C23: the sample PVCV0 model behind a source impedance `1 + j0`
(a resistance, `Xeq = 0.0`), with the reactive voltage command at rest (`EQ = 0.0`).
The hypotheses of the claim hold (`mbase = 100`, `sbase = 100`, `Zsource ≠ 0`), yet
`Iq = -EQ/Xeq` is `0.0/0.0`, NaN, which the clip leaves alone, and
`get_internal_voltage_in_pu_in_xy_axis()` does not return a number: NaN is equal to
nothing, the voltage plus current times impedance included. -/
theorem PVCV0_internal_voltage_of_resistive_source :
    PVCV0.get_power_system_database (samplePVCV0_with_resistive_source ℝ)
      = some (sampleDatabase ℝ) ∧
    PVCV0.get_mbase_in_MVA (samplePVCV0_with_resistive_source ℝ) ≠ 0 ∧
    (sampleDatabase ℝ).system_base_power_in_MVA ≠ 0 ∧
    PVCV0.get_source_impedance_in_pu_based_on_mbase (samplePVCV0_with_resistive_source ℝ)
      ≠ ⟨0, 0⟩ ∧
    DOUBLE.div (-(samplePVCV0_with_resistive_source ℝ).reactive_voltage_commander.output)
      (PVCV0.get_source_impedance_in_pu_based_on_mbase
        (samplePVCV0_with_resistive_source ℝ)).im = DOUBLE.NaN ∧
    PVCV0.get_internal_voltage_in_pu_in_xy_axis sampleExt
      (samplePVCV0_with_resistive_source ℝ) = none := by
  have hdev : (samplePVCV0_with_resistive_source ℝ).device
      = some { samplePvUnit ℝ with source_impedance_in_pu := ⟨1, 0⟩ } := rfl
  have hout : (samplePVCV0_with_resistive_source ℝ).reactive_voltage_commander.output = 0 := by
    simp [samplePVCV0_with_resistive_source, samplePVCV0, sampleBlock, CONVERTER.set_PLLmax,
      CONVERTER.set_KIPLL, CONVERTER.set_KPLL, CONVERTER.call_set_upper_limit,
      CONVERTER.call_set_T_in_s, CONVERTER.record, CONVERTER.setBlock, PVCV0.clear]
  have hpsdb : PVCV0.get_power_system_database (samplePVCV0_with_resistive_source ℝ)
      = some (sampleDatabase ℝ) := by
    simp [PVCV0.get_power_system_database, hdev, samplePvUnit]
  have hZ : PVCV0.get_source_impedance_in_pu_based_on_mbase
      (samplePVCV0_with_resistive_source ℝ) = ⟨1, 0⟩ := by
    simp [PVCV0.get_source_impedance_in_pu_based_on_mbase, hdev]
  refine ⟨hpsdb, ?_, ?_, ?_, ?_, ?_⟩
  · simp [PVCV0.get_mbase_in_MVA, hdev, samplePvUnit]
  · simp [sampleDatabase]
  · rw [hZ]
    simp
  · rw [hZ, hout]
    simp [DOUBLE.div]
  · simp [PVCV0.get_internal_voltage_in_pu_in_xy_axis,
      PVCV0.get_source_Norton_equivalent_complex_current_in_pu_in_xy_axis_based_on_sbase,
      hpsdb, hZ, hout, DOUBLE.div, DOUBLE.lt]

end STEPS
